import Mathlib

/-!
# Vulkan-ValidationLayers: synchronization validation core

A shallow embedding of `layers/sync/sync_validation.h`,
`layers/vulkan/generated/dynamic_state_helper.cpp` and parts of
`layers/gpu_validation/gpu_validation.cpp`.

Only the header of the synchronization validator is part of the sources, so
member functions that are declared there but defined elsewhere are modelled
from the design document; each such definition says so in its doc comment.
Pointers are embedded as `Option` of a handle, `std::vector` as `List`,
`uint32_t` counters as `Nat` with an explicit `% 2 ^ 32`.
-/

namespace SyncVal

/-! ## Tags, ranges and stage/access descriptions -/

/-- Modelled from the spec: the tag type `ResourceUsageTag` (declared in `sync/sync_model.h`), "an
opaque, strictly increasing integer"; the header uses it as an unsigned 64 bit index
(`ResourceCmdUsageRecord::TagIndex`, `access_log_->size()`). -/
abbrev ResourceUsageTag := Nat

/-- Modelled from the spec: `ResourceAccessRange` (declared in `sync/sync_model.h`), "a half-open
byte interval within a flattened linear address space". -/
structure ResourceAccessRange where
  begin_ : Nat
  end_ : Nat
deriving DecidableEq, Repr

/-- Modelled from the spec: a range is non empty when it holds at least one byte. -/
def ResourceAccessRange.non_empty (r : ResourceAccessRange) : Prop := r.begin_ < r.end_

instance (r : ResourceAccessRange) : Decidable r.non_empty := by
  unfold ResourceAccessRange.non_empty; infer_instance

/-- Modelled from the spec: byte membership in a half-open range. -/
def ResourceAccessRange.includes (r : ResourceAccessRange) (x : Nat) : Prop :=
  r.begin_ ≤ x ∧ x < r.end_

instance (r : ResourceAccessRange) (x : Nat) : Decidable (r.includes x) := by
  unfold ResourceAccessRange.includes; infer_instance

/-- Modelled from the spec: two half-open ranges overlap when they share a byte. -/
def ResourceAccessRange.intersects (r s : ResourceAccessRange) : Prop :=
  r.begin_ < s.end_ ∧ s.begin_ < r.end_

instance (r s : ResourceAccessRange) : Decidable (r.intersects s) := by
  unfold ResourceAccessRange.intersects; infer_instance

/-- Modelled from the spec: `range + base_address`, the projection of a resource-relative range
into the flattened linear address space. -/
def ResourceAccessRange.offset (r : ResourceAccessRange) (base : Nat) : ResourceAccessRange :=
  ⟨r.begin_ + base, r.end_ + base⟩

/-- Modelled from the spec: `BUFFER_STATE` (state tracker, outside the sources); the core "only
reads immutable identity/size/layout facts", here the base address of the buffer in the flattened
linear address space. -/
structure BUFFER_STATE where
  base_address : Nat
deriving DecidableEq, Repr

/-- Modelled from the spec: `SyncStageAccessInfoType`, the description behind a
`SyncStageAccessIndex` (declared in `sync/sync_model.h`): the pipeline stage bit, the access-mask
bit, and whether the access is a write. -/
structure SyncStageAccessInfoType where
  stage_mask : Nat
  stage_access_bit : Nat
  is_write : Bool
deriving DecidableEq, Repr

/-- Modelled from the spec: `SyncOrdering`, the "domain-specific exceptions" to hazard detection;
the enumerators are the ones the header names. -/
inductive SyncOrdering
  | kOrderingNone
  | kColorAttachment
  | kDepthStencilAttachment
  | kRaster
deriving DecidableEq, Repr

/-- Modelled from the spec: `SyncBarrier` (declared in `sync/sync_model.h`), "a source
execution/access scope and a destination scope", each a stage mask and an access mask. -/
structure SyncBarrier where
  src_exec_scope : Nat
  src_access_scope : Nat
  dst_exec_scope : Nat
  dst_access_scope : Nat
deriving DecidableEq, Repr

/-- Modelled from the spec: the kinds of hazard a query reports. -/
inductive SyncHazard
  | READ_AFTER_WRITE
  | WRITE_AFTER_READ
  | WRITE_AFTER_WRITE
deriving DecidableEq, Repr

/-- Modelled from the spec: `HazardResult`, the hazard kind together with the tag of the prior
access it refers to. A query returns `Option HazardResult` ("HazardResult|none"). -/
structure HazardResult where
  hazard : SyncHazard
  tag : ResourceUsageTag
deriving DecidableEq, Repr

/-! ## Per-range access state -/

/-- Modelled from the spec: one of the "concurrent last-reads keyed by pipeline stage (each with
its own tag)"; `barriers` is the destination execution scope the read has been ordered before. -/
structure ReadState where
  stage : Nat
  access : Nat
  tag : ResourceUsageTag
  barriers : Nat
deriving DecidableEq, Repr

/-- Modelled from the spec: "the last write (stage/access-mask, tag)"; `barriers` is the
destination access scope and `dependency_chain` the destination execution scope the write has
been ordered before. -/
structure WriteState where
  stage : Nat
  access : Nat
  tag : ResourceUsageTag
  barriers : Nat
  dependency_chain : Nat
deriving DecidableEq, Repr

/-- Modelled from the spec: `ResourceAccessState`, the value stored per range. The "marker of
whether a barrier has already been applied" is the non-zero barrier masks of the accesses. -/
structure ResourceAccessState where
  last_write : Option WriteState
  last_reads : List ReadState
deriving DecidableEq, Repr

/-- Modelled from the spec: a stored read is ordered before the proposed access when the
destination execution scope of an applied barrier holds the stage of the proposed access. -/
def ReadState.IsOrderedBefore (r : ReadState) (usage : SyncStageAccessInfoType) : Bool :=
  decide (usage.stage_mask &&& r.barriers ≠ 0)

/-- Modelled from the spec: a stored write is ordered before the proposed access when the
destination scope of an applied barrier holds both the stage and the access of the proposed
access. -/
def WriteState.IsOrderedBefore (w : WriteState) (usage : SyncStageAccessInfoType) : Bool :=
  decide (usage.stage_mask &&& w.dependency_chain ≠ 0) &&
    decide (usage.stage_access_bit &&& w.barriers ≠ 0)

/-- Modelled from the spec: `ResourceAccessState::DetectHazard`. "A hazard is signaled when the
proposed access is a write and any stored access (read or write) is unordered relative to it, or
the proposed access is a read and the stored write is unordered relative to it." -/
def ResourceAccessState.DetectHazard (s : ResourceAccessState) (usage : SyncStageAccessInfoType) :
    Option HazardResult :=
  if usage.is_write then
    match s.last_reads.find? (fun r => !r.IsOrderedBefore usage) with
    | some r => some ⟨SyncHazard.WRITE_AFTER_READ, r.tag⟩
    | none =>
      match s.last_write with
      | some w =>
        if w.IsOrderedBefore usage then none else some ⟨SyncHazard.WRITE_AFTER_WRITE, w.tag⟩
      | none => none
  else
    match s.last_write with
    | some w =>
      if w.IsOrderedBefore usage then none else some ⟨SyncHazard.READ_AFTER_WRITE, w.tag⟩
    | none => none

/-- Modelled from the spec: `ResourceAccessState::Update`: the new access replaces "the prior
write (and clearing reads that are now superseded)" or is added "to the concurrent-read set",
which is keyed by pipeline stage. -/
def ResourceAccessState.Update (s : ResourceAccessState) (usage : SyncStageAccessInfoType)
    (_ordering_rule : SyncOrdering) (tag : ResourceUsageTag) : ResourceAccessState :=
  if usage.is_write then
    { last_write := some ⟨usage.stage_mask, usage.stage_access_bit, tag, 0, 0⟩, last_reads := [] }
  else
    { s with
      last_reads :=
        s.last_reads.filter (fun r => r.stage ≠ usage.stage_mask) ++
          [⟨usage.stage_mask, usage.stage_access_bit, tag, 0⟩] }

/-- Modelled from the spec: the state of a range nothing has touched yet. -/
def ResourceAccessState.empty : ResourceAccessState := ⟨none, []⟩

/-- Modelled from the spec: `ResourceAccessState::ApplyBarrier`: "every entry whose last
write/reads fall within the source scope is marked as now ordered-before ... any future access
within the destination scope". -/
def ResourceAccessState.ApplyBarrier (s : ResourceAccessState) (barrier : SyncBarrier) :
    ResourceAccessState :=
  { last_write := s.last_write.map (fun w =>
      if w.stage &&& barrier.src_exec_scope ≠ 0 ∧ w.access &&& barrier.src_access_scope ≠ 0 then
        { w with barriers := w.barriers ||| barrier.dst_access_scope,
                 dependency_chain := w.dependency_chain ||| barrier.dst_exec_scope }
      else w),
    last_reads := s.last_reads.map (fun r =>
      if r.stage &&& barrier.src_exec_scope ≠ 0 then
        { r with barriers := r.barriers ||| barrier.dst_exec_scope }
      else r) }

/-! ## The range map -/

/-- Modelled from the spec: one entry of a `ResourceAccessRangeMap`
(`sparse_container::range_map`, outside the sources): a byte range and its access state. -/
structure MapEntry where
  range : ResourceAccessRange
  state : ResourceAccessState
deriving DecidableEq, Repr

/-- Modelled from the spec: `ResourceAccessRangeMap`, a "disjoint mapping from byte ranges of a
resource to accumulated access state", kept in address order. -/
abbrev ResourceAccessRangeMap := List MapEntry

/-- Modelled from the spec: the invariant of the range map: every entry is non empty and the
entries are disjoint and in increasing address order, none starting below `lb`. -/
def RangeMapOrdered : Nat → ResourceAccessRangeMap → Prop
  | _, [] => True
  | lb, e :: es => lb ≤ e.range.begin_ ∧ e.range.begin_ < e.range.end_ ∧
      RangeMapOrdered e.range.end_ es

instance RangeMapOrdered.instDecidable :
    (lb : Nat) → (m : ResourceAccessRangeMap) → Decidable (RangeMapOrdered lb m)
  | _, [] => isTrue trivial
  | lb, e :: es =>
    have := RangeMapOrdered.instDecidable e.range.end_ es
    by unfold RangeMapOrdered; infer_instance

/-- Modelled from the spec: the entry of the map that holds byte `x`, if any. -/
def find_entry (m : ResourceAccessRangeMap) (x : Nat) : Option MapEntry :=
  m.find? (fun e => decide (e.range.includes x))

/-- Modelled from the spec: the infill step of a range update: a gap `[lo, hi)` of the updated
range receives the infill state, when there is one. -/
def infill_gap (infill : Option ResourceAccessState) (lo hi : Nat) : ResourceAccessRangeMap :=
  match infill with
  | some s => if lo < hi then [⟨⟨lo, hi⟩, s⟩] else []
  | none => []

/-- Modelled from the spec: `sparse_container::infill_update_range`: apply `update` to the stored
state of every byte of `[lo, hi)`, "splitting ... range-map entries as needed to keep ranges
disjoint", and give the bytes no entry holds the infill state. -/
def infill_update_range (update : ResourceAccessState → ResourceAccessState)
    (infill : Option ResourceAccessState) :
    Nat → Nat → ResourceAccessRangeMap → ResourceAccessRangeMap
  | lo, hi, [] => infill_gap infill lo hi
  | lo, hi, e :: es =>
    if hi ≤ lo then e :: es
    else if e.range.end_ ≤ lo then e :: infill_update_range update infill lo hi es
    else if hi ≤ e.range.begin_ then infill_gap infill lo hi ++ e :: es
    else
      (if e.range.begin_ < lo then [⟨⟨e.range.begin_, lo⟩, e.state⟩]
        else infill_gap infill lo e.range.begin_) ++
      (if hi < e.range.end_ then
        ⟨⟨max lo e.range.begin_, hi⟩, update e.state⟩ :: ⟨⟨hi, e.range.end_⟩, e.state⟩ :: es
      else
        ⟨⟨max lo e.range.begin_, e.range.end_⟩, update e.state⟩ ::
          infill_update_range update infill e.range.end_ hi es)

/-- Modelled from the spec: the walk of a hazard query over "the overlapping entries of the range
map"; the first hazard found is the one reported. -/
def DetectHazardRange (detector : ResourceAccessState → Option HazardResult)
    (range : ResourceAccessRange) : ResourceAccessRangeMap → Option HazardResult
  | [] => none
  | e :: es =>
    if e.range.intersects range then
      match detector e.state with
      | some hazard => some hazard
      | none => DetectHazardRange detector range es
    else DetectHazardRange detector range es

/-! ## Access contexts -/

/-- The struct `SubpassBarrierTrackback<SubpassNode>`: the barriers of a predecessor edge and the
pointer to the source subpass (`SubpassNode` is the type of references to subpass nodes, a null
pointer is `none`). -/
structure SubpassBarrierTrackback (SubpassNode : Type) where
  barriers : List SyncBarrier
  source_subpass : Option SubpassNode
deriving DecidableEq, Repr

/-- The default constructor `SubpassBarrierTrackback() = default`. -/
def SubpassBarrierTrackback.default (SubpassNode : Type) : SubpassBarrierTrackback SubpassNode :=
  ⟨[], none⟩

/-- The class `AccessContext::AsyncReference`: the referenced context, embedded as the
access-state map a hazard query reads through the pointer, and the start of the open ended
asynchronous range. -/
structure AsyncReference where
  context_ : ResourceAccessRangeMap
  tag_ : ResourceUsageTag
deriving DecidableEq, Repr

/-- The aliased type `AccessContext::TrackBack`; the source context is referred to by its handle. -/
abbrev TrackBack := SubpassBarrierTrackback Nat

/-- The class `AccessContext` with its data members; `prev_by_subpass_` and `src_external_` point
into `prev_` and are embedded as indices. -/
structure AccessContext where
  access_state_map_ : ResourceAccessRangeMap
  prev_ : List TrackBack
  prev_by_subpass_ : List (Option Nat)
  async_ : List AsyncReference
  src_external_ : Option Nat
  dst_external_ : TrackBack
  start_tag_ : ResourceUsageTag
deriving DecidableEq, Repr

/-- The member `AccessContext::Reset`. -/
def AccessContext.Reset (_self : AccessContext) : AccessContext :=
  { prev_ := [],
    prev_by_subpass_ := [],
    async_ := [],
    src_external_ := none,
    dst_external_ := SubpassBarrierTrackback.default Nat,
    start_tag_ := 0,
    access_state_map_ := [] }

/-- The constructor `AccessContext() { Reset(); }`. -/
def AccessContext.new : AccessContext :=
  AccessContext.Reset ⟨[], [], [], [], none, SubpassBarrierTrackback.default Nat, 0⟩

/-- The accessor `AccessContext::GetAccessStateMap`. -/
def AccessContext.GetAccessStateMap (self : AccessContext) : ResourceAccessRangeMap :=
  self.access_state_map_

/-- The accessor `AccessContext::StartTag`. -/
def AccessContext.StartTag (self : AccessContext) : ResourceUsageTag := self.start_tag_

/-- Modelled from the spec: the hazard decision against an asynchronous context: "hazards against
these are unconditional if ranges overlap", so applied barriers are not consulted. -/
def ResourceAccessState.DetectAsyncHazard (s : ResourceAccessState)
    (usage : SyncStageAccessInfoType) : Option HazardResult :=
  if usage.is_write then
    match s.last_reads with
    | r :: _ => some ⟨SyncHazard.WRITE_AFTER_READ, r.tag⟩
    | [] => s.last_write.map (fun w => ⟨SyncHazard.WRITE_AFTER_WRITE, w.tag⟩)
  else
    s.last_write.map (fun w => ⟨SyncHazard.READ_AFTER_WRITE, w.tag⟩)

/-- Modelled from the spec: the check of "all async contexts" of a hazard query. -/
def DetectAsyncHazards (usage : SyncStageAccessInfoType) (range : ResourceAccessRange) :
    List AsyncReference → Option HazardResult
  | [] => none
  | a :: rest =>
    match DetectHazardRange (fun s => s.DetectAsyncHazard usage) range a.context_ with
    | some hazard => some hazard
    | none => DetectAsyncHazards usage range rest

/-- Modelled from the spec: `AccessContext::DetectHazard(buffer, usage_index, range)` (declared in
the header, defined outside the sources): `DetectHazard(range, proposed_access, ordering_rule) →
HazardResult|none` "walks the overlapping entries of the range map" with no ordering exception,
and "any hazard query additionally checks all async contexts unconditionally". -/
def AccessContext.DetectHazard (self : AccessContext) (buffer : BUFFER_STATE)
    (usage : SyncStageAccessInfoType) (range : ResourceAccessRange) : Option HazardResult :=
  match DetectHazardRange (fun s => s.DetectHazard usage) (range.offset buffer.base_address)
      self.access_state_map_ with
  | some hazard => some hazard
  | none => DetectAsyncHazards usage (range.offset buffer.base_address) self.async_

/-- Modelled from the spec: `AccessContext::UpdateAccessState(buffer, current_usage,
ordering_rule, range, tag)` (declared in the header, defined outside the sources): "records the
new access into the state for the range ... splitting/merging range-map entries as needed". -/
def AccessContext.UpdateAccessState (self : AccessContext) (buffer : BUFFER_STATE)
    (current_usage : SyncStageAccessInfoType) (ordering_rule : SyncOrdering)
    (range : ResourceAccessRange) (tag : ResourceUsageTag) : AccessContext :=
  { self with
    access_state_map_ :=
      infill_update_range (fun s => s.Update current_usage ordering_rule tag)
        (some (ResourceAccessState.empty.Update current_usage ordering_rule tag))
        (range.offset buffer.base_address).begin_ (range.offset buffer.base_address).end_
        self.access_state_map_ }

/-- The struct `SyncBufferMemoryBarrier`: a barrier restricted to a range of a buffer. -/
structure SyncBufferMemoryBarrier where
  buffer : BUFFER_STATE
  barrier : SyncBarrier
  range : ResourceAccessRange
deriving DecidableEq, Repr

/-- The accessor `SyncBufferMemoryBarrier::Range`. -/
def SyncBufferMemoryBarrier.Range (b : SyncBufferMemoryBarrier) : ResourceAccessRange := b.range

/-- The struct `SyncOpBarriers::BarrierSet`, with its global and buffer memory barriers (image
barriers need the image range generators, which are outside the sources). -/
structure BarrierSet where
  dependency_flags : Nat
  memory_barriers : List SyncBarrier
  buffer_memory_barriers : List SyncBufferMemoryBarrier
  single_exec_scope : Bool
deriving DecidableEq, Repr

/-- Modelled from the spec: `SyncOpBarriers::ApplyBarriers` for buffer memory barriers (declared
in the header): each barrier is resolved into the entries of its range; bytes without an entry
stay without one. -/
def ApplyBarriers (barriers : List SyncBufferMemoryBarrier) (context : AccessContext) :
    AccessContext :=
  { context with
    access_state_map_ :=
      barriers.foldl
        (fun m b =>
          infill_update_range (fun s => s.ApplyBarrier b.barrier) none
            (b.Range.offset b.buffer.base_address).begin_
            (b.Range.offset b.buffer.base_address).end_ m)
        context.access_state_map_ }

/-- Modelled from the spec: `SyncOpBarriers::ApplyGlobalBarriers` (declared in the header): each
memory barrier is resolved into every entry of the context. -/
def ApplyGlobalBarriers (barriers : List SyncBarrier) (access_context : AccessContext) :
    AccessContext :=
  { access_context with
    access_state_map_ :=
      barriers.foldl
        (fun m b => m.map (fun e => { e with state := e.state.ApplyBarrier b }))
        access_context.access_state_map_ }

/-- Modelled from the spec: the effect of recording a `SyncOpPipelineBarrier` on the access
context it is recorded into ("applies its effect to the local AccessContext"). -/
def BarrierSet.Record (barrier_set : BarrierSet) (context : AccessContext) : AccessContext :=
  ApplyGlobalBarriers barrier_set.memory_barriers
    (ApplyBarriers barrier_set.buffer_memory_barriers context)

/-! ## Resolving one context into another -/

/-- Modelled from the spec: the invariant "last-reads keyed by pipeline stage": no two stored
reads of a state share a stage. -/
def ResourceAccessState.ReadsKeyed (s : ResourceAccessState) : Prop :=
  (s.last_reads.map (fun r => r.stage)).Nodup

instance (s : ResourceAccessState) : Decidable s.ReadsKeyed := by
  unfold ResourceAccessState.ReadsKeyed; infer_instance

/-- Modelled from the spec: the merge of an incoming read into a stored read of the same stage:
the read that is causally after (larger tag) is kept, and the barriers of one and the same read
are united. -/
def ReadState.Merge (x r : ReadState) : ReadState :=
  if x.tag < r.tag then r
  else if x.tag = r.tag then { x with barriers := x.barriers ||| r.barriers }
  else x

/-- Modelled from the spec: the merge of one incoming read into the concurrent-read set. -/
def MergeRead (reads : List ReadState) (r : ReadState) : List ReadState :=
  if reads.any (fun x => decide (x.stage = r.stage)) then
    reads.map (fun x => if x.stage = r.stage then x.Merge r else x)
  else reads ++ [r]

/-- Modelled from the spec: `ResourceAccessState::MergeReads`. -/
def ResourceAccessState.MergeReads (s other : ResourceAccessState) : ResourceAccessState :=
  { s with last_reads := other.last_reads.foldl MergeRead s.last_reads }

/-- Modelled from the spec: the union of the barriers applied to one and the same write. -/
def WriteState.MergeBarriers (w o : WriteState) : WriteState :=
  { w with barriers := w.barriers ||| o.barriers,
           dependency_chain := w.dependency_chain ||| o.dependency_chain }

/-- Modelled from the spec: `ResourceAccessState::Resolve`: merge the incoming state "without
destroying entries in self that already dominate (are causally after) the incoming entry": the
state with the later write wins, states of the same write are merged. -/
def ResourceAccessState.Resolve (s other : ResourceAccessState) : ResourceAccessState :=
  match s.last_write, other.last_write with
  | some w, some o =>
    if w.tag < o.tag then other
    else if w.tag = o.tag then
      ResourceAccessState.MergeReads { s with last_write := some (w.MergeBarriers o) } other
    else s
  | some _, none => s
  | none, some _ => other
  | none, none => s.MergeReads other

/-- Modelled from the spec: `AccessContext::ResolveFromContext(resolve_op, from_context)` (a
template declared in the header): "for every entry in `from`, apply `barrier_action` ... and merge
into `self`"; bytes `self` holds no entry for receive a copy of the incoming state. -/
def AccessContext.ResolveFromContext (self : AccessContext)
    (resolve_op : ResourceAccessState → ResourceAccessState) (from_context : AccessContext) :
    AccessContext :=
  { self with
    access_state_map_ :=
      from_context.access_state_map_.foldl
        (fun m e =>
          infill_update_range (fun s => s.Resolve (resolve_op e.state))
            (some (resolve_op e.state)) e.range.begin_ e.range.end_ m)
        self.access_state_map_ }

/-! ## Usage records and the command buffer access context -/

/-- Modelled from the spec: the struct `VulkanTypedHandle` (declared outside the sources), with
the two members the header reads: the raw handle and the object type. -/
structure VulkanTypedHandle where
  handle : Nat
  type : Nat
deriving DecidableEq, Repr

/-- The constant `NamedHandle::kInvalidIndex`, `std::numeric_limits<size_t>::max()`. -/
def kInvalidIndex : Nat := 2 ^ 64 - 1

/-- The struct `NamedHandle`. -/
structure NamedHandle where
  name : String
  handle : VulkanTypedHandle
  index : Nat
deriving DecidableEq, Repr

/-- The enum class `ResourceCmdUsageRecord::SubcommandType`. -/
inductive SubcommandType
  | kNone
  | kSubpassTransition
  | kLoadOp
  | kStoreOp
  | kResolveOp
  | kIndex
deriving DecidableEq, Repr

/-- The struct `ResourceUsageRecord` (with the members of its base `ResourceCmdUsageRecord`);
`command` is the `vvl::Func` value, `cb_state` the handle of the command buffer state and
`alt_usage` the handle of the alternate usage record. -/
structure ResourceUsageRecord where
  command : Nat
  seq_num : Nat
  sub_command_type : SubcommandType
  sub_command : Nat
  cb_state : Option Nat
  reset_count : Nat
  handles : List NamedHandle
  alt_usage : Option Nat
deriving DecidableEq, Repr

/-- The constructor `ResourceUsageRecord(command_, seq_num_, sub_type_, sub_command_, cb_state_,
reset_count_)`. -/
def ResourceUsageRecord.mk6 (command_ seq_num_ : Nat) (sub_type_ : SubcommandType)
    (sub_command_ : Nat) (cb_state_ : Option Nat) (reset_count_ : Nat) : ResourceUsageRecord :=
  { command := command_, seq_num := seq_num_, sub_command_type := sub_type_,
    sub_command := sub_command_, cb_state := cb_state_, reset_count := reset_count_,
    handles := [], alt_usage := none }

/-- The member `ResourceCmdUsageRecord::AddHandle`. -/
def ResourceUsageRecord.AddHandle (r : ResourceUsageRecord) (h : NamedHandle) :
    ResourceUsageRecord :=
  { r with handles := r.handles ++ [h] }

/-- The struct `SyncEventState`, with the members the header initialises by value (the execution
scope and the first-scope context, whose types are declared outside the sources, are left out). -/
structure SyncEventState where
  event : Option Nat
  last_command : Nat
  last_command_tag : ResourceUsageTag
  unsynchronized_set : Nat
  barriers : Nat
  first_scope_tag : ResourceUsageTag
  destroyed : Bool
deriving DecidableEq, Repr

/-- The class `SyncEventsContext`: the map from event state to its synchronization state. -/
structure SyncEventsContext where
  map_ : List (Nat × SyncEventState)
deriving DecidableEq, Repr

/-- The member `SyncEventsContext::Clear`. -/
def SyncEventsContext.Clear (_self : SyncEventsContext) : SyncEventsContext := ⟨[]⟩

/-- The class `RenderPassAccessContext`, with the render pass state handle, the current subpass
and the subpass contexts. -/
structure RenderPassAccessContext where
  rp_state_ : Option Nat
  current_subpass_ : Nat
  subpass_contexts_ : List AccessContext
deriving DecidableEq, Repr

/-- The class hierarchy under `SyncOpBase`, as a closed variant; a pipeline barrier carries its
barrier set, the other operations their `vvl::Func` command. -/
inductive SyncOpBase
  | SyncOpPipelineBarrier (command : Nat) (barriers_ : BarrierSet)
  | SyncOpWaitEvents (command : Nat)
  | SyncOpResetEvent (command : Nat)
  | SyncOpSetEvent (command : Nat)
  | SyncOpBeginRenderPass (command : Nat)
  | SyncOpNextSubpass (command : Nat)
  | SyncOpEndRenderPass (command : Nat)
deriving DecidableEq, Repr

/-- The struct `CommandBufferAccessContext::SyncOpEntry`. -/
structure SyncOpEntry where
  tag : ResourceUsageTag
  sync_op : SyncOpBase
deriving DecidableEq, Repr

/-- The target of the pointer `current_context_`: the access context of the command buffer itself
or a subpass context of one of its render pass contexts. -/
inductive AccessContextPtr
  | cb_access_context
  | subpass_context (render_pass subpass : Nat)
deriving DecidableEq, Repr

/-- The class `CommandBufferAccessContext` with its data members. `cb_state_` is the handle of the
command buffer state (`none` is the null pointer), `cbs_referenced_` the shared set of referenced
command buffers (`none` once the shared pointer is reset), `current_renderpass_context_` an index
into `render_pass_contexts_`, `dynamic_rendering_info_` the handle of the owned rendering info. -/
structure CommandBufferAccessContext where
  cb_state_ : Option Nat
  access_log_ : List ResourceUsageRecord
  cbs_referenced_ : Option (List Nat)
  command_number_ : Nat
  subcommand_number_ : Nat
  reset_count_ : Nat
  command_handles_ : List NamedHandle
  cb_access_context_ : AccessContext
  current_context_ : AccessContextPtr
  events_context_ : SyncEventsContext
  render_pass_contexts_ : List RenderPassAccessContext
  current_renderpass_context_ : Option Nat
  sync_ops_ : List SyncOpEntry
  dynamic_rendering_info_ : Option Nat
deriving DecidableEq, Repr

/-- The constructor `CommandBufferAccessContext(const SyncValidator *sync_validator = nullptr)`. -/
def CommandBufferAccessContext.new : CommandBufferAccessContext :=
  { cb_state_ := none,
    access_log_ := [],
    cbs_referenced_ := some [],
    command_number_ := 0,
    subcommand_number_ := 0,
    reset_count_ := 0,
    command_handles_ := [],
    cb_access_context_ := AccessContext.new,
    current_context_ := AccessContextPtr.cb_access_context,
    events_context_ := ⟨[]⟩,
    render_pass_contexts_ := [],
    current_renderpass_context_ := none,
    sync_ops_ := [],
    dynamic_rendering_info_ := none }

/-- The constructor `CommandBufferAccessContext(SyncValidator &sync_validator, CMD_BUFFER_STATE
*cb_state)`. -/
def CommandBufferAccessContext.new_for (cb_state : Option Nat) : CommandBufferAccessContext :=
  { CommandBufferAccessContext.new with cb_state_ := cb_state }

/-- The member `CommandBufferAccessContext::Destroy`. -/
def CommandBufferAccessContext.Destroy (self : CommandBufferAccessContext) :
    CommandBufferAccessContext :=
  { self with cbs_referenced_ := none, cb_state_ := none }

/-- The member `CommandBufferAccessContext::Reset`; `reset_count_++` is a 32 bit increment. -/
def CommandBufferAccessContext.Reset (self : CommandBufferAccessContext) :
    CommandBufferAccessContext :=
  { self with
    access_log_ := [],
    cbs_referenced_ :=
      some (match self.cb_state_ with
        | some cb => [cb]
        | none => []),
    sync_ops_ := [],
    command_number_ := 0,
    subcommand_number_ := 0,
    reset_count_ := (self.reset_count_ + 1) % 2 ^ 32,
    command_handles_ := [],
    cb_access_context_ := self.cb_access_context_.Reset,
    render_pass_contexts_ := [],
    current_context_ := AccessContextPtr.cb_access_context,
    current_renderpass_context_ := none,
    events_context_ := self.events_context_.Clear,
    dynamic_rendering_info_ := none }

/-- The member `CommandBufferAccessContext::GetTagLimit`, `access_log_->size()`. -/
def CommandBufferAccessContext.GetTagLimit (self : CommandBufferAccessContext) :
    ResourceUsageTag :=
  self.access_log_.length

/-- The member `CommandBufferAccessContext::GetCurrentAccessContext`: the context
`current_context_` points to, if the pointer is valid. -/
def CommandBufferAccessContext.GetCurrentAccessContext (self : CommandBufferAccessContext) :
    Option AccessContext :=
  match self.current_context_ with
  | AccessContextPtr.cb_access_context => some self.cb_access_context_
  | AccessContextPtr.subpass_context rp sp =>
    (self.render_pass_contexts_.get? rp).bind (fun c => c.subpass_contexts_.get? sp)

/-- The member `CommandBufferAccessContext::GetCurrentRenderPassContext`. -/
def CommandBufferAccessContext.GetCurrentRenderPassContext (self : CommandBufferAccessContext) :
    Option Nat :=
  self.current_renderpass_context_

/-- The member `CommandBufferAccessContext::GetSyncOps`. -/
def CommandBufferAccessContext.GetSyncOps (self : CommandBufferAccessContext) :
    List SyncOpEntry :=
  self.sync_ops_

/-- The member template `CommandBufferAccessContext::AddHandle(tag, args...)`: the handle is added
to the record of `tag` when `tag < access_log_->size()`, and nothing happens otherwise. -/
def CommandBufferAccessContext.AddHandle (self : CommandBufferAccessContext)
    (tag : ResourceUsageTag) (h : NamedHandle) : CommandBufferAccessContext :=
  if tag < self.access_log_.length then
    { self with access_log_ := self.access_log_.modify (fun r => r.AddHandle h) tag }
  else self

/-- Modelled from the spec: `CommandBufferAccessContext::NextCommandTag(command, subcommand)`
(declared in the header, defined outside the sources): `Append(record) → tag` "appends to the
per-scope log"; the record carries the "originating command kind, per-command sequence number,
sub-operation kind ..., owning command-buffer identity, a generation counter". -/
def CommandBufferAccessContext.NextCommandTag (self : CommandBufferAccessContext) (command : Nat)
    (subcommand : SubcommandType) : ResourceUsageTag × CommandBufferAccessContext :=
  let command_number := (self.command_number_ + 1) % 2 ^ 32
  (self.access_log_.length,
    { self with
      command_number_ := command_number,
      subcommand_number_ := 0,
      command_handles_ := [],
      access_log_ := self.access_log_ ++
        [ResourceUsageRecord.mk6 command command_number subcommand 0 self.cb_state_
          self.reset_count_] })

/-- Modelled from the spec: `CommandBufferAccessContext::NextSubcommandTag(command, subcommand)`
(declared in the header, defined outside the sources): a further record of the current command. -/
def CommandBufferAccessContext.NextSubcommandTag (self : CommandBufferAccessContext)
    (command : Nat) (subcommand : SubcommandType) :
    ResourceUsageTag × CommandBufferAccessContext :=
  let subcommand_number := (self.subcommand_number_ + 1) % 2 ^ 32
  (self.access_log_.length,
    { self with
      subcommand_number_ := subcommand_number,
      access_log_ := self.access_log_ ++
        [{ ResourceUsageRecord.mk6 command self.command_number_ subcommand subcommand_number
            self.cb_state_ self.reset_count_ with handles := self.command_handles_ }] })

/-- Modelled from the spec: `CommandBufferAccessContext::NextCommandTag(command, handle,
subcommand)` (declared in the header, defined outside the sources): the tagged record also names
the resource handle. -/
def CommandBufferAccessContext.NextCommandTagHandle (self : CommandBufferAccessContext)
    (command : Nat) (handle : NamedHandle) (subcommand : SubcommandType) :
    ResourceUsageTag × CommandBufferAccessContext :=
  let next := self.NextCommandTag command subcommand
  (next.1, { next.2.AddHandle next.1 handle with command_handles_ := [handle] })

/-- Modelled from the spec: `CommandBufferAccessContext::NextSubcommandTag(command, handle,
subcommand)` (declared in the header, defined outside the sources). -/
def CommandBufferAccessContext.NextSubcommandTagHandle (self : CommandBufferAccessContext)
    (command : Nat) (handle : NamedHandle) (subcommand : SubcommandType) :
    ResourceUsageTag × CommandBufferAccessContext :=
  let next := self.NextSubcommandTag command subcommand
  (next.1, next.2.AddHandle next.1 handle)

/-- Modelled from the spec: `CommandBufferAccessContext::NextIndexedCommandTag(command, index)`
(declared in the header, defined outside the sources): index 0 opens the command, the later
indices are sub-operations of kind "indexed". -/
def CommandBufferAccessContext.NextIndexedCommandTag (self : CommandBufferAccessContext)
    (command : Nat) (index : Nat) : ResourceUsageTag × CommandBufferAccessContext :=
  if index = 0 then self.NextCommandTag command SubcommandType.kIndex
  else self.NextSubcommandTag command SubcommandType.kIndex

/-- A tag request made on a command buffer access context. -/
inductive TagRequest
  | NextCommandTag (command : Nat) (subcommand : SubcommandType)
  | NextCommandTagHandle (command : Nat) (handle : NamedHandle) (subcommand : SubcommandType)
  | NextSubcommandTag (command : Nat) (subcommand : SubcommandType)
  | NextSubcommandTagHandle (command : Nat) (handle : NamedHandle) (subcommand : SubcommandType)
  | NextIndexedCommandTag (command : Nat) (index : Nat)
deriving DecidableEq, Repr

/-- Serve one tag request. -/
def CommandBufferAccessContext.request (self : CommandBufferAccessContext) :
    TagRequest → ResourceUsageTag × CommandBufferAccessContext
  | TagRequest.NextCommandTag c s => self.NextCommandTag c s
  | TagRequest.NextCommandTagHandle c h s => self.NextCommandTagHandle c h s
  | TagRequest.NextSubcommandTag c s => self.NextSubcommandTag c s
  | TagRequest.NextSubcommandTagHandle c h s => self.NextSubcommandTagHandle c h s
  | TagRequest.NextIndexedCommandTag c i => self.NextIndexedCommandTag c i

/-- Serve a sequence of tag requests in call order; every call contributes the tag it returned and
the value of `GetTagLimit()` right after it. -/
def CommandBufferAccessContext.requests (self : CommandBufferAccessContext) :
    List TagRequest → List (ResourceUsageTag × ResourceUsageTag) × CommandBufferAccessContext
  | [] => ([], self)
  | r :: rs =>
    let next := self.request r
    let rest := CommandBufferAccessContext.requests next.2 rs
    ((next.1, next.2.GetTagLimit) :: rest.1, rest.2)

/-! ## The global tag counter -/

/-- Modelled from the spec: the struct `ResourceUsageRange` (declared in `sync/sync_model.h`), a
half-open range of tags `[start, start+count)`. -/
structure ResourceUsageRange where
  begin_ : ResourceUsageTag
  end_ : ResourceUsageTag
deriving DecidableEq, Repr

/-- The class `SyncValidator`, as far as the tag counter goes: `tag_limit_` is the atomic 64 bit
counter of the global tag range. -/
structure SyncValidator where
  tag_limit_ : ResourceUsageTag
deriving DecidableEq, Repr

/-- The constructor `SyncValidator()`: `tag_limit_{1}`, "Started the global tag count at 1 s.t.
zero are invalid". -/
def SyncValidator.new : SyncValidator := ⟨1⟩

/-- Modelled from the spec: `SyncValidator::ReserveGlobalTagRange(tag_count)` (declared in the
header, defined outside the sources): `ReserveRange(count) → [start, start+count)` "atomically
reserves a contiguous tag range" by a 64 bit fetch-and-add on `tag_limit_`. -/
def SyncValidator.ReserveGlobalTagRange (self : SyncValidator) (tag_count : Nat) :
    ResourceUsageRange × SyncValidator :=
  (⟨self.tag_limit_, (self.tag_limit_ + tag_count) % 2 ^ 64⟩,
    ⟨(self.tag_limit_ + tag_count) % 2 ^ 64⟩)

/-- Serve a sequence of reservations in order, collecting the reserved ranges. -/
def SyncValidator.reserve_all (self : SyncValidator) :
    List Nat → List ResourceUsageRange × SyncValidator
  | [] => ([], self)
  | c :: cs =>
    let next := self.ReserveGlobalTagRange c
    let rest := SyncValidator.reserve_all next.2 cs
    (next.1 :: rest.1, rest.2)

/-! ## Dynamic state conversion (`dynamic_state_helper.cpp`) -/

/-- Modelled from the spec: the enum `CBDynamicState`, declared in the generated header
`dynamic_state_helper.h`, which is not part of the sources; a value of the enum is embedded as
its underlying integer, so that values without an enumerator are values too. -/
abbrev CBDynamicState := Nat

/-- Modelled from the spec: enumerator 1 of `CBDynamicState` (the enumerators are numbered
from 1 in the order of the generated switch, "enum is not zero based"). -/
@[match_pattern] def CB_DYNAMIC_STATE_VIEWPORT : CBDynamicState := 1

/-- Modelled from the spec: enumerator 2 of `CBDynamicState` (the enumerators are numbered
from 1 in the order of the generated switch, "enum is not zero based"). -/
@[match_pattern] def CB_DYNAMIC_STATE_SCISSOR : CBDynamicState := 2

/-- Modelled from the spec: enumerator 3 of `CBDynamicState` (the enumerators are numbered
from 1 in the order of the generated switch, "enum is not zero based"). -/
@[match_pattern] def CB_DYNAMIC_STATE_LINE_WIDTH : CBDynamicState := 3

/-- Modelled from the spec: enumerator 4 of `CBDynamicState` (the enumerators are numbered
from 1 in the order of the generated switch, "enum is not zero based"). -/
@[match_pattern] def CB_DYNAMIC_STATE_DEPTH_BIAS : CBDynamicState := 4

/-- Modelled from the spec: enumerator 5 of `CBDynamicState` (the enumerators are numbered
from 1 in the order of the generated switch, "enum is not zero based"). -/
@[match_pattern] def CB_DYNAMIC_STATE_BLEND_CONSTANTS : CBDynamicState := 5

/-- Modelled from the spec: enumerator 6 of `CBDynamicState` (the enumerators are numbered
from 1 in the order of the generated switch, "enum is not zero based"). -/
@[match_pattern] def CB_DYNAMIC_STATE_DEPTH_BOUNDS : CBDynamicState := 6

/-- Modelled from the spec: enumerator 7 of `CBDynamicState` (the enumerators are numbered
from 1 in the order of the generated switch, "enum is not zero based"). -/
@[match_pattern] def CB_DYNAMIC_STATE_STENCIL_COMPARE_MASK : CBDynamicState := 7

/-- Modelled from the spec: enumerator 8 of `CBDynamicState` (the enumerators are numbered
from 1 in the order of the generated switch, "enum is not zero based"). -/
@[match_pattern] def CB_DYNAMIC_STATE_STENCIL_WRITE_MASK : CBDynamicState := 8

/-- Modelled from the spec: enumerator 9 of `CBDynamicState` (the enumerators are numbered
from 1 in the order of the generated switch, "enum is not zero based"). -/
@[match_pattern] def CB_DYNAMIC_STATE_STENCIL_REFERENCE : CBDynamicState := 9

/-- Modelled from the spec: enumerator 10 of `CBDynamicState` (the enumerators are numbered
from 1 in the order of the generated switch, "enum is not zero based"). -/
@[match_pattern] def CB_DYNAMIC_STATE_CULL_MODE : CBDynamicState := 10

/-- Modelled from the spec: enumerator 11 of `CBDynamicState` (the enumerators are numbered
from 1 in the order of the generated switch, "enum is not zero based"). -/
@[match_pattern] def CB_DYNAMIC_STATE_FRONT_FACE : CBDynamicState := 11

/-- Modelled from the spec: enumerator 12 of `CBDynamicState` (the enumerators are numbered
from 1 in the order of the generated switch, "enum is not zero based"). -/
@[match_pattern] def CB_DYNAMIC_STATE_PRIMITIVE_TOPOLOGY : CBDynamicState := 12

/-- Modelled from the spec: enumerator 13 of `CBDynamicState` (the enumerators are numbered
from 1 in the order of the generated switch, "enum is not zero based"). -/
@[match_pattern] def CB_DYNAMIC_STATE_VIEWPORT_WITH_COUNT : CBDynamicState := 13

/-- Modelled from the spec: enumerator 14 of `CBDynamicState` (the enumerators are numbered
from 1 in the order of the generated switch, "enum is not zero based"). -/
@[match_pattern] def CB_DYNAMIC_STATE_SCISSOR_WITH_COUNT : CBDynamicState := 14

/-- Modelled from the spec: enumerator 15 of `CBDynamicState` (the enumerators are numbered
from 1 in the order of the generated switch, "enum is not zero based"). -/
@[match_pattern] def CB_DYNAMIC_STATE_VERTEX_INPUT_BINDING_STRIDE : CBDynamicState := 15

/-- Modelled from the spec: enumerator 16 of `CBDynamicState` (the enumerators are numbered
from 1 in the order of the generated switch, "enum is not zero based"). -/
@[match_pattern] def CB_DYNAMIC_STATE_DEPTH_TEST_ENABLE : CBDynamicState := 16

/-- Modelled from the spec: enumerator 17 of `CBDynamicState` (the enumerators are numbered
from 1 in the order of the generated switch, "enum is not zero based"). -/
@[match_pattern] def CB_DYNAMIC_STATE_DEPTH_WRITE_ENABLE : CBDynamicState := 17

/-- Modelled from the spec: enumerator 18 of `CBDynamicState` (the enumerators are numbered
from 1 in the order of the generated switch, "enum is not zero based"). -/
@[match_pattern] def CB_DYNAMIC_STATE_DEPTH_COMPARE_OP : CBDynamicState := 18

/-- Modelled from the spec: enumerator 19 of `CBDynamicState` (the enumerators are numbered
from 1 in the order of the generated switch, "enum is not zero based"). -/
@[match_pattern] def CB_DYNAMIC_STATE_DEPTH_BOUNDS_TEST_ENABLE : CBDynamicState := 19

/-- Modelled from the spec: enumerator 20 of `CBDynamicState` (the enumerators are numbered
from 1 in the order of the generated switch, "enum is not zero based"). -/
@[match_pattern] def CB_DYNAMIC_STATE_STENCIL_TEST_ENABLE : CBDynamicState := 20

/-- Modelled from the spec: enumerator 21 of `CBDynamicState` (the enumerators are numbered
from 1 in the order of the generated switch, "enum is not zero based"). -/
@[match_pattern] def CB_DYNAMIC_STATE_STENCIL_OP : CBDynamicState := 21

/-- Modelled from the spec: enumerator 22 of `CBDynamicState` (the enumerators are numbered
from 1 in the order of the generated switch, "enum is not zero based"). -/
@[match_pattern] def CB_DYNAMIC_STATE_RASTERIZER_DISCARD_ENABLE : CBDynamicState := 22

/-- Modelled from the spec: enumerator 23 of `CBDynamicState` (the enumerators are numbered
from 1 in the order of the generated switch, "enum is not zero based"). -/
@[match_pattern] def CB_DYNAMIC_STATE_DEPTH_BIAS_ENABLE : CBDynamicState := 23

/-- Modelled from the spec: enumerator 24 of `CBDynamicState` (the enumerators are numbered
from 1 in the order of the generated switch, "enum is not zero based"). -/
@[match_pattern] def CB_DYNAMIC_STATE_PRIMITIVE_RESTART_ENABLE : CBDynamicState := 24

/-- Modelled from the spec: enumerator 25 of `CBDynamicState` (the enumerators are numbered
from 1 in the order of the generated switch, "enum is not zero based"). -/
@[match_pattern] def CB_DYNAMIC_STATE_VIEWPORT_W_SCALING_NV : CBDynamicState := 25

/-- Modelled from the spec: enumerator 26 of `CBDynamicState` (the enumerators are numbered
from 1 in the order of the generated switch, "enum is not zero based"). -/
@[match_pattern] def CB_DYNAMIC_STATE_DISCARD_RECTANGLE_EXT : CBDynamicState := 26

/-- Modelled from the spec: enumerator 27 of `CBDynamicState` (the enumerators are numbered
from 1 in the order of the generated switch, "enum is not zero based"). -/
@[match_pattern] def CB_DYNAMIC_STATE_DISCARD_RECTANGLE_ENABLE_EXT : CBDynamicState := 27

/-- Modelled from the spec: enumerator 28 of `CBDynamicState` (the enumerators are numbered
from 1 in the order of the generated switch, "enum is not zero based"). -/
@[match_pattern] def CB_DYNAMIC_STATE_DISCARD_RECTANGLE_MODE_EXT : CBDynamicState := 28

/-- Modelled from the spec: enumerator 29 of `CBDynamicState` (the enumerators are numbered
from 1 in the order of the generated switch, "enum is not zero based"). -/
@[match_pattern] def CB_DYNAMIC_STATE_SAMPLE_LOCATIONS_EXT : CBDynamicState := 29

/-- Modelled from the spec: enumerator 30 of `CBDynamicState` (the enumerators are numbered
from 1 in the order of the generated switch, "enum is not zero based"). -/
@[match_pattern] def CB_DYNAMIC_STATE_RAY_TRACING_PIPELINE_STACK_SIZE_KHR : CBDynamicState := 30

/-- Modelled from the spec: enumerator 31 of `CBDynamicState` (the enumerators are numbered
from 1 in the order of the generated switch, "enum is not zero based"). -/
@[match_pattern] def CB_DYNAMIC_STATE_VIEWPORT_SHADING_RATE_PALETTE_NV : CBDynamicState := 31

/-- Modelled from the spec: enumerator 32 of `CBDynamicState` (the enumerators are numbered
from 1 in the order of the generated switch, "enum is not zero based"). -/
@[match_pattern] def CB_DYNAMIC_STATE_VIEWPORT_COARSE_SAMPLE_ORDER_NV : CBDynamicState := 32

/-- Modelled from the spec: enumerator 33 of `CBDynamicState` (the enumerators are numbered
from 1 in the order of the generated switch, "enum is not zero based"). -/
@[match_pattern] def CB_DYNAMIC_STATE_EXCLUSIVE_SCISSOR_ENABLE_NV : CBDynamicState := 33

/-- Modelled from the spec: enumerator 34 of `CBDynamicState` (the enumerators are numbered
from 1 in the order of the generated switch, "enum is not zero based"). -/
@[match_pattern] def CB_DYNAMIC_STATE_EXCLUSIVE_SCISSOR_NV : CBDynamicState := 34

/-- Modelled from the spec: enumerator 35 of `CBDynamicState` (the enumerators are numbered
from 1 in the order of the generated switch, "enum is not zero based"). -/
@[match_pattern] def CB_DYNAMIC_STATE_FRAGMENT_SHADING_RATE_KHR : CBDynamicState := 35

/-- Modelled from the spec: enumerator 36 of `CBDynamicState` (the enumerators are numbered
from 1 in the order of the generated switch, "enum is not zero based"). -/
@[match_pattern] def CB_DYNAMIC_STATE_LINE_STIPPLE_EXT : CBDynamicState := 36

/-- Modelled from the spec: enumerator 37 of `CBDynamicState` (the enumerators are numbered
from 1 in the order of the generated switch, "enum is not zero based"). -/
@[match_pattern] def CB_DYNAMIC_STATE_VERTEX_INPUT_EXT : CBDynamicState := 37

/-- Modelled from the spec: enumerator 38 of `CBDynamicState` (the enumerators are numbered
from 1 in the order of the generated switch, "enum is not zero based"). -/
@[match_pattern] def CB_DYNAMIC_STATE_PATCH_CONTROL_POINTS_EXT : CBDynamicState := 38

/-- Modelled from the spec: enumerator 39 of `CBDynamicState` (the enumerators are numbered
from 1 in the order of the generated switch, "enum is not zero based"). -/
@[match_pattern] def CB_DYNAMIC_STATE_LOGIC_OP_EXT : CBDynamicState := 39

/-- Modelled from the spec: enumerator 40 of `CBDynamicState` (the enumerators are numbered
from 1 in the order of the generated switch, "enum is not zero based"). -/
@[match_pattern] def CB_DYNAMIC_STATE_COLOR_WRITE_ENABLE_EXT : CBDynamicState := 40

/-- Modelled from the spec: enumerator 41 of `CBDynamicState` (the enumerators are numbered
from 1 in the order of the generated switch, "enum is not zero based"). -/
@[match_pattern] def CB_DYNAMIC_STATE_TESSELLATION_DOMAIN_ORIGIN_EXT : CBDynamicState := 41

/-- Modelled from the spec: enumerator 42 of `CBDynamicState` (the enumerators are numbered
from 1 in the order of the generated switch, "enum is not zero based"). -/
@[match_pattern] def CB_DYNAMIC_STATE_DEPTH_CLAMP_ENABLE_EXT : CBDynamicState := 42

/-- Modelled from the spec: enumerator 43 of `CBDynamicState` (the enumerators are numbered
from 1 in the order of the generated switch, "enum is not zero based"). -/
@[match_pattern] def CB_DYNAMIC_STATE_POLYGON_MODE_EXT : CBDynamicState := 43

/-- Modelled from the spec: enumerator 44 of `CBDynamicState` (the enumerators are numbered
from 1 in the order of the generated switch, "enum is not zero based"). -/
@[match_pattern] def CB_DYNAMIC_STATE_RASTERIZATION_SAMPLES_EXT : CBDynamicState := 44

/-- Modelled from the spec: enumerator 45 of `CBDynamicState` (the enumerators are numbered
from 1 in the order of the generated switch, "enum is not zero based"). -/
@[match_pattern] def CB_DYNAMIC_STATE_SAMPLE_MASK_EXT : CBDynamicState := 45

/-- Modelled from the spec: enumerator 46 of `CBDynamicState` (the enumerators are numbered
from 1 in the order of the generated switch, "enum is not zero based"). -/
@[match_pattern] def CB_DYNAMIC_STATE_ALPHA_TO_COVERAGE_ENABLE_EXT : CBDynamicState := 46

/-- Modelled from the spec: enumerator 47 of `CBDynamicState` (the enumerators are numbered
from 1 in the order of the generated switch, "enum is not zero based"). -/
@[match_pattern] def CB_DYNAMIC_STATE_ALPHA_TO_ONE_ENABLE_EXT : CBDynamicState := 47

/-- Modelled from the spec: enumerator 48 of `CBDynamicState` (the enumerators are numbered
from 1 in the order of the generated switch, "enum is not zero based"). -/
@[match_pattern] def CB_DYNAMIC_STATE_LOGIC_OP_ENABLE_EXT : CBDynamicState := 48

/-- Modelled from the spec: enumerator 49 of `CBDynamicState` (the enumerators are numbered
from 1 in the order of the generated switch, "enum is not zero based"). -/
@[match_pattern] def CB_DYNAMIC_STATE_COLOR_BLEND_ENABLE_EXT : CBDynamicState := 49

/-- Modelled from the spec: enumerator 50 of `CBDynamicState` (the enumerators are numbered
from 1 in the order of the generated switch, "enum is not zero based"). -/
@[match_pattern] def CB_DYNAMIC_STATE_COLOR_BLEND_EQUATION_EXT : CBDynamicState := 50

/-- Modelled from the spec: enumerator 51 of `CBDynamicState` (the enumerators are numbered
from 1 in the order of the generated switch, "enum is not zero based"). -/
@[match_pattern] def CB_DYNAMIC_STATE_COLOR_WRITE_MASK_EXT : CBDynamicState := 51

/-- Modelled from the spec: enumerator 52 of `CBDynamicState` (the enumerators are numbered
from 1 in the order of the generated switch, "enum is not zero based"). -/
@[match_pattern] def CB_DYNAMIC_STATE_RASTERIZATION_STREAM_EXT : CBDynamicState := 52

/-- Modelled from the spec: enumerator 53 of `CBDynamicState` (the enumerators are numbered
from 1 in the order of the generated switch, "enum is not zero based"). -/
@[match_pattern] def CB_DYNAMIC_STATE_CONSERVATIVE_RASTERIZATION_MODE_EXT : CBDynamicState := 53

/-- Modelled from the spec: enumerator 54 of `CBDynamicState` (the enumerators are numbered
from 1 in the order of the generated switch, "enum is not zero based"). -/
@[match_pattern] def CB_DYNAMIC_STATE_EXTRA_PRIMITIVE_OVERESTIMATION_SIZE_EXT : CBDynamicState := 54

/-- Modelled from the spec: enumerator 55 of `CBDynamicState` (the enumerators are numbered
from 1 in the order of the generated switch, "enum is not zero based"). -/
@[match_pattern] def CB_DYNAMIC_STATE_DEPTH_CLIP_ENABLE_EXT : CBDynamicState := 55

/-- Modelled from the spec: enumerator 56 of `CBDynamicState` (the enumerators are numbered
from 1 in the order of the generated switch, "enum is not zero based"). -/
@[match_pattern] def CB_DYNAMIC_STATE_SAMPLE_LOCATIONS_ENABLE_EXT : CBDynamicState := 56

/-- Modelled from the spec: enumerator 57 of `CBDynamicState` (the enumerators are numbered
from 1 in the order of the generated switch, "enum is not zero based"). -/
@[match_pattern] def CB_DYNAMIC_STATE_COLOR_BLEND_ADVANCED_EXT : CBDynamicState := 57

/-- Modelled from the spec: enumerator 58 of `CBDynamicState` (the enumerators are numbered
from 1 in the order of the generated switch, "enum is not zero based"). -/
@[match_pattern] def CB_DYNAMIC_STATE_PROVOKING_VERTEX_MODE_EXT : CBDynamicState := 58

/-- Modelled from the spec: enumerator 59 of `CBDynamicState` (the enumerators are numbered
from 1 in the order of the generated switch, "enum is not zero based"). -/
@[match_pattern] def CB_DYNAMIC_STATE_LINE_RASTERIZATION_MODE_EXT : CBDynamicState := 59

/-- Modelled from the spec: enumerator 60 of `CBDynamicState` (the enumerators are numbered
from 1 in the order of the generated switch, "enum is not zero based"). -/
@[match_pattern] def CB_DYNAMIC_STATE_LINE_STIPPLE_ENABLE_EXT : CBDynamicState := 60

/-- Modelled from the spec: enumerator 61 of `CBDynamicState` (the enumerators are numbered
from 1 in the order of the generated switch, "enum is not zero based"). -/
@[match_pattern] def CB_DYNAMIC_STATE_DEPTH_CLIP_NEGATIVE_ONE_TO_ONE_EXT : CBDynamicState := 61

/-- Modelled from the spec: enumerator 62 of `CBDynamicState` (the enumerators are numbered
from 1 in the order of the generated switch, "enum is not zero based"). -/
@[match_pattern] def CB_DYNAMIC_STATE_VIEWPORT_W_SCALING_ENABLE_NV : CBDynamicState := 62

/-- Modelled from the spec: enumerator 63 of `CBDynamicState` (the enumerators are numbered
from 1 in the order of the generated switch, "enum is not zero based"). -/
@[match_pattern] def CB_DYNAMIC_STATE_VIEWPORT_SWIZZLE_NV : CBDynamicState := 63

/-- Modelled from the spec: enumerator 64 of `CBDynamicState` (the enumerators are numbered
from 1 in the order of the generated switch, "enum is not zero based"). -/
@[match_pattern] def CB_DYNAMIC_STATE_COVERAGE_TO_COLOR_ENABLE_NV : CBDynamicState := 64

/-- Modelled from the spec: enumerator 65 of `CBDynamicState` (the enumerators are numbered
from 1 in the order of the generated switch, "enum is not zero based"). -/
@[match_pattern] def CB_DYNAMIC_STATE_COVERAGE_TO_COLOR_LOCATION_NV : CBDynamicState := 65

/-- Modelled from the spec: enumerator 66 of `CBDynamicState` (the enumerators are numbered
from 1 in the order of the generated switch, "enum is not zero based"). -/
@[match_pattern] def CB_DYNAMIC_STATE_COVERAGE_MODULATION_MODE_NV : CBDynamicState := 66

/-- Modelled from the spec: enumerator 67 of `CBDynamicState` (the enumerators are numbered
from 1 in the order of the generated switch, "enum is not zero based"). -/
@[match_pattern] def CB_DYNAMIC_STATE_COVERAGE_MODULATION_TABLE_ENABLE_NV : CBDynamicState := 67

/-- Modelled from the spec: enumerator 68 of `CBDynamicState` (the enumerators are numbered
from 1 in the order of the generated switch, "enum is not zero based"). -/
@[match_pattern] def CB_DYNAMIC_STATE_COVERAGE_MODULATION_TABLE_NV : CBDynamicState := 68

/-- Modelled from the spec: enumerator 69 of `CBDynamicState` (the enumerators are numbered
from 1 in the order of the generated switch, "enum is not zero based"). -/
@[match_pattern] def CB_DYNAMIC_STATE_SHADING_RATE_IMAGE_ENABLE_NV : CBDynamicState := 69

/-- Modelled from the spec: enumerator 70 of `CBDynamicState` (the enumerators are numbered
from 1 in the order of the generated switch, "enum is not zero based"). -/
@[match_pattern] def CB_DYNAMIC_STATE_REPRESENTATIVE_FRAGMENT_TEST_ENABLE_NV : CBDynamicState := 70

/-- Modelled from the spec: enumerator 71 of `CBDynamicState` (the enumerators are numbered
from 1 in the order of the generated switch, "enum is not zero based"). -/
@[match_pattern] def CB_DYNAMIC_STATE_COVERAGE_REDUCTION_MODE_NV : CBDynamicState := 71

/-- Modelled from the spec: enumerator 72 of `CBDynamicState` (the enumerators are numbered
from 1 in the order of the generated switch, "enum is not zero based"). -/
@[match_pattern] def CB_DYNAMIC_STATE_ATTACHMENT_FEEDBACK_LOOP_ENABLE_EXT : CBDynamicState := 72

/-- Modelled from the spec: the enumerator `CB_DYNAMIC_STATE_STATUS_NUM` that closes the enum
`CBDynamicState`, one past the last state. -/
@[match_pattern] def CB_DYNAMIC_STATE_STATUS_NUM : CBDynamicState := 73

/-- Modelled from the spec: the Vulkan enum `VkDynamicState` (Vulkan headers, not part of the
sources), with the enumerators the file names; distinct enumerators are distinct values. -/
inductive VkDynamicState
  | VK_DYNAMIC_STATE_VIEWPORT
  | VK_DYNAMIC_STATE_SCISSOR
  | VK_DYNAMIC_STATE_LINE_WIDTH
  | VK_DYNAMIC_STATE_DEPTH_BIAS
  | VK_DYNAMIC_STATE_BLEND_CONSTANTS
  | VK_DYNAMIC_STATE_DEPTH_BOUNDS
  | VK_DYNAMIC_STATE_STENCIL_COMPARE_MASK
  | VK_DYNAMIC_STATE_STENCIL_WRITE_MASK
  | VK_DYNAMIC_STATE_STENCIL_REFERENCE
  | VK_DYNAMIC_STATE_CULL_MODE
  | VK_DYNAMIC_STATE_FRONT_FACE
  | VK_DYNAMIC_STATE_PRIMITIVE_TOPOLOGY
  | VK_DYNAMIC_STATE_VIEWPORT_WITH_COUNT
  | VK_DYNAMIC_STATE_SCISSOR_WITH_COUNT
  | VK_DYNAMIC_STATE_VERTEX_INPUT_BINDING_STRIDE
  | VK_DYNAMIC_STATE_DEPTH_TEST_ENABLE
  | VK_DYNAMIC_STATE_DEPTH_WRITE_ENABLE
  | VK_DYNAMIC_STATE_DEPTH_COMPARE_OP
  | VK_DYNAMIC_STATE_DEPTH_BOUNDS_TEST_ENABLE
  | VK_DYNAMIC_STATE_STENCIL_TEST_ENABLE
  | VK_DYNAMIC_STATE_STENCIL_OP
  | VK_DYNAMIC_STATE_RASTERIZER_DISCARD_ENABLE
  | VK_DYNAMIC_STATE_DEPTH_BIAS_ENABLE
  | VK_DYNAMIC_STATE_PRIMITIVE_RESTART_ENABLE
  | VK_DYNAMIC_STATE_VIEWPORT_W_SCALING_NV
  | VK_DYNAMIC_STATE_DISCARD_RECTANGLE_EXT
  | VK_DYNAMIC_STATE_DISCARD_RECTANGLE_ENABLE_EXT
  | VK_DYNAMIC_STATE_DISCARD_RECTANGLE_MODE_EXT
  | VK_DYNAMIC_STATE_SAMPLE_LOCATIONS_EXT
  | VK_DYNAMIC_STATE_RAY_TRACING_PIPELINE_STACK_SIZE_KHR
  | VK_DYNAMIC_STATE_VIEWPORT_SHADING_RATE_PALETTE_NV
  | VK_DYNAMIC_STATE_VIEWPORT_COARSE_SAMPLE_ORDER_NV
  | VK_DYNAMIC_STATE_EXCLUSIVE_SCISSOR_ENABLE_NV
  | VK_DYNAMIC_STATE_EXCLUSIVE_SCISSOR_NV
  | VK_DYNAMIC_STATE_FRAGMENT_SHADING_RATE_KHR
  | VK_DYNAMIC_STATE_LINE_STIPPLE_EXT
  | VK_DYNAMIC_STATE_VERTEX_INPUT_EXT
  | VK_DYNAMIC_STATE_PATCH_CONTROL_POINTS_EXT
  | VK_DYNAMIC_STATE_LOGIC_OP_EXT
  | VK_DYNAMIC_STATE_COLOR_WRITE_ENABLE_EXT
  | VK_DYNAMIC_STATE_TESSELLATION_DOMAIN_ORIGIN_EXT
  | VK_DYNAMIC_STATE_DEPTH_CLAMP_ENABLE_EXT
  | VK_DYNAMIC_STATE_POLYGON_MODE_EXT
  | VK_DYNAMIC_STATE_RASTERIZATION_SAMPLES_EXT
  | VK_DYNAMIC_STATE_SAMPLE_MASK_EXT
  | VK_DYNAMIC_STATE_ALPHA_TO_COVERAGE_ENABLE_EXT
  | VK_DYNAMIC_STATE_ALPHA_TO_ONE_ENABLE_EXT
  | VK_DYNAMIC_STATE_LOGIC_OP_ENABLE_EXT
  | VK_DYNAMIC_STATE_COLOR_BLEND_ENABLE_EXT
  | VK_DYNAMIC_STATE_COLOR_BLEND_EQUATION_EXT
  | VK_DYNAMIC_STATE_COLOR_WRITE_MASK_EXT
  | VK_DYNAMIC_STATE_RASTERIZATION_STREAM_EXT
  | VK_DYNAMIC_STATE_CONSERVATIVE_RASTERIZATION_MODE_EXT
  | VK_DYNAMIC_STATE_EXTRA_PRIMITIVE_OVERESTIMATION_SIZE_EXT
  | VK_DYNAMIC_STATE_DEPTH_CLIP_ENABLE_EXT
  | VK_DYNAMIC_STATE_SAMPLE_LOCATIONS_ENABLE_EXT
  | VK_DYNAMIC_STATE_COLOR_BLEND_ADVANCED_EXT
  | VK_DYNAMIC_STATE_PROVOKING_VERTEX_MODE_EXT
  | VK_DYNAMIC_STATE_LINE_RASTERIZATION_MODE_EXT
  | VK_DYNAMIC_STATE_LINE_STIPPLE_ENABLE_EXT
  | VK_DYNAMIC_STATE_DEPTH_CLIP_NEGATIVE_ONE_TO_ONE_EXT
  | VK_DYNAMIC_STATE_VIEWPORT_W_SCALING_ENABLE_NV
  | VK_DYNAMIC_STATE_VIEWPORT_SWIZZLE_NV
  | VK_DYNAMIC_STATE_COVERAGE_TO_COLOR_ENABLE_NV
  | VK_DYNAMIC_STATE_COVERAGE_TO_COLOR_LOCATION_NV
  | VK_DYNAMIC_STATE_COVERAGE_MODULATION_MODE_NV
  | VK_DYNAMIC_STATE_COVERAGE_MODULATION_TABLE_ENABLE_NV
  | VK_DYNAMIC_STATE_COVERAGE_MODULATION_TABLE_NV
  | VK_DYNAMIC_STATE_SHADING_RATE_IMAGE_ENABLE_NV
  | VK_DYNAMIC_STATE_REPRESENTATIVE_FRAGMENT_TEST_ENABLE_NV
  | VK_DYNAMIC_STATE_COVERAGE_REDUCTION_MODE_NV
  | VK_DYNAMIC_STATE_ATTACHMENT_FEEDBACK_LOOP_ENABLE_EXT
  | VK_DYNAMIC_STATE_MAX_ENUM
deriving DecidableEq, Repr

/-- The function `ConvertToDynamicState`. -/
def ConvertToDynamicState (dynamic_state : CBDynamicState) : VkDynamicState :=
  match dynamic_state with
  | CB_DYNAMIC_STATE_VIEWPORT => VkDynamicState.VK_DYNAMIC_STATE_VIEWPORT
  | CB_DYNAMIC_STATE_SCISSOR => VkDynamicState.VK_DYNAMIC_STATE_SCISSOR
  | CB_DYNAMIC_STATE_LINE_WIDTH => VkDynamicState.VK_DYNAMIC_STATE_LINE_WIDTH
  | CB_DYNAMIC_STATE_DEPTH_BIAS => VkDynamicState.VK_DYNAMIC_STATE_DEPTH_BIAS
  | CB_DYNAMIC_STATE_BLEND_CONSTANTS => VkDynamicState.VK_DYNAMIC_STATE_BLEND_CONSTANTS
  | CB_DYNAMIC_STATE_DEPTH_BOUNDS => VkDynamicState.VK_DYNAMIC_STATE_DEPTH_BOUNDS
  | CB_DYNAMIC_STATE_STENCIL_COMPARE_MASK => VkDynamicState.VK_DYNAMIC_STATE_STENCIL_COMPARE_MASK
  | CB_DYNAMIC_STATE_STENCIL_WRITE_MASK => VkDynamicState.VK_DYNAMIC_STATE_STENCIL_WRITE_MASK
  | CB_DYNAMIC_STATE_STENCIL_REFERENCE => VkDynamicState.VK_DYNAMIC_STATE_STENCIL_REFERENCE
  | CB_DYNAMIC_STATE_CULL_MODE => VkDynamicState.VK_DYNAMIC_STATE_CULL_MODE
  | CB_DYNAMIC_STATE_FRONT_FACE => VkDynamicState.VK_DYNAMIC_STATE_FRONT_FACE
  | CB_DYNAMIC_STATE_PRIMITIVE_TOPOLOGY => VkDynamicState.VK_DYNAMIC_STATE_PRIMITIVE_TOPOLOGY
  | CB_DYNAMIC_STATE_VIEWPORT_WITH_COUNT => VkDynamicState.VK_DYNAMIC_STATE_VIEWPORT_WITH_COUNT
  | CB_DYNAMIC_STATE_SCISSOR_WITH_COUNT => VkDynamicState.VK_DYNAMIC_STATE_SCISSOR_WITH_COUNT
  | CB_DYNAMIC_STATE_VERTEX_INPUT_BINDING_STRIDE => VkDynamicState.VK_DYNAMIC_STATE_VERTEX_INPUT_BINDING_STRIDE
  | CB_DYNAMIC_STATE_DEPTH_TEST_ENABLE => VkDynamicState.VK_DYNAMIC_STATE_DEPTH_TEST_ENABLE
  | CB_DYNAMIC_STATE_DEPTH_WRITE_ENABLE => VkDynamicState.VK_DYNAMIC_STATE_DEPTH_WRITE_ENABLE
  | CB_DYNAMIC_STATE_DEPTH_COMPARE_OP => VkDynamicState.VK_DYNAMIC_STATE_DEPTH_COMPARE_OP
  | CB_DYNAMIC_STATE_DEPTH_BOUNDS_TEST_ENABLE => VkDynamicState.VK_DYNAMIC_STATE_DEPTH_BOUNDS_TEST_ENABLE
  | CB_DYNAMIC_STATE_STENCIL_TEST_ENABLE => VkDynamicState.VK_DYNAMIC_STATE_STENCIL_TEST_ENABLE
  | CB_DYNAMIC_STATE_STENCIL_OP => VkDynamicState.VK_DYNAMIC_STATE_STENCIL_OP
  | CB_DYNAMIC_STATE_RASTERIZER_DISCARD_ENABLE => VkDynamicState.VK_DYNAMIC_STATE_RASTERIZER_DISCARD_ENABLE
  | CB_DYNAMIC_STATE_DEPTH_BIAS_ENABLE => VkDynamicState.VK_DYNAMIC_STATE_DEPTH_BIAS_ENABLE
  | CB_DYNAMIC_STATE_PRIMITIVE_RESTART_ENABLE => VkDynamicState.VK_DYNAMIC_STATE_PRIMITIVE_RESTART_ENABLE
  | CB_DYNAMIC_STATE_VIEWPORT_W_SCALING_NV => VkDynamicState.VK_DYNAMIC_STATE_VIEWPORT_W_SCALING_NV
  | CB_DYNAMIC_STATE_DISCARD_RECTANGLE_EXT => VkDynamicState.VK_DYNAMIC_STATE_DISCARD_RECTANGLE_EXT
  | CB_DYNAMIC_STATE_DISCARD_RECTANGLE_ENABLE_EXT => VkDynamicState.VK_DYNAMIC_STATE_DISCARD_RECTANGLE_ENABLE_EXT
  | CB_DYNAMIC_STATE_DISCARD_RECTANGLE_MODE_EXT => VkDynamicState.VK_DYNAMIC_STATE_DISCARD_RECTANGLE_MODE_EXT
  | CB_DYNAMIC_STATE_SAMPLE_LOCATIONS_EXT => VkDynamicState.VK_DYNAMIC_STATE_SAMPLE_LOCATIONS_EXT
  | CB_DYNAMIC_STATE_RAY_TRACING_PIPELINE_STACK_SIZE_KHR => VkDynamicState.VK_DYNAMIC_STATE_RAY_TRACING_PIPELINE_STACK_SIZE_KHR
  | CB_DYNAMIC_STATE_VIEWPORT_SHADING_RATE_PALETTE_NV => VkDynamicState.VK_DYNAMIC_STATE_VIEWPORT_SHADING_RATE_PALETTE_NV
  | CB_DYNAMIC_STATE_VIEWPORT_COARSE_SAMPLE_ORDER_NV => VkDynamicState.VK_DYNAMIC_STATE_VIEWPORT_COARSE_SAMPLE_ORDER_NV
  | CB_DYNAMIC_STATE_EXCLUSIVE_SCISSOR_ENABLE_NV => VkDynamicState.VK_DYNAMIC_STATE_EXCLUSIVE_SCISSOR_ENABLE_NV
  | CB_DYNAMIC_STATE_EXCLUSIVE_SCISSOR_NV => VkDynamicState.VK_DYNAMIC_STATE_EXCLUSIVE_SCISSOR_NV
  | CB_DYNAMIC_STATE_FRAGMENT_SHADING_RATE_KHR => VkDynamicState.VK_DYNAMIC_STATE_FRAGMENT_SHADING_RATE_KHR
  | CB_DYNAMIC_STATE_LINE_STIPPLE_EXT => VkDynamicState.VK_DYNAMIC_STATE_LINE_STIPPLE_EXT
  | CB_DYNAMIC_STATE_VERTEX_INPUT_EXT => VkDynamicState.VK_DYNAMIC_STATE_VERTEX_INPUT_EXT
  | CB_DYNAMIC_STATE_PATCH_CONTROL_POINTS_EXT => VkDynamicState.VK_DYNAMIC_STATE_PATCH_CONTROL_POINTS_EXT
  | CB_DYNAMIC_STATE_LOGIC_OP_EXT => VkDynamicState.VK_DYNAMIC_STATE_LOGIC_OP_EXT
  | CB_DYNAMIC_STATE_COLOR_WRITE_ENABLE_EXT => VkDynamicState.VK_DYNAMIC_STATE_COLOR_WRITE_ENABLE_EXT
  | CB_DYNAMIC_STATE_TESSELLATION_DOMAIN_ORIGIN_EXT => VkDynamicState.VK_DYNAMIC_STATE_TESSELLATION_DOMAIN_ORIGIN_EXT
  | CB_DYNAMIC_STATE_DEPTH_CLAMP_ENABLE_EXT => VkDynamicState.VK_DYNAMIC_STATE_DEPTH_CLAMP_ENABLE_EXT
  | CB_DYNAMIC_STATE_POLYGON_MODE_EXT => VkDynamicState.VK_DYNAMIC_STATE_POLYGON_MODE_EXT
  | CB_DYNAMIC_STATE_RASTERIZATION_SAMPLES_EXT => VkDynamicState.VK_DYNAMIC_STATE_RASTERIZATION_SAMPLES_EXT
  | CB_DYNAMIC_STATE_SAMPLE_MASK_EXT => VkDynamicState.VK_DYNAMIC_STATE_SAMPLE_MASK_EXT
  | CB_DYNAMIC_STATE_ALPHA_TO_COVERAGE_ENABLE_EXT => VkDynamicState.VK_DYNAMIC_STATE_ALPHA_TO_COVERAGE_ENABLE_EXT
  | CB_DYNAMIC_STATE_ALPHA_TO_ONE_ENABLE_EXT => VkDynamicState.VK_DYNAMIC_STATE_ALPHA_TO_ONE_ENABLE_EXT
  | CB_DYNAMIC_STATE_LOGIC_OP_ENABLE_EXT => VkDynamicState.VK_DYNAMIC_STATE_LOGIC_OP_ENABLE_EXT
  | CB_DYNAMIC_STATE_COLOR_BLEND_ENABLE_EXT => VkDynamicState.VK_DYNAMIC_STATE_COLOR_BLEND_ENABLE_EXT
  | CB_DYNAMIC_STATE_COLOR_BLEND_EQUATION_EXT => VkDynamicState.VK_DYNAMIC_STATE_COLOR_BLEND_EQUATION_EXT
  | CB_DYNAMIC_STATE_COLOR_WRITE_MASK_EXT => VkDynamicState.VK_DYNAMIC_STATE_COLOR_WRITE_MASK_EXT
  | CB_DYNAMIC_STATE_RASTERIZATION_STREAM_EXT => VkDynamicState.VK_DYNAMIC_STATE_RASTERIZATION_STREAM_EXT
  | CB_DYNAMIC_STATE_CONSERVATIVE_RASTERIZATION_MODE_EXT => VkDynamicState.VK_DYNAMIC_STATE_CONSERVATIVE_RASTERIZATION_MODE_EXT
  | CB_DYNAMIC_STATE_EXTRA_PRIMITIVE_OVERESTIMATION_SIZE_EXT => VkDynamicState.VK_DYNAMIC_STATE_EXTRA_PRIMITIVE_OVERESTIMATION_SIZE_EXT
  | CB_DYNAMIC_STATE_DEPTH_CLIP_ENABLE_EXT => VkDynamicState.VK_DYNAMIC_STATE_DEPTH_CLIP_ENABLE_EXT
  | CB_DYNAMIC_STATE_SAMPLE_LOCATIONS_ENABLE_EXT => VkDynamicState.VK_DYNAMIC_STATE_SAMPLE_LOCATIONS_ENABLE_EXT
  | CB_DYNAMIC_STATE_COLOR_BLEND_ADVANCED_EXT => VkDynamicState.VK_DYNAMIC_STATE_COLOR_BLEND_ADVANCED_EXT
  | CB_DYNAMIC_STATE_PROVOKING_VERTEX_MODE_EXT => VkDynamicState.VK_DYNAMIC_STATE_PROVOKING_VERTEX_MODE_EXT
  | CB_DYNAMIC_STATE_LINE_RASTERIZATION_MODE_EXT => VkDynamicState.VK_DYNAMIC_STATE_LINE_RASTERIZATION_MODE_EXT
  | CB_DYNAMIC_STATE_LINE_STIPPLE_ENABLE_EXT => VkDynamicState.VK_DYNAMIC_STATE_LINE_STIPPLE_ENABLE_EXT
  | CB_DYNAMIC_STATE_DEPTH_CLIP_NEGATIVE_ONE_TO_ONE_EXT => VkDynamicState.VK_DYNAMIC_STATE_DEPTH_CLIP_NEGATIVE_ONE_TO_ONE_EXT
  | CB_DYNAMIC_STATE_VIEWPORT_W_SCALING_ENABLE_NV => VkDynamicState.VK_DYNAMIC_STATE_VIEWPORT_W_SCALING_ENABLE_NV
  | CB_DYNAMIC_STATE_VIEWPORT_SWIZZLE_NV => VkDynamicState.VK_DYNAMIC_STATE_VIEWPORT_SWIZZLE_NV
  | CB_DYNAMIC_STATE_COVERAGE_TO_COLOR_ENABLE_NV => VkDynamicState.VK_DYNAMIC_STATE_COVERAGE_TO_COLOR_ENABLE_NV
  | CB_DYNAMIC_STATE_COVERAGE_TO_COLOR_LOCATION_NV => VkDynamicState.VK_DYNAMIC_STATE_COVERAGE_TO_COLOR_LOCATION_NV
  | CB_DYNAMIC_STATE_COVERAGE_MODULATION_MODE_NV => VkDynamicState.VK_DYNAMIC_STATE_COVERAGE_MODULATION_MODE_NV
  | CB_DYNAMIC_STATE_COVERAGE_MODULATION_TABLE_ENABLE_NV => VkDynamicState.VK_DYNAMIC_STATE_COVERAGE_MODULATION_TABLE_ENABLE_NV
  | CB_DYNAMIC_STATE_COVERAGE_MODULATION_TABLE_NV => VkDynamicState.VK_DYNAMIC_STATE_COVERAGE_MODULATION_TABLE_NV
  | CB_DYNAMIC_STATE_SHADING_RATE_IMAGE_ENABLE_NV => VkDynamicState.VK_DYNAMIC_STATE_SHADING_RATE_IMAGE_ENABLE_NV
  | CB_DYNAMIC_STATE_REPRESENTATIVE_FRAGMENT_TEST_ENABLE_NV => VkDynamicState.VK_DYNAMIC_STATE_REPRESENTATIVE_FRAGMENT_TEST_ENABLE_NV
  | CB_DYNAMIC_STATE_COVERAGE_REDUCTION_MODE_NV => VkDynamicState.VK_DYNAMIC_STATE_COVERAGE_REDUCTION_MODE_NV
  | CB_DYNAMIC_STATE_ATTACHMENT_FEEDBACK_LOOP_ENABLE_EXT => VkDynamicState.VK_DYNAMIC_STATE_ATTACHMENT_FEEDBACK_LOOP_ENABLE_EXT
  | _ => VkDynamicState.VK_DYNAMIC_STATE_MAX_ENUM

/-- The function `ConvertToCBDynamicState`. -/
def ConvertToCBDynamicState (dynamic_state : VkDynamicState) : CBDynamicState :=
  match dynamic_state with
  | VkDynamicState.VK_DYNAMIC_STATE_VIEWPORT => CB_DYNAMIC_STATE_VIEWPORT
  | VkDynamicState.VK_DYNAMIC_STATE_SCISSOR => CB_DYNAMIC_STATE_SCISSOR
  | VkDynamicState.VK_DYNAMIC_STATE_LINE_WIDTH => CB_DYNAMIC_STATE_LINE_WIDTH
  | VkDynamicState.VK_DYNAMIC_STATE_DEPTH_BIAS => CB_DYNAMIC_STATE_DEPTH_BIAS
  | VkDynamicState.VK_DYNAMIC_STATE_BLEND_CONSTANTS => CB_DYNAMIC_STATE_BLEND_CONSTANTS
  | VkDynamicState.VK_DYNAMIC_STATE_DEPTH_BOUNDS => CB_DYNAMIC_STATE_DEPTH_BOUNDS
  | VkDynamicState.VK_DYNAMIC_STATE_STENCIL_COMPARE_MASK => CB_DYNAMIC_STATE_STENCIL_COMPARE_MASK
  | VkDynamicState.VK_DYNAMIC_STATE_STENCIL_WRITE_MASK => CB_DYNAMIC_STATE_STENCIL_WRITE_MASK
  | VkDynamicState.VK_DYNAMIC_STATE_STENCIL_REFERENCE => CB_DYNAMIC_STATE_STENCIL_REFERENCE
  | VkDynamicState.VK_DYNAMIC_STATE_CULL_MODE => CB_DYNAMIC_STATE_CULL_MODE
  | VkDynamicState.VK_DYNAMIC_STATE_FRONT_FACE => CB_DYNAMIC_STATE_FRONT_FACE
  | VkDynamicState.VK_DYNAMIC_STATE_PRIMITIVE_TOPOLOGY => CB_DYNAMIC_STATE_PRIMITIVE_TOPOLOGY
  | VkDynamicState.VK_DYNAMIC_STATE_VIEWPORT_WITH_COUNT => CB_DYNAMIC_STATE_VIEWPORT_WITH_COUNT
  | VkDynamicState.VK_DYNAMIC_STATE_SCISSOR_WITH_COUNT => CB_DYNAMIC_STATE_SCISSOR_WITH_COUNT
  | VkDynamicState.VK_DYNAMIC_STATE_VERTEX_INPUT_BINDING_STRIDE => CB_DYNAMIC_STATE_VERTEX_INPUT_BINDING_STRIDE
  | VkDynamicState.VK_DYNAMIC_STATE_DEPTH_TEST_ENABLE => CB_DYNAMIC_STATE_DEPTH_TEST_ENABLE
  | VkDynamicState.VK_DYNAMIC_STATE_DEPTH_WRITE_ENABLE => CB_DYNAMIC_STATE_DEPTH_WRITE_ENABLE
  | VkDynamicState.VK_DYNAMIC_STATE_DEPTH_COMPARE_OP => CB_DYNAMIC_STATE_DEPTH_COMPARE_OP
  | VkDynamicState.VK_DYNAMIC_STATE_DEPTH_BOUNDS_TEST_ENABLE => CB_DYNAMIC_STATE_DEPTH_BOUNDS_TEST_ENABLE
  | VkDynamicState.VK_DYNAMIC_STATE_STENCIL_TEST_ENABLE => CB_DYNAMIC_STATE_STENCIL_TEST_ENABLE
  | VkDynamicState.VK_DYNAMIC_STATE_STENCIL_OP => CB_DYNAMIC_STATE_STENCIL_OP
  | VkDynamicState.VK_DYNAMIC_STATE_RASTERIZER_DISCARD_ENABLE => CB_DYNAMIC_STATE_RASTERIZER_DISCARD_ENABLE
  | VkDynamicState.VK_DYNAMIC_STATE_DEPTH_BIAS_ENABLE => CB_DYNAMIC_STATE_DEPTH_BIAS_ENABLE
  | VkDynamicState.VK_DYNAMIC_STATE_PRIMITIVE_RESTART_ENABLE => CB_DYNAMIC_STATE_PRIMITIVE_RESTART_ENABLE
  | VkDynamicState.VK_DYNAMIC_STATE_VIEWPORT_W_SCALING_NV => CB_DYNAMIC_STATE_VIEWPORT_W_SCALING_NV
  | VkDynamicState.VK_DYNAMIC_STATE_DISCARD_RECTANGLE_EXT => CB_DYNAMIC_STATE_DISCARD_RECTANGLE_EXT
  | VkDynamicState.VK_DYNAMIC_STATE_DISCARD_RECTANGLE_ENABLE_EXT => CB_DYNAMIC_STATE_DISCARD_RECTANGLE_ENABLE_EXT
  | VkDynamicState.VK_DYNAMIC_STATE_DISCARD_RECTANGLE_MODE_EXT => CB_DYNAMIC_STATE_DISCARD_RECTANGLE_MODE_EXT
  | VkDynamicState.VK_DYNAMIC_STATE_SAMPLE_LOCATIONS_EXT => CB_DYNAMIC_STATE_SAMPLE_LOCATIONS_EXT
  | VkDynamicState.VK_DYNAMIC_STATE_RAY_TRACING_PIPELINE_STACK_SIZE_KHR => CB_DYNAMIC_STATE_RAY_TRACING_PIPELINE_STACK_SIZE_KHR
  | VkDynamicState.VK_DYNAMIC_STATE_VIEWPORT_SHADING_RATE_PALETTE_NV => CB_DYNAMIC_STATE_VIEWPORT_SHADING_RATE_PALETTE_NV
  | VkDynamicState.VK_DYNAMIC_STATE_VIEWPORT_COARSE_SAMPLE_ORDER_NV => CB_DYNAMIC_STATE_VIEWPORT_COARSE_SAMPLE_ORDER_NV
  | VkDynamicState.VK_DYNAMIC_STATE_EXCLUSIVE_SCISSOR_ENABLE_NV => CB_DYNAMIC_STATE_EXCLUSIVE_SCISSOR_ENABLE_NV
  | VkDynamicState.VK_DYNAMIC_STATE_EXCLUSIVE_SCISSOR_NV => CB_DYNAMIC_STATE_EXCLUSIVE_SCISSOR_NV
  | VkDynamicState.VK_DYNAMIC_STATE_FRAGMENT_SHADING_RATE_KHR => CB_DYNAMIC_STATE_FRAGMENT_SHADING_RATE_KHR
  | VkDynamicState.VK_DYNAMIC_STATE_LINE_STIPPLE_EXT => CB_DYNAMIC_STATE_LINE_STIPPLE_EXT
  | VkDynamicState.VK_DYNAMIC_STATE_VERTEX_INPUT_EXT => CB_DYNAMIC_STATE_VERTEX_INPUT_EXT
  | VkDynamicState.VK_DYNAMIC_STATE_PATCH_CONTROL_POINTS_EXT => CB_DYNAMIC_STATE_PATCH_CONTROL_POINTS_EXT
  | VkDynamicState.VK_DYNAMIC_STATE_LOGIC_OP_EXT => CB_DYNAMIC_STATE_LOGIC_OP_EXT
  | VkDynamicState.VK_DYNAMIC_STATE_COLOR_WRITE_ENABLE_EXT => CB_DYNAMIC_STATE_COLOR_WRITE_ENABLE_EXT
  | VkDynamicState.VK_DYNAMIC_STATE_TESSELLATION_DOMAIN_ORIGIN_EXT => CB_DYNAMIC_STATE_TESSELLATION_DOMAIN_ORIGIN_EXT
  | VkDynamicState.VK_DYNAMIC_STATE_DEPTH_CLAMP_ENABLE_EXT => CB_DYNAMIC_STATE_DEPTH_CLAMP_ENABLE_EXT
  | VkDynamicState.VK_DYNAMIC_STATE_POLYGON_MODE_EXT => CB_DYNAMIC_STATE_POLYGON_MODE_EXT
  | VkDynamicState.VK_DYNAMIC_STATE_RASTERIZATION_SAMPLES_EXT => CB_DYNAMIC_STATE_RASTERIZATION_SAMPLES_EXT
  | VkDynamicState.VK_DYNAMIC_STATE_SAMPLE_MASK_EXT => CB_DYNAMIC_STATE_SAMPLE_MASK_EXT
  | VkDynamicState.VK_DYNAMIC_STATE_ALPHA_TO_COVERAGE_ENABLE_EXT => CB_DYNAMIC_STATE_ALPHA_TO_COVERAGE_ENABLE_EXT
  | VkDynamicState.VK_DYNAMIC_STATE_ALPHA_TO_ONE_ENABLE_EXT => CB_DYNAMIC_STATE_ALPHA_TO_ONE_ENABLE_EXT
  | VkDynamicState.VK_DYNAMIC_STATE_LOGIC_OP_ENABLE_EXT => CB_DYNAMIC_STATE_LOGIC_OP_ENABLE_EXT
  | VkDynamicState.VK_DYNAMIC_STATE_COLOR_BLEND_ENABLE_EXT => CB_DYNAMIC_STATE_COLOR_BLEND_ENABLE_EXT
  | VkDynamicState.VK_DYNAMIC_STATE_COLOR_BLEND_EQUATION_EXT => CB_DYNAMIC_STATE_COLOR_BLEND_EQUATION_EXT
  | VkDynamicState.VK_DYNAMIC_STATE_COLOR_WRITE_MASK_EXT => CB_DYNAMIC_STATE_COLOR_WRITE_MASK_EXT
  | VkDynamicState.VK_DYNAMIC_STATE_RASTERIZATION_STREAM_EXT => CB_DYNAMIC_STATE_RASTERIZATION_STREAM_EXT
  | VkDynamicState.VK_DYNAMIC_STATE_CONSERVATIVE_RASTERIZATION_MODE_EXT => CB_DYNAMIC_STATE_CONSERVATIVE_RASTERIZATION_MODE_EXT
  | VkDynamicState.VK_DYNAMIC_STATE_EXTRA_PRIMITIVE_OVERESTIMATION_SIZE_EXT => CB_DYNAMIC_STATE_EXTRA_PRIMITIVE_OVERESTIMATION_SIZE_EXT
  | VkDynamicState.VK_DYNAMIC_STATE_DEPTH_CLIP_ENABLE_EXT => CB_DYNAMIC_STATE_DEPTH_CLIP_ENABLE_EXT
  | VkDynamicState.VK_DYNAMIC_STATE_SAMPLE_LOCATIONS_ENABLE_EXT => CB_DYNAMIC_STATE_SAMPLE_LOCATIONS_ENABLE_EXT
  | VkDynamicState.VK_DYNAMIC_STATE_COLOR_BLEND_ADVANCED_EXT => CB_DYNAMIC_STATE_COLOR_BLEND_ADVANCED_EXT
  | VkDynamicState.VK_DYNAMIC_STATE_PROVOKING_VERTEX_MODE_EXT => CB_DYNAMIC_STATE_PROVOKING_VERTEX_MODE_EXT
  | VkDynamicState.VK_DYNAMIC_STATE_LINE_RASTERIZATION_MODE_EXT => CB_DYNAMIC_STATE_LINE_RASTERIZATION_MODE_EXT
  | VkDynamicState.VK_DYNAMIC_STATE_LINE_STIPPLE_ENABLE_EXT => CB_DYNAMIC_STATE_LINE_STIPPLE_ENABLE_EXT
  | VkDynamicState.VK_DYNAMIC_STATE_DEPTH_CLIP_NEGATIVE_ONE_TO_ONE_EXT => CB_DYNAMIC_STATE_DEPTH_CLIP_NEGATIVE_ONE_TO_ONE_EXT
  | VkDynamicState.VK_DYNAMIC_STATE_VIEWPORT_W_SCALING_ENABLE_NV => CB_DYNAMIC_STATE_VIEWPORT_W_SCALING_ENABLE_NV
  | VkDynamicState.VK_DYNAMIC_STATE_VIEWPORT_SWIZZLE_NV => CB_DYNAMIC_STATE_VIEWPORT_SWIZZLE_NV
  | VkDynamicState.VK_DYNAMIC_STATE_COVERAGE_TO_COLOR_ENABLE_NV => CB_DYNAMIC_STATE_COVERAGE_TO_COLOR_ENABLE_NV
  | VkDynamicState.VK_DYNAMIC_STATE_COVERAGE_TO_COLOR_LOCATION_NV => CB_DYNAMIC_STATE_COVERAGE_TO_COLOR_LOCATION_NV
  | VkDynamicState.VK_DYNAMIC_STATE_COVERAGE_MODULATION_MODE_NV => CB_DYNAMIC_STATE_COVERAGE_MODULATION_MODE_NV
  | VkDynamicState.VK_DYNAMIC_STATE_COVERAGE_MODULATION_TABLE_ENABLE_NV => CB_DYNAMIC_STATE_COVERAGE_MODULATION_TABLE_ENABLE_NV
  | VkDynamicState.VK_DYNAMIC_STATE_COVERAGE_MODULATION_TABLE_NV => CB_DYNAMIC_STATE_COVERAGE_MODULATION_TABLE_NV
  | VkDynamicState.VK_DYNAMIC_STATE_SHADING_RATE_IMAGE_ENABLE_NV => CB_DYNAMIC_STATE_SHADING_RATE_IMAGE_ENABLE_NV
  | VkDynamicState.VK_DYNAMIC_STATE_REPRESENTATIVE_FRAGMENT_TEST_ENABLE_NV => CB_DYNAMIC_STATE_REPRESENTATIVE_FRAGMENT_TEST_ENABLE_NV
  | VkDynamicState.VK_DYNAMIC_STATE_COVERAGE_REDUCTION_MODE_NV => CB_DYNAMIC_STATE_COVERAGE_REDUCTION_MODE_NV
  | VkDynamicState.VK_DYNAMIC_STATE_ATTACHMENT_FEEDBACK_LOOP_ENABLE_EXT => CB_DYNAMIC_STATE_ATTACHMENT_FEEDBACK_LOOP_ENABLE_EXT
  | _ => CB_DYNAMIC_STATE_STATUS_NUM

/-- The 72 states `ConvertToDynamicState` handles, in the order of its switch. -/
def handled_dynamic_states : List CBDynamicState :=
  [CB_DYNAMIC_STATE_VIEWPORT,
   CB_DYNAMIC_STATE_SCISSOR,
   CB_DYNAMIC_STATE_LINE_WIDTH,
   CB_DYNAMIC_STATE_DEPTH_BIAS,
   CB_DYNAMIC_STATE_BLEND_CONSTANTS,
   CB_DYNAMIC_STATE_DEPTH_BOUNDS,
   CB_DYNAMIC_STATE_STENCIL_COMPARE_MASK,
   CB_DYNAMIC_STATE_STENCIL_WRITE_MASK,
   CB_DYNAMIC_STATE_STENCIL_REFERENCE,
   CB_DYNAMIC_STATE_CULL_MODE,
   CB_DYNAMIC_STATE_FRONT_FACE,
   CB_DYNAMIC_STATE_PRIMITIVE_TOPOLOGY,
   CB_DYNAMIC_STATE_VIEWPORT_WITH_COUNT,
   CB_DYNAMIC_STATE_SCISSOR_WITH_COUNT,
   CB_DYNAMIC_STATE_VERTEX_INPUT_BINDING_STRIDE,
   CB_DYNAMIC_STATE_DEPTH_TEST_ENABLE,
   CB_DYNAMIC_STATE_DEPTH_WRITE_ENABLE,
   CB_DYNAMIC_STATE_DEPTH_COMPARE_OP,
   CB_DYNAMIC_STATE_DEPTH_BOUNDS_TEST_ENABLE,
   CB_DYNAMIC_STATE_STENCIL_TEST_ENABLE,
   CB_DYNAMIC_STATE_STENCIL_OP,
   CB_DYNAMIC_STATE_RASTERIZER_DISCARD_ENABLE,
   CB_DYNAMIC_STATE_DEPTH_BIAS_ENABLE,
   CB_DYNAMIC_STATE_PRIMITIVE_RESTART_ENABLE,
   CB_DYNAMIC_STATE_VIEWPORT_W_SCALING_NV,
   CB_DYNAMIC_STATE_DISCARD_RECTANGLE_EXT,
   CB_DYNAMIC_STATE_DISCARD_RECTANGLE_ENABLE_EXT,
   CB_DYNAMIC_STATE_DISCARD_RECTANGLE_MODE_EXT,
   CB_DYNAMIC_STATE_SAMPLE_LOCATIONS_EXT,
   CB_DYNAMIC_STATE_RAY_TRACING_PIPELINE_STACK_SIZE_KHR,
   CB_DYNAMIC_STATE_VIEWPORT_SHADING_RATE_PALETTE_NV,
   CB_DYNAMIC_STATE_VIEWPORT_COARSE_SAMPLE_ORDER_NV,
   CB_DYNAMIC_STATE_EXCLUSIVE_SCISSOR_ENABLE_NV,
   CB_DYNAMIC_STATE_EXCLUSIVE_SCISSOR_NV,
   CB_DYNAMIC_STATE_FRAGMENT_SHADING_RATE_KHR,
   CB_DYNAMIC_STATE_LINE_STIPPLE_EXT,
   CB_DYNAMIC_STATE_VERTEX_INPUT_EXT,
   CB_DYNAMIC_STATE_PATCH_CONTROL_POINTS_EXT,
   CB_DYNAMIC_STATE_LOGIC_OP_EXT,
   CB_DYNAMIC_STATE_COLOR_WRITE_ENABLE_EXT,
   CB_DYNAMIC_STATE_TESSELLATION_DOMAIN_ORIGIN_EXT,
   CB_DYNAMIC_STATE_DEPTH_CLAMP_ENABLE_EXT,
   CB_DYNAMIC_STATE_POLYGON_MODE_EXT,
   CB_DYNAMIC_STATE_RASTERIZATION_SAMPLES_EXT,
   CB_DYNAMIC_STATE_SAMPLE_MASK_EXT,
   CB_DYNAMIC_STATE_ALPHA_TO_COVERAGE_ENABLE_EXT,
   CB_DYNAMIC_STATE_ALPHA_TO_ONE_ENABLE_EXT,
   CB_DYNAMIC_STATE_LOGIC_OP_ENABLE_EXT,
   CB_DYNAMIC_STATE_COLOR_BLEND_ENABLE_EXT,
   CB_DYNAMIC_STATE_COLOR_BLEND_EQUATION_EXT,
   CB_DYNAMIC_STATE_COLOR_WRITE_MASK_EXT,
   CB_DYNAMIC_STATE_RASTERIZATION_STREAM_EXT,
   CB_DYNAMIC_STATE_CONSERVATIVE_RASTERIZATION_MODE_EXT,
   CB_DYNAMIC_STATE_EXTRA_PRIMITIVE_OVERESTIMATION_SIZE_EXT,
   CB_DYNAMIC_STATE_DEPTH_CLIP_ENABLE_EXT,
   CB_DYNAMIC_STATE_SAMPLE_LOCATIONS_ENABLE_EXT,
   CB_DYNAMIC_STATE_COLOR_BLEND_ADVANCED_EXT,
   CB_DYNAMIC_STATE_PROVOKING_VERTEX_MODE_EXT,
   CB_DYNAMIC_STATE_LINE_RASTERIZATION_MODE_EXT,
   CB_DYNAMIC_STATE_LINE_STIPPLE_ENABLE_EXT,
   CB_DYNAMIC_STATE_DEPTH_CLIP_NEGATIVE_ONE_TO_ONE_EXT,
   CB_DYNAMIC_STATE_VIEWPORT_W_SCALING_ENABLE_NV,
   CB_DYNAMIC_STATE_VIEWPORT_SWIZZLE_NV,
   CB_DYNAMIC_STATE_COVERAGE_TO_COLOR_ENABLE_NV,
   CB_DYNAMIC_STATE_COVERAGE_TO_COLOR_LOCATION_NV,
   CB_DYNAMIC_STATE_COVERAGE_MODULATION_MODE_NV,
   CB_DYNAMIC_STATE_COVERAGE_MODULATION_TABLE_ENABLE_NV,
   CB_DYNAMIC_STATE_COVERAGE_MODULATION_TABLE_NV,
   CB_DYNAMIC_STATE_SHADING_RATE_IMAGE_ENABLE_NV,
   CB_DYNAMIC_STATE_REPRESENTATIVE_FRAGMENT_TEST_ENABLE_NV,
   CB_DYNAMIC_STATE_COVERAGE_REDUCTION_MODE_NV,
   CB_DYNAMIC_STATE_ATTACHMENT_FEEDBACK_LOOP_ENABLE_EXT]

/-! ## Construction of subpass barrier trackbacks and clear attachment infos -/

/-- The constructor of `SubpassBarrierTrackback` from a source subpass, the queue flags and a
vector of pointers to subpass dependencies. The type `VkSubpassDependency2` and the constructor
`SyncBarrier(VkQueueFlags, const VkSubpassDependency2 &)`, which is only declared in the header,
are the parameters `Dependency` and `make_barrier`; a null pointer among the dependencies is
`none`, and the assertion that fails on it makes the construction return `none`. -/
def SubpassBarrierTrackback.from_dependencies {SubpassNode Dependency : Type}
    (make_barrier : Nat → Dependency → SyncBarrier)
    (source_subpass_ : Option SubpassNode) (queue_flags_ : Nat)
    (subpass_dependencies_ : List (Option Dependency)) :
    Option (SubpassBarrierTrackback SubpassNode) :=
  (subpass_dependencies_.foldl
    (fun (barriers : Option (List SyncBarrier)) (dependency : Option Dependency) =>
      match barriers, dependency with
      | some barriers, some dependency => some (barriers ++ [make_barrier queue_flags_ dependency])
      | _, _ => none)
    (some [])).map (fun barriers => ⟨barriers, source_subpass_⟩)

/-- The constructor of `SubpassBarrierTrackback` from a source subpass and one barrier:
`barriers(1, barrier_)`. -/
def SubpassBarrierTrackback.from_barrier {SubpassNode : Type}
    (source_subpass_ : Option SubpassNode) (barrier_ : SyncBarrier) :
    SubpassBarrierTrackback SubpassNode :=
  ⟨List.replicate 1 barrier_, source_subpass_⟩

/-- Modelled from the spec: the Vulkan struct `VkImageSubresourceRange`, declared in the Vulkan
headers, which are not part of the sources. -/
structure VkImageSubresourceRange where
  aspectMask : Nat
  baseMipLevel : Nat
  levelCount : Nat
  baseArrayLayer : Nat
  layerCount : Nat
deriving DecidableEq, Repr

/-- Modelled from the spec: the Vulkan struct `VkClearRect` (rectangle offset and extent, first
layer and number of layers), declared in the Vulkan headers, which are not part of the sources. -/
structure VkClearRect where
  offset_x : Int
  offset_y : Int
  extent_width : Nat
  extent_height : Nat
  baseArrayLayer : Nat
  layerCount : Nat
deriving DecidableEq, Repr

/-- Modelled from the spec: the constant `VK_ATTACHMENT_UNUSED` of the Vulkan headers, which are
not part of the sources (the largest 32 bit value). -/
def VK_ATTACHMENT_UNUSED : Nat := 2 ^ 32 - 1

/-- The struct `ClearAttachmentInfo`; `ImageViewState` is the type the view pointer refers to
and a null pointer is `none`. The offset and the extent are kept as the three coordinates that
`CastTo3D` makes of the rectangle. -/
structure ClearAttachmentInfo (ImageViewState : Type) where
  view : Option ImageViewState
  aspects_to_clear : Nat
  subresource_range : VkImageSubresourceRange
  offset : Int × Int × Int
  extent : Nat × Nat × Nat
  attachment_index : Nat
  subpass : Nat

/-- The default constructor `ClearAttachmentInfo() = default` with the member initialisers of the
struct. -/
def ClearAttachmentInfo.default (ImageViewState : Type) : ClearAttachmentInfo ImageViewState :=
  { view := none,
    aspects_to_clear := 0,
    subresource_range := ⟨0, 0, 0, 0, 0⟩,
    offset := (0, 0, 0),
    extent := (0, 0, 0),
    attachment_index := VK_ATTACHMENT_UNUSED,
    subpass := 0 }

/-- The constructor of `ClearAttachmentInfo` from a clear attachment, a clear rectangle and a
view. The static helpers `GetAspectsToClear` and `RestrictSubresourceRange` are only declared in
the header, so they are parameters; `clear_aspect_mask` is `clear_attachment.aspectMask`, the one
member of the clear attachment that is read. The third coordinates follow `CastTo3D`, which
extends an offset with 0 and an extent with 1. -/
def ClearAttachmentInfo.new {ImageViewState : Type}
    (GetAspectsToClear : Nat → ImageViewState → Nat)
    (RestrictSubresourceRange : VkClearRect → ImageViewState → VkImageSubresourceRange)
    (clear_aspect_mask : Nat) (rect : VkClearRect) (view_ : ImageViewState)
    (attachment_index_ : Nat) (subpass_ : Nat) : ClearAttachmentInfo ImageViewState :=
  { view := some view_,
    aspects_to_clear := GetAspectsToClear clear_aspect_mask view_,
    subresource_range := RestrictSubresourceRange rect view_,
    offset := (rect.offset_x, rect.offset_y, 0),
    extent := (rect.extent_width, rect.extent_height, 1),
    attachment_index := attachment_index_,
    subpass := subpass_ }

/-- The method `ClearAttachmentInfo::IsValid`:
`view && (aspects_to_clear != 0U) && (subresource_range.layerCount != 0U)`. -/
def ClearAttachmentInfo.IsValid {ImageViewState : Type} (self : ClearAttachmentInfo ImageViewState) :
    Bool :=
  self.view.isSome && (self.aspects_to_clear != 0) && (self.subresource_range.layerCount != 0)

/-! ## Names of sets of dynamic states (`dynamic_state_helper.cpp`) -/

/-- Modelled from the spec: the bitset type `CBDynamicFlags`, declared in the generated header
`dynamic_state_helper.h`, which is not part of the sources; a set of flags is embedded as the
test `dynamic_states[status]` of its bits. -/
abbrev CBDynamicFlags := CBDynamicState → Bool

/-- The function `DynamicStateToString`; the generated helper `string_VkDynamicState` of the
Vulkan utility headers is a parameter. -/
def DynamicStateToString (string_VkDynamicState : VkDynamicState → String)
    (dynamic_state : CBDynamicState) : String :=
  string_VkDynamicState (ConvertToDynamicState dynamic_state)

/-- The body of the loop of `DynamicStatesToString` for one `index`, from the string `ret`
built so far. -/
def DynamicStatesToString.step (string_VkDynamicState : VkDynamicState → String)
    (dynamic_states : CBDynamicFlags) (ret : String) (index : Nat) : String :=
  let status : CBDynamicState := index
  if dynamic_states status then
    let ret := if !ret.isEmpty then ret ++ "|" else ret
    ret ++ string_VkDynamicState (ConvertToDynamicState status)
  else ret

/-- The function `DynamicStatesToString`: the loop runs over the indices from 1 up to, and not
including, `CB_DYNAMIC_STATE_STATUS_NUM`. -/
def DynamicStatesToString (string_VkDynamicState : VkDynamicState → String)
    (dynamic_states : CBDynamicFlags) : String :=
  let ret := (List.range' 1 (CB_DYNAMIC_STATE_STATUS_NUM - 1)).foldl
    (DynamicStatesToString.step string_VkDynamicState dynamic_states) ""
  if ret.isEmpty then
    ret ++ string_VkDynamicState (ConvertToDynamicState CB_DYNAMIC_STATE_STATUS_NUM)
  else ret
/-! ## GPU assisted validation (`gpu_validation.cpp`) -/

/-- Modelled from the spec: the constant `spvtools::kDebugOutputFlagsOffset` of the SPIR-V tools
instrumentation header, which is not part of the sources; `AnalyzeAndGenerateMessages` calls the
word at this offset "the first word, which contains flags". -/
def kDebugOutputFlagsOffset : Nat := 0

/-- Modelled from the spec: the constant `spvtools::kDebugOutputSizeOffset` of the SPIR-V tools
instrumentation header, which is not part of the sources; `AnalyzeAndGenerateMessages` calls the
word at this offset "the second word in the debug output buffer". -/
def kDebugOutputSizeOffset : Nat := 1

/-- Modelled from the spec: the constant `spvtools::kDebugOutputDataOffset` of the SPIR-V tools
instrumentation header, which is not part of the sources; the first record starts at this offset,
after the flags and the size. -/
def kDebugOutputDataOffset : Nat := 2

/-- Modelled from the spec: the members of the class `GpuAssisted`, declared in
`gpu_validation.h`, which is not part of the sources, that the embedded functions read and write.
`app_bda_max_addresses` is a `size_t`, `app_bda_buffer_size` is 64 bits wide and
`output_buffer_size` is a `uint32_t`. -/
structure GpuAssisted where
  app_bda_max_addresses : Nat
  app_bda_buffer_size : Nat
  output_buffer_size : Nat
  warn_on_robust_oob : Bool
  gpuav_bda_buffer_version : Nat
  buffer_device_address_ranges_version : Nat
deriving DecidableEq, Repr

/-- The sizes that `GpuAssisted::CreateDevice` sets: `max_buffer_device_addresses` is the value
of the layer option (or the default 10000) that becomes `app_bda_max_addresses` when buffer
device addresses are enabled, and `kInstMaxOutCnt` is the constant of that name of the
instrumentation header, which is not part of the sources. The products are taken in `size_t` and
the output buffer size is stored in 32 bits. -/
def GpuAssisted.CreateDevice (self : GpuAssisted) (buffer_device_address : Bool)
    (max_buffer_device_addresses : Nat) (kInstMaxOutCnt : Nat) : GpuAssisted :=
  let self :=
    if buffer_device_address then
      let app_bda_max_addresses := max_buffer_device_addresses
      { self with
        app_bda_max_addresses := app_bda_max_addresses,
        app_bda_buffer_size :=
          ((1 + (app_bda_max_addresses + 2) + (app_bda_max_addresses + 2)) * 8) % 2 ^ 64 }
    else self
  { self with
    output_buffer_size := (4 * (kInstMaxOutCnt + kDebugOutputDataOffset)) % 2 ^ 32 }

/-- Modelled from the spec: an element of the vector that `GetBufferAddressRanges` returns, a
half open range of device addresses; the range type is declared in a header that is not part of
the sources. -/
structure BufferAddressRange where
  begin_ : Nat
  end_ : Nat
deriving DecidableEq, Repr

/-- The mapped memory `bda_data` of 64 bit words, with the list of the word indices stored to,
in the order of the stores. -/
structure BdaData where
  words : Nat → Nat
  written : List Nat

/-- A store `bda_data[index] = value` of a 64 bit word. -/
def BdaData.store (bda_data : BdaData) (index value : Nat) : BdaData :=
  ⟨fun j => if j = index then value else bda_data.words j, bda_data.written ++ [index]⟩

/-- The call `memset(bda_data, 0, size)` for a `size` in bytes that is a multiple of the word
size 8, as the sizes that `CreateDevice` sets are. -/
def BdaData.memset_zero (bda_data : BdaData) (size : Nat) : BdaData :=
  ⟨fun j => if j < size / 8 then 0 else bda_data.words j,
   bda_data.written ++ List.range (size / 8)⟩

/-- The loop of `UpdateBDABuffer` over the address ranges `address_ranges[i]` for
`i < num_addresses`, given as the list of these ranges: `address_index` is a `uint32_t`,
`size_index` a `size_t`, and the difference of the bounds is taken in 64 bits. -/
def UpdateBDABuffer.loop :
    List BufferAddressRange → Nat → Nat → BdaData → Nat × Nat × BdaData
  | [], address_index, size_index, bda_data => (address_index, size_index, bda_data)
  | range :: rest, address_index, size_index, bda_data =>
    let bda_data := bda_data.store address_index range.begin_
    let address_index := (address_index + 1) % 2 ^ 32
    let bda_data := bda_data.store size_index ((range.end_ + 2 ^ 64 - range.begin_) % 2 ^ 64)
    let size_index := (size_index + 1) % 2 ^ 64
    UpdateBDABuffer.loop rest address_index size_index bda_data

/-- The method `GpuAssisted::UpdateBDABuffer`: `address_ranges` is the vector that
`GetBufferAddressRanges()` returns and `bda_data` the mapped memory of the device address
buffer. The result is the validator and the memory after the call. -/
def GpuAssisted.UpdateBDABuffer (self : GpuAssisted) (address_ranges : List BufferAddressRange)
    (bda_data : BdaData) : GpuAssisted × BdaData :=
  if self.gpuav_bda_buffer_version = self.buffer_device_address_ranges_version then
    (self, bda_data)
  else
    let address_ranges_num_addresses := address_ranges.length
    if address_ranges_num_addresses = 0 then (self, bda_data)
    else
      let address_index := 1
      let size_index := (3 + address_ranges.length) % 2 ^ 64
      let bda_data := bda_data.memset_zero self.app_bda_buffer_size
      let bda_data := bda_data.store 0 size_index
      let bda_data := bda_data.store address_index 0
      let address_index := (address_index + 1) % 2 ^ 32
      let bda_data := bda_data.store size_index 0
      let size_index := (size_index + 1) % 2 ^ 64
      let num_addresses := min address_ranges_num_addresses self.app_bda_max_addresses
      let (address_index, size_index, bda_data) :=
        UpdateBDABuffer.loop (address_ranges.take num_addresses) address_index size_index bda_data
      let bda_data := bda_data.store address_index (2 ^ 64 - 1)
      let bda_data := bda_data.store size_index 0
      ({ self with gpuav_bda_buffer_version := self.buffer_device_address_ranges_version },
       bda_data)

/-- The outcome of the call of `GenerateValidationMessage` on a debug record: the returned flag
and the values it leaves in `oob_access`, the validation message and the VUID. -/
structure GeneratedMessage where
  gen_full_message : Bool
  oob_access : Bool
  validation_message : String
  vuid_msg : String
deriving DecidableEq, Repr

/-- A message handed to `LogWarning` (`is_error` false) or `LogError` (`is_error` true). -/
structure LogMessage where
  is_error : Bool
  vuid : String
  text : String
deriving DecidableEq, Repr

/-- The number of words `AnalyzeAndGenerateMessages` clears:
`std::min(total_words, output_buffer_size - spvtools::kDebugOutputDataOffset)`, with the
difference taken in 32 bits. -/
def GpuAssisted.words_to_clear (self : GpuAssisted) (total_words : Nat) : Nat :=
  min total_words ((self.output_buffer_size + 2 ^ 32 - kDebugOutputDataOffset) % 2 ^ 32)

/-- The number of 32 bit words of the debug output buffer, which `AllocateValidationResources`
creates with `buffer_info.size = output_buffer_size` bytes. -/
def GpuAssisted.output_buffer_words (self : GpuAssisted) : Nat :=
  self.output_buffer_size / 4

/-- The method `GpuAssisted::AnalyzeAndGenerateMessages` on the mapped debug output buffer, a
memory of `output_buffer_words` words of 32 bits; the argument gives the word at each index of
the buffer, which holds at least the flags and the size word. The parameters stand for the calls
that only read the record: the outcome of `GenerateValidationMessage` and the text the three
`UtilGenerate...` helpers add to a full message; `uses_robustness` is the member of
`buffer_info`. The result is the list of the messages logged and the buffer after the call, or,
when the `memset` runs over the end of the buffer, the index of the first word outside the buffer
that it stores to, as an error: the behaviour of the function is not defined then. -/
def GpuAssisted.AnalyzeAndGenerateMessages (self : GpuAssisted) (uses_robustness : Bool)
    (GenerateValidationMessage : (Nat → Nat) → GeneratedMessage)
    (UtilGenerateMessages : (Nat → Nat) → String)
    (debug_output_buffer : Nat → Nat) : Except Nat (List LogMessage × (Nat → Nat)) :=
  let total_words := debug_output_buffer kDebugOutputSizeOffset
  if 0 = total_words then Except.ok ([], debug_output_buffer)
  else
    let debug_record : Nat → Nat := fun i => debug_output_buffer (kDebugOutputDataOffset + i)
    let generated := GenerateValidationMessage debug_record
    let log : List LogMessage :=
      if generated.gen_full_message then
        let text := generated.validation_message ++ " " ++ UtilGenerateMessages debug_record
        if uses_robustness && generated.oob_access then
          if self.warn_on_robust_oob then [⟨false, generated.vuid_msg, text⟩] else []
        else [⟨true, generated.vuid_msg, text⟩]
      else [⟨true, generated.vuid_msg, generated.validation_message⟩]
    let words_to_clear := self.words_to_clear total_words
    let debug_output_buffer : Nat → Nat :=
      fun j => if j = kDebugOutputSizeOffset then 0 else debug_output_buffer j
    if kDebugOutputDataOffset + words_to_clear ≤ self.output_buffer_words then
      let debug_output_buffer : Nat → Nat :=
        fun j =>
          if kDebugOutputDataOffset ≤ j ∧ j < kDebugOutputDataOffset + words_to_clear then 0
          else debug_output_buffer j
      Except.ok (log, debug_output_buffer)
    else Except.error (max kDebugOutputDataOffset self.output_buffer_words)

/-- Modelled from the spec: the enumerators of the enum `Func`, declared in a generated header
that is not part of the sources, that name the commands recording an indirect draw. -/
inductive Func
  | vkCmdDrawIndirect
  | vkCmdDrawIndexedIndirect
  | vkCmdDrawIndirectCount
  | vkCmdDrawIndirectCountKHR
  | vkCmdDrawIndexedIndirectCount
  | vkCmdDrawIndexedIndirectCountKHR
deriving DecidableEq, Repr

/-- Modelled from the spec: `sizeof(VkDrawIndirectCommand)`, a struct of four 32 bit members of
the Vulkan headers, which are not part of the sources. -/
def sizeof_VkDrawIndirectCommand : Nat := 16

/-- Modelled from the spec: `sizeof(VkDrawIndexedIndirectCommand)`, a struct of five 32 bit
members of the Vulkan headers, which are not part of the sources. -/
def sizeof_VkDrawIndexedIndirectCommand : Nat := 20

/-- The value of `struct_size` in `AllocateValidationResources` for an indirect count draw. -/
def struct_size (command : Func) : Nat :=
  if command = Func.vkCmdDrawIndirectCount ∨ command = Func.vkCmdDrawIndirectCountKHR then
    sizeof_VkDrawIndirectCommand
  else sizeof_VkDrawIndexedIndirectCommand

/-- The value of `max_count` that `AllocateValidationResources` pushes for an indirect count
draw, from the offsets and the stride of `indirect_state` (the offsets are 64 bits wide) and
the size `bufsize` of the indirect buffer: the sum and the difference are taken in 64 bits, the
quotient is that of the integer division, which `std::floor` takes through a `double` and leaves
as it is while it is below `2^32`, the cast makes it a 32 bit value, and the increment is taken in
32 bits. The result is `none` when no `max_count` is pushed or none is defined: the command is
not an indirect count draw; the count buffer offset does not fit in 32 bits and the function
gives up; the stride is 0 and the division is one by zero; or the quotient does not fit in 32
bits and its conversion to `uint32_t` is not defined. -/
def max_count (command : Func) (count_buffer_offset offset stride bufsize : Nat) : Option Nat :=
  if command = Func.vkCmdDrawIndirectCount ∨ command = Func.vkCmdDrawIndirectCountKHR ∨
      command = Func.vkCmdDrawIndexedIndirectCount ∨
      command = Func.vkCmdDrawIndexedIndirectCountKHR then
    if count_buffer_offset > 2 ^ 32 - 1 then none
    else
      let first_command_bytes := (struct_size command + offset) % 2 ^ 64
      if first_command_bytes > bufsize then some 0
      else if stride = 0 then none
      else
        let quotient := (bufsize - first_command_bytes) / stride
        if quotient < 2 ^ 32 then some ((1 + quotient) % 2 ^ 32) else none
  else none

/-! ## Auxiliary definitions for the proofs -/

/-- The entry found at `x` after a range update, given the entry `e` found at `x` before. -/
def clip_entry (update : ResourceAccessState → ResourceAccessState) (lo hi x : Nat)
    (e : MapEntry) : MapEntry :=
  if lo ≤ x ∧ x < hi then ⟨⟨max lo e.range.begin_, min hi e.range.end_⟩, update e.state⟩
  else if x < lo then ⟨⟨e.range.begin_, min lo e.range.end_⟩, e.state⟩
  else ⟨⟨max hi e.range.begin_, e.range.end_⟩, e.state⟩

/-- The stored read `x` already accounts for the incoming read `r`. -/
def ReadState.Absorbs (x r : ReadState) : Prop :=
  r.tag < x.tag ∨ (x.tag = r.tag ∧ x.barriers ||| r.barriers = x.barriers)

/-- The concurrent-read set `l` already accounts for the incoming read `r`. -/
def ReadsAbsorb (l : List ReadState) (r : ReadState) : Prop :=
  (∃ x ∈ l, x.stage = r.stage) ∧ ∀ x ∈ l, x.stage = r.stage → x.Absorbs r

/-- Every byte of `[lo, hi)` lies in an entry of `m` that stays inside `[lo, hi)` and whose state
`update` leaves as it is. -/
def Saturated (update : ResourceAccessState → ResourceAccessState) (lo hi : Nat)
    (m : ResourceAccessRangeMap) : Prop :=
  ∀ x, lo ≤ x → x < hi →
    ∃ e, find_entry m x = some e ∧ lo ≤ e.range.begin_ ∧ e.range.end_ ≤ hi ∧
      update e.state = e.state

/-- One step of `ResolveFromContext`: the entry `e` of the predecessor is merged into `m`. -/
def resolve_entry (resolve_op : ResourceAccessState → ResourceAccessState)
    (m : ResourceAccessRangeMap) (e : MapEntry) : ResourceAccessRangeMap :=
  infill_update_range (fun s => s.Resolve (resolve_op e.state)) (some (resolve_op e.state))
    e.range.begin_ e.range.end_ m

/-- An operation on a command buffer access context: a tag request, `AddHandle`, `Reset` or
`Destroy`. -/
inductive CommandBufferOp
  | Request (r : TagRequest)
  | AddHandle (tag : ResourceUsageTag) (h : NamedHandle)
  | Reset
  | Destroy
deriving DecidableEq, Repr

/-- Apply one operation to a command buffer access context. -/
def CommandBufferAccessContext.apply (self : CommandBufferAccessContext) :
    CommandBufferOp → CommandBufferAccessContext
  | CommandBufferOp.Request r => (self.request r).2
  | CommandBufferOp.AddHandle tag h => self.AddHandle tag h
  | CommandBufferOp.Reset => self.Reset
  | CommandBufferOp.Destroy => self.Destroy

/-- Apply a sequence of operations in order. -/
def CommandBufferAccessContext.run (self : CommandBufferAccessContext)
    (ops : List CommandBufferOp) : CommandBufferAccessContext :=
  ops.foldl CommandBufferAccessContext.apply self

/-- The number of `Reset` operations in a sequence. -/
def CommandBufferOp.resets : List CommandBufferOp → Nat
  | [] => 0
  | CommandBufferOp.Reset :: ops => CommandBufferOp.resets ops + 1
  | CommandBufferOp.Request _ :: ops => CommandBufferOp.resets ops
  | CommandBufferOp.AddHandle _ _ :: ops => CommandBufferOp.resets ops
  | CommandBufferOp.Destroy :: ops => CommandBufferOp.resets ops

/-- The record a tag request creates: the record of the log the returned tag addresses. -/
def CommandBufferAccessContext.created_record (self : CommandBufferAccessContext)
    (r : TagRequest) : Option ResourceUsageRecord :=
  (self.request r).2.access_log_.get? (self.request r).1

/-- A table of names in the manner of the generated helper `string_VkDynamicState`, with the
names of three states and the text of the default case for every other value; it serves as a
concrete instance of the parameter in examples. -/
def sample_string_VkDynamicState : VkDynamicState → String
  | VkDynamicState.VK_DYNAMIC_STATE_VIEWPORT => "VK_DYNAMIC_STATE_VIEWPORT"
  | VkDynamicState.VK_DYNAMIC_STATE_SCISSOR => "VK_DYNAMIC_STATE_SCISSOR"
  | VkDynamicState.VK_DYNAMIC_STATE_LINE_WIDTH => "VK_DYNAMIC_STATE_LINE_WIDTH"
  | _ => "Unhandled VkDynamicState"

/-! ## Lemmas on the range map -/

theorem find_entry_nil (x : Nat) : find_entry [] x = none := rfl

theorem find_entry_cons (e : MapEntry) (es : ResourceAccessRangeMap) (x : Nat) :
    find_entry (e :: es) x = if e.range.includes x then some e else find_entry es x := by
  unfold find_entry
  by_cases h : e.range.includes x <;> simp [List.find?_cons, h]

theorem find_entry_append (a b : ResourceAccessRangeMap) (x : Nat) :
    find_entry (a ++ b) x = (find_entry a x).or (find_entry b x) := by
  unfold find_entry
  simp [List.find?_append]

theorem find_entry_includes {m : ResourceAccessRangeMap} {x : Nat} {e : MapEntry}
    (h : find_entry m x = some e) : e.range.includes x := by
  unfold find_entry at h
  have := List.find?_some h
  simpa using this

theorem find_entry_mem {m : ResourceAccessRangeMap} {x : Nat} {e : MapEntry}
    (h : find_entry m x = some e) : e ∈ m := by
  unfold find_entry at h
  exact List.mem_of_find?_eq_some h

theorem find_entry_none_of_lt {lb : Nat} {m : ResourceAccessRangeMap} (hm : RangeMapOrdered lb m)
    {x : Nat} (hx : x < lb) : find_entry m x = none := by
  induction m generalizing lb with
  | nil => rfl
  | cons e es ih =>
    obtain ⟨h1, h2, h3⟩ := hm
    rw [find_entry_cons]
    have : ¬ e.range.includes x := by
      unfold ResourceAccessRange.includes; omega
    simp only [this, if_false]
    exact ih h3 (by omega)

theorem RangeMapOrdered.mono {lb lb' : Nat} {m : ResourceAccessRangeMap}
    (hm : RangeMapOrdered lb m) (h : lb' ≤ lb) : RangeMapOrdered lb' m := by
  cases m with
  | nil => trivial
  | cons e es => exact ⟨by have := hm.1; omega, hm.2.1, hm.2.2⟩

theorem infill_gap_ordered (infill : Option ResourceAccessState) (lo hi : Nat) :
    RangeMapOrdered lo (infill_gap infill lo hi) := by
  unfold infill_gap
  cases infill with
  | none => trivial
  | some s =>
    by_cases h : lo < hi
    · simp only [h, if_true]; exact ⟨Nat.le_refl _, h, trivial⟩
    · simp only [h, if_false]; trivial

theorem infill_gap_cases (infill : Option ResourceAccessState) (lo hi : Nat) :
    infill_gap infill lo hi = [] ∨
      ∃ s, infill = some s ∧ lo < hi ∧ infill_gap infill lo hi = [⟨⟨lo, hi⟩, s⟩] := by
  unfold infill_gap
  cases infill with
  | none => exact Or.inl rfl
  | some s =>
    by_cases h : lo < hi
    · exact Or.inr ⟨s, rfl, h, by simp [h]⟩
    · exact Or.inl (by simp [h])

theorem infill_update_range_ordered (update : ResourceAccessState → ResourceAccessState)
    (infill : Option ResourceAccessState) {lb : Nat} {m : ResourceAccessRangeMap}
    (hm : RangeMapOrdered lb m) (lo hi : Nat) :
    RangeMapOrdered (min lb lo) (infill_update_range update infill lo hi m) := by
  induction m generalizing lb lo with
  | nil =>
    exact (infill_gap_ordered infill lo hi).mono (by omega)
  | cons e es ih =>
    obtain ⟨h1, h2, h3⟩ := hm
    unfold infill_update_range
    by_cases c1 : hi ≤ lo
    · simp only [c1, if_true]
      exact ⟨by omega, h2, h3⟩
    simp only [c1, if_false]
    by_cases c2 : e.range.end_ ≤ lo
    · simp only [c2, if_true]
      refine ⟨by omega, h2, ?_⟩
      have := ih h3 lo
      rwa [Nat.min_eq_left c2] at this
    simp only [c2, if_false]
    by_cases c3 : hi ≤ e.range.begin_
    · simp only [c3, if_true]
      rcases infill_gap_cases infill lo hi with hg | ⟨s, _, hlt, hg⟩
      · rw [hg]; exact ⟨by omega, h2, h3⟩
      · rw [hg]; exact ⟨by simp only; omega, hlt, by simpa using c3, h2, h3⟩
    simp only [c3, if_false]
    have tail :
        RangeMapOrdered (max lo e.range.begin_)
          (if hi < e.range.end_ then
            (⟨⟨max lo e.range.begin_, hi⟩, update e.state⟩ : MapEntry) ::
              ⟨⟨hi, e.range.end_⟩, e.state⟩ :: es
          else
            ⟨⟨max lo e.range.begin_, e.range.end_⟩, update e.state⟩ ::
              infill_update_range update infill e.range.end_ hi es) := by
      by_cases c4 : hi < e.range.end_
      · simp only [c4, if_true]
        exact ⟨Nat.le_refl _, by simp only; omega, Nat.le_refl _, by simpa using c4, h3⟩
      · simp only [c4, if_false]
        refine ⟨Nat.le_refl _, by simp only; omega, ?_⟩
        have := ih h3 e.range.end_
        simpa using this
    by_cases c5 : e.range.begin_ < lo
    · simp only [c5, if_true]
      refine ⟨by simp only; omega, by simpa using c5, ?_⟩
      have : max lo e.range.begin_ = lo := by omega
      rw [this] at tail ⊢
      exact tail
    · simp only [c5, if_false]
      have hmx : max lo e.range.begin_ = e.range.begin_ := by omega
      rw [hmx] at tail ⊢
      rcases infill_gap_cases infill lo e.range.begin_ with hg | ⟨s, _, hlt, hg⟩
      · rw [hg]; exact tail.mono (by omega)
      · rw [hg]; exact ⟨by simp only; omega, hlt, by simpa using tail⟩

theorem RangeMapOrdered.mem_bounds {lb : Nat} {m : ResourceAccessRangeMap}
    (hm : RangeMapOrdered lb m) {e : MapEntry} (he : e ∈ m) :
    lb ≤ e.range.begin_ ∧ e.range.begin_ < e.range.end_ := by
  induction m generalizing lb with
  | nil => cases he
  | cons e0 es ih =>
    obtain ⟨h1, h2, h3⟩ := hm
    rcases List.mem_cons.mp he with rfl | h
    · exact ⟨h1, h2⟩
    · have := ih h3 h
      omega

theorem find_entry_infill_gap_none (infill : Option ResourceAccessState) (lo hi x : Nat)
    (hx : x < lo ∨ hi ≤ x) : find_entry (infill_gap infill lo hi) x = none := by
  rcases infill_gap_cases infill lo hi with hg | ⟨s, _, _, hg⟩
  · rw [hg]; rfl
  · rw [hg, find_entry_cons]
    have : ¬ (ResourceAccessRange.includes ⟨lo, hi⟩ x) := by
      unfold ResourceAccessRange.includes; simp only; omega
    simp only [this, if_false]; rfl

theorem infill_update_range_of_le (update : ResourceAccessState → ResourceAccessState)
    (infill : Option ResourceAccessState) {lo hi : Nat} (h : hi ≤ lo)
    (m : ResourceAccessRangeMap) : infill_update_range update infill lo hi m = m := by
  cases m with
  | nil =>
    unfold infill_update_range infill_gap
    cases infill with
    | none => rfl
    | some s => simp [Nat.not_lt.mpr h]
  | cons e es =>
    unfold infill_update_range
    simp only [h, if_true]

theorem find_entry_front_none (infill : Option ResourceAccessState) (e0 : MapEntry) (lo x : Nat)
    (hx : lo ≤ x) (hx0 : e0.range.begin_ ≤ x) :
    find_entry
      (if e0.range.begin_ < lo then [(⟨⟨e0.range.begin_, lo⟩, e0.state⟩ : MapEntry)]
        else infill_gap infill lo e0.range.begin_) x = none := by
  by_cases c : e0.range.begin_ < lo
  · simp only [c, if_true]
    rw [find_entry_cons]
    have : ¬ (ResourceAccessRange.includes ⟨e0.range.begin_, lo⟩ x) := by
      unfold ResourceAccessRange.includes; simp only; omega
    simp only [this, if_false]; rfl
  · simp only [c, if_false]
    exact find_entry_infill_gap_none infill lo e0.range.begin_ x (Or.inr hx0)

theorem find_entry_infill_update_range_some
    (update : ResourceAccessState → ResourceAccessState) (infill : Option ResourceAccessState)
    {lb : Nat} {m : ResourceAccessRangeMap} (hm : RangeMapOrdered lb m) {lo hi : Nat}
    (hlh : lo < hi) {x : Nat} {e : MapEntry} (he : find_entry m x = some e) :
    find_entry (infill_update_range update infill lo hi m) x =
      some (clip_entry update lo hi x e) := by
  induction m generalizing lb lo with
  | nil => cases he
  | cons e0 es ih =>
    obtain ⟨h1, h2, h3⟩ := hm
    have hinc := find_entry_includes he
    have hmem := find_entry_mem he
    rw [find_entry_cons] at he
    unfold ResourceAccessRange.includes at hinc
    -- position of the found entry
    have hcase : (e = e0 ∧ e0.range.includes x) ∨
        (¬ e0.range.includes x ∧ e0.range.end_ ≤ x ∧ find_entry es x = some e ∧
          e0.range.end_ ≤ e.range.begin_) := by
      by_cases hi0 : e0.range.includes x
      · simp only [hi0, if_true, Option.some.injEq] at he
        exact Or.inl ⟨he.symm, hi0⟩
      · simp only [hi0, if_false] at he
        have hb := h3.mem_bounds (find_entry_mem he)
        refine Or.inr ⟨hi0, ?_, he, hb.1⟩
        have := find_entry_includes he
        unfold ResourceAccessRange.includes at this
        omega
    unfold infill_update_range
    have c1 : ¬ hi ≤ lo := by omega
    simp only [c1, if_false]
    by_cases c2 : e0.range.end_ ≤ lo
    · simp only [c2, if_true]
      rw [find_entry_cons]
      rcases hcase with ⟨rfl, hi0⟩ | ⟨hi0, hx, hes, hb⟩
      · simp only [hi0, if_true]
        obtain ⟨⟨eb, ee⟩, st⟩ := e
        unfold ResourceAccessRange.includes at hi0
        simp only at *
        simp only [clip_entry]
        have n1 : ¬ (lo ≤ x ∧ x < hi) := by omega
        have n2 : x < lo := by omega
        have n3 : min lo ee = ee := by omega
        simp only [n1, n2, n3, if_true, if_false]
      · simp only [hi0, if_false]
        exact ih h3 hlh hes
    simp only [c2, if_false]
    by_cases c3 : hi ≤ e0.range.begin_
    · simp only [c3, if_true]
      have hb0 : e0.range.begin_ ≤ e.range.begin_ := by
        rcases hcase with ⟨rfl, _⟩ | ⟨_, _, _, hb⟩
        · exact Nat.le_refl _
        · omega
      rw [find_entry_append, find_entry_infill_gap_none infill lo hi x (by omega), Option.none_or]
      have : find_entry (e0 :: es) x = some e := by
        rw [find_entry_cons]; exact he
      rw [this]
      obtain ⟨⟨eb, ee⟩, st⟩ := e
      simp only at *
      simp only [clip_entry]
      have n1 : ¬ (lo ≤ x ∧ x < hi) := by omega
      have n2 : ¬ x < lo := by omega
      have n3 : max hi eb = eb := by omega
      simp only [n1, n2, n3, if_false]
    simp only [c3, if_false]
    rw [find_entry_append]
    rcases hcase with ⟨rfl, hi0⟩ | ⟨hi0, hx, hes, hb⟩
    · unfold ResourceAccessRange.includes at hi0
      by_cases p1 : x < lo
      · -- the part of the entry below the updated range
        have c5 : e.range.begin_ < lo := by omega
        simp only [c5, if_true]
        rw [find_entry_cons]
        have : ResourceAccessRange.includes ⟨e.range.begin_, lo⟩ x := by
          unfold ResourceAccessRange.includes; simp only; omega
        simp only [this, if_true, Option.or_some]
        simp only [clip_entry]
        have n1 : ¬ (lo ≤ x ∧ x < hi) := by omega
        have n3 : min lo e.range.end_ = lo := by omega
        simp only [n1, p1, n3, if_true, if_false]
      · rw [find_entry_front_none infill e lo x (by omega) hi0.1, Option.none_or]
        by_cases c4 : hi < e.range.end_
        · simp only [c4, if_true]
          rw [find_entry_cons]
          by_cases p2 : x < hi
          · have : ResourceAccessRange.includes ⟨max lo e.range.begin_, hi⟩ x := by
              unfold ResourceAccessRange.includes; simp only; omega
            simp only [this, if_true]
            simp only [clip_entry]
            have n1 : lo ≤ x ∧ x < hi := by omega
            have n3 : min hi e.range.end_ = hi := by omega
            simp only [n1, n3, and_self, if_true]
          · have : ¬ ResourceAccessRange.includes ⟨max lo e.range.begin_, hi⟩ x := by
              unfold ResourceAccessRange.includes; simp only; omega
            simp only [this, if_false]
            rw [find_entry_cons]
            have : ResourceAccessRange.includes ⟨hi, e.range.end_⟩ x := by
              unfold ResourceAccessRange.includes; simp only; omega
            simp only [this, if_true]
            simp only [clip_entry]
            have n1 : ¬ (lo ≤ x ∧ x < hi) := by omega
            have n3 : max hi e.range.begin_ = hi := by omega
            simp only [n1, p1, n3, if_false]
        · simp only [c4, if_false]
          rw [find_entry_cons]
          have : ResourceAccessRange.includes ⟨max lo e.range.begin_, e.range.end_⟩ x := by
            unfold ResourceAccessRange.includes; simp only; omega
          simp only [this, if_true]
          simp only [clip_entry]
          have n1 : lo ≤ x ∧ x < hi := by omega
          have n3 : min hi e.range.end_ = e.range.end_ := by omega
          simp only [n1, n3, and_self, if_true]
    · rw [find_entry_front_none infill e0 lo x (by omega) (by omega), Option.none_or]
      by_cases c4 : hi < e0.range.end_
      · simp only [c4, if_true]
        rw [find_entry_cons]
        have : ¬ ResourceAccessRange.includes ⟨max lo e0.range.begin_, hi⟩ x := by
          unfold ResourceAccessRange.includes; simp only; omega
        simp only [this, if_false]
        rw [find_entry_cons]
        have : ¬ ResourceAccessRange.includes ⟨hi, e0.range.end_⟩ x := by
          unfold ResourceAccessRange.includes; simp only; omega
        simp only [this, if_false]
        rw [hes]
        obtain ⟨⟨eb, ee⟩, st⟩ := e
        simp only at *
        simp only [clip_entry]
        have n1 : ¬ (lo ≤ x ∧ x < hi) := by omega
        have n2 : ¬ x < lo := by omega
        have n3 : max hi eb = eb := by omega
        simp only [n1, n2, n3, if_false]
      · simp only [c4, if_false]
        rw [find_entry_cons]
        have : ¬ ResourceAccessRange.includes ⟨max lo e0.range.begin_, e0.range.end_⟩ x := by
          unfold ResourceAccessRange.includes; simp only; omega
        simp only [this, if_false]
        by_cases c6 : e0.range.end_ < hi
        · rw [ih h3 c6 hes]
          obtain ⟨⟨eb, ee⟩, st⟩ := e
          simp only at *
          simp only [clip_entry]
          by_cases p2 : x < hi
          · have n1 : lo ≤ x ∧ x < hi := by omega
            have n2 : e0.range.end_ ≤ x ∧ x < hi := by omega
            have n3 : max e0.range.end_ eb = eb := by omega
            have n4 : max lo eb = eb := by omega
            simp only [n1, n2, n3, n4, and_self, if_true]
          · have n1 : ¬ (lo ≤ x ∧ x < hi) := by omega
            have n2 : ¬ (e0.range.end_ ≤ x ∧ x < hi) := by omega
            have n3 : ¬ x < e0.range.end_ := by omega
            have n4 : ¬ x < lo := by omega
            simp only [n1, n2, n3, n4, if_false]
        · rw [infill_update_range_of_le update infill (by omega) es, hes]
          obtain ⟨⟨eb, ee⟩, st⟩ := e
          simp only at *
          simp only [clip_entry]
          have n1 : ¬ (lo ≤ x ∧ x < hi) := by omega
          have n2 : ¬ x < lo := by omega
          have n3 : max hi eb = eb := by omega
          simp only [n1, n2, n3, if_false]
theorem infill_update_range_rest_ordered (update : ResourceAccessState → ResourceAccessState)
    (infill : Option ResourceAccessState) (e : MapEntry) {es : ResourceAccessRangeMap}
    (h2 : e.range.begin_ < e.range.end_) (h3 : RangeMapOrdered e.range.end_ es) {lo hi : Nat}
    (c1 : lo < hi) (c2 : lo < e.range.end_) (c3 : e.range.begin_ < hi) :
    RangeMapOrdered (max lo e.range.begin_)
      (if hi < e.range.end_ then
        (⟨⟨max lo e.range.begin_, hi⟩, update e.state⟩ : MapEntry) ::
          ⟨⟨hi, e.range.end_⟩, e.state⟩ :: es
      else
        ⟨⟨max lo e.range.begin_, e.range.end_⟩, update e.state⟩ ::
          infill_update_range update infill e.range.end_ hi es) := by
  by_cases c4 : hi < e.range.end_
  · simp only [c4, if_true]
    exact ⟨Nat.le_refl _, by simp only; omega, Nat.le_refl _, c4, h3⟩
  · simp only [c4, if_false]
    refine ⟨Nat.le_refl _, by simp only; omega, ?_⟩
    have := infill_update_range_ordered update infill h3 e.range.end_ hi
    simpa using this

theorem find_entry_gap_some (f : ResourceAccessState) {lo hi x : Nat} (h1 : lo ≤ x)
    (h2 : x < hi) : find_entry (infill_gap (some f) lo hi) x = some ⟨⟨lo, hi⟩, f⟩ := by
  have hlt : lo < hi := by omega
  unfold infill_gap
  simp only [hlt, if_true]
  rw [find_entry_cons]
  have : ResourceAccessRange.includes ⟨lo, hi⟩ x := by
    unfold ResourceAccessRange.includes; simp only; omega
  simp only [this, if_true]

theorem find_entry_cons_none {e : MapEntry} {es : ResourceAccessRangeMap} {x : Nat}
    (h : find_entry (e :: es) x = none) : ¬ e.range.includes x ∧ find_entry es x = none := by
  rw [find_entry_cons] at h
  by_cases c : e.range.includes x
  · simp [c] at h
  · simp only [c, if_false] at h
    exact ⟨c, h⟩

theorem find_entry_infill_update_range_none
    (update : ResourceAccessState → ResourceAccessState) (infill : Option ResourceAccessState)
    {lb : Nat} {m : ResourceAccessRangeMap} (hm : RangeMapOrdered lb m) {lo hi : Nat}
    (hlh : lo < hi) {x : Nat} (he : find_entry m x = none)
    (hout : infill = none ∨ x < lo ∨ hi ≤ x) :
    find_entry (infill_update_range update infill lo hi m) x = none := by
  induction m generalizing lb lo with
  | nil =>
    unfold infill_update_range
    rcases hout with rfl | h
    · rfl
    · exact find_entry_infill_gap_none infill lo hi x h
  | cons e0 es ih =>
    obtain ⟨h1, h2, h3⟩ := hm
    obtain ⟨hn0, hnes⟩ := find_entry_cons_none he
    unfold ResourceAccessRange.includes at hn0
    unfold infill_update_range
    have c1 : ¬ hi ≤ lo := by omega
    simp only [c1, if_false]
    by_cases c2 : e0.range.end_ ≤ lo
    · simp only [c2, if_true]
      rw [find_entry_cons]
      have : ¬ e0.range.includes x := hn0
      simp only [this, if_false]
      exact ih h3 hlh hnes hout
    simp only [c2, if_false]
    have gap_none : ∀ a b : Nat, (infill = none ∨ x < a ∨ b ≤ x) →
        find_entry (infill_gap infill a b) x = none := by
      intro a b h
      rcases h with rfl | h
      · rfl
      · exact find_entry_infill_gap_none infill a b x h
    by_cases c3 : hi ≤ e0.range.begin_
    · simp only [c3, if_true]
      rw [find_entry_append, gap_none lo hi hout, Option.none_or]
      exact he
    simp only [c3, if_false]
    rw [find_entry_append]
    have hrest := infill_update_range_rest_ordered update infill e0 h2 h3 hlh
      (Nat.lt_of_not_le c2) (Nat.lt_of_not_le c3)
    by_cases p0 : x < e0.range.begin_
    · -- below the entry: the rest of the map starts above x
      have hr : find_entry
          (if hi < e0.range.end_ then
            (⟨⟨max lo e0.range.begin_, hi⟩, update e0.state⟩ : MapEntry) ::
              ⟨⟨hi, e0.range.end_⟩, e0.state⟩ :: es
          else
            ⟨⟨max lo e0.range.begin_, e0.range.end_⟩, update e0.state⟩ ::
              infill_update_range update infill e0.range.end_ hi es) x = none := by
        by_cases c5 : e0.range.begin_ < lo
        · exact find_entry_none_of_lt hrest (by omega)
        · exact find_entry_none_of_lt hrest (by omega)
      rw [hr]
      by_cases c5 : e0.range.begin_ < lo
      · simp only [c5, if_true]
        rw [find_entry_cons]
        have : ¬ (ResourceAccessRange.includes ⟨e0.range.begin_, lo⟩ x) := by
          unfold ResourceAccessRange.includes; simp only; omega
        simp only [this, if_false]; rfl
      · simp only [c5, if_false]
        have hg : infill = none ∨ x < lo ∨ e0.range.begin_ ≤ x := by
          rcases hout with h | h | h
          · exact Or.inl h
          · exact Or.inr (Or.inl h)
          · omega
        rw [gap_none lo e0.range.begin_ hg]; rfl
    · rw [find_entry_front_none infill e0 lo x (by omega) (by omega), Option.none_or]
      by_cases c4 : hi < e0.range.end_
      · simp only [c4, if_true]
        rw [find_entry_cons]
        have : ¬ ResourceAccessRange.includes ⟨max lo e0.range.begin_, hi⟩ x := by
          unfold ResourceAccessRange.includes; simp only; omega
        simp only [this, if_false]
        rw [find_entry_cons]
        have : ¬ ResourceAccessRange.includes ⟨hi, e0.range.end_⟩ x := by
          unfold ResourceAccessRange.includes; simp only; omega
        simp only [this, if_false]
        exact hnes
      · simp only [c4, if_false]
        rw [find_entry_cons]
        have : ¬ ResourceAccessRange.includes ⟨max lo e0.range.begin_, e0.range.end_⟩ x := by
          unfold ResourceAccessRange.includes; simp only; omega
        simp only [this, if_false]
        by_cases c6 : e0.range.end_ < hi
        · have hg : infill = none ∨ x < e0.range.end_ ∨ hi ≤ x := by
            rcases hout with h | h | h
            · exact Or.inl h
            · omega
            · exact Or.inr (Or.inr h)
          exact ih h3 c6 hnes hg
        · rw [infill_update_range_of_le update infill (by omega) es]; exact hnes

theorem find_entry_infill_update_range_infill
    (update : ResourceAccessState → ResourceAccessState) (f : ResourceAccessState)
    {lb : Nat} {m : ResourceAccessRangeMap} (hm : RangeMapOrdered lb m) {lo hi : Nat}
    {x : Nat} (he : find_entry m x = none) (hx1 : lo ≤ x) (hx2 : x < hi) :
    ∃ r : ResourceAccessRange,
      find_entry (infill_update_range update (some f) lo hi m) x = some ⟨r, f⟩ ∧
        lo ≤ r.begin_ ∧ r.end_ ≤ hi := by
  induction m generalizing lb lo with
  | nil =>
    unfold infill_update_range
    exact ⟨⟨lo, hi⟩, find_entry_gap_some f hx1 hx2, Nat.le_refl _, Nat.le_refl _⟩
  | cons e0 es ih =>
    obtain ⟨h1, h2, h3⟩ := hm
    obtain ⟨hn0, hnes⟩ := find_entry_cons_none he
    unfold ResourceAccessRange.includes at hn0
    unfold infill_update_range
    have c1 : ¬ hi ≤ lo := by omega
    simp only [c1, if_false]
    by_cases c2 : e0.range.end_ ≤ lo
    · simp only [c2, if_true]
      rw [find_entry_cons]
      have : ¬ e0.range.includes x := hn0
      simp only [this, if_false]
      exact ih h3 hnes hx1
    simp only [c2, if_false]
    by_cases c3 : hi ≤ e0.range.begin_
    · simp only [c3, if_true]
      rw [find_entry_append, find_entry_gap_some f hx1 hx2, Option.or_some]
      exact ⟨⟨lo, hi⟩, rfl, Nat.le_refl _, Nat.le_refl _⟩
    simp only [c3, if_false]
    rw [find_entry_append]
    by_cases p0 : x < e0.range.begin_
    · have c5 : ¬ e0.range.begin_ < lo := by omega
      simp only [c5, if_false]
      rw [find_entry_gap_some f hx1 p0, Option.or_some]
      exact ⟨⟨lo, e0.range.begin_⟩, rfl, Nat.le_refl _, by simp only; omega⟩
    · rw [find_entry_front_none (some f) e0 lo x (by omega) (by omega), Option.none_or]
      have c4 : ¬ hi < e0.range.end_ := by omega
      simp only [c4, if_false]
      rw [find_entry_cons]
      have : ¬ ResourceAccessRange.includes ⟨max lo e0.range.begin_, e0.range.end_⟩ x := by
        unfold ResourceAccessRange.includes; simp only; omega
      simp only [this, if_false]
      obtain ⟨r, hr, hr1, hr2⟩ := ih h3 hnes (show e0.range.end_ ≤ x by omega)
      exact ⟨r, hr, by omega, hr2⟩
/-! ## Lemmas on hazard detection -/

theorem DetectHazardRange_isSome_of_mem (detector : ResourceAccessState → Option HazardResult)
    (range : ResourceAccessRange) {m : ResourceAccessRangeMap} {e : MapEntry} (he : e ∈ m)
    (hin : e.range.intersects range) (hd : (detector e.state).isSome) :
    (DetectHazardRange detector range m).isSome := by
  induction m with
  | nil => cases he
  | cons e0 es ih =>
    unfold DetectHazardRange
    rcases List.mem_cons.mp he with rfl | h
    · simp only [hin, if_true]
      cases hdet : detector e.state with
      | none => rw [hdet] at hd; cases hd
      | some hz => rfl
    · by_cases c : e0.range.intersects range
      · simp only [c, if_true]
        cases hdet : detector e0.state with
        | none => exact ih h
        | some hz => rfl
      · simp only [c, if_false]
        exact ih h

theorem DetectHazardRange_isSome_of_find (detector : ResourceAccessState → Option HazardResult)
    (range : ResourceAccessRange) {m : ResourceAccessRangeMap} {e : MapEntry} {x : Nat}
    (he : find_entry m x = some e) (hx : range.includes x) (hd : (detector e.state).isSome) :
    (DetectHazardRange detector range m).isSome := by
  refine DetectHazardRange_isSome_of_mem detector range (find_entry_mem he) ?_ hd
  have := find_entry_includes he
  unfold ResourceAccessRange.includes at this hx
  unfold ResourceAccessRange.intersects
  omega

theorem DetectHazardRange_eq_none (detector : ResourceAccessState → Option HazardResult)
    (range : ResourceAccessRange) {lb : Nat} {m : ResourceAccessRangeMap}
    (hm : RangeMapOrdered lb m) (hr : range.non_empty)
    (h : ∀ x e, range.includes x → find_entry m x = some e → detector e.state = none) :
    DetectHazardRange detector range m = none := by
  induction m generalizing lb with
  | nil => rfl
  | cons e0 es ih =>
    obtain ⟨h1, h2, h3⟩ := hm
    unfold ResourceAccessRange.non_empty at hr
    have hes : DetectHazardRange detector range es = none := by
      refine ih h3 ?_
      intro x e hx he
      refine h x e hx ?_
      rw [find_entry_cons]
      have hb := h3.mem_bounds (find_entry_mem he)
      have hi := find_entry_includes he
      have : ¬ e0.range.includes x := by
        unfold ResourceAccessRange.includes at hi ⊢
        omega
      simp only [this, if_false]
      exact he
    unfold DetectHazardRange
    by_cases c : e0.range.intersects range
    · simp only [c, if_true]
      have hd : detector e0.state = none := by
        unfold ResourceAccessRange.intersects at c
        refine h (max e0.range.begin_ range.begin_) e0 ?_ ?_
        · unfold ResourceAccessRange.includes; omega
        · rw [find_entry_cons]
          have : e0.range.includes (max e0.range.begin_ range.begin_) := by
            unfold ResourceAccessRange.includes; omega
          simp only [this, if_true]
      rw [hd]
      exact hes
    · simp only [c, if_false]
      exact hes

theorem Update_write (s : ResourceAccessState) (usage : SyncStageAccessInfoType)
    (ordering_rule : SyncOrdering) (tag : ResourceUsageTag) (hw : usage.is_write = true) :
    s.Update usage ordering_rule tag =
      ⟨some ⟨usage.stage_mask, usage.stage_access_bit, tag, 0, 0⟩, []⟩ := by
  unfold ResourceAccessState.Update
  simp only [hw, if_true]

theorem DetectHazard_write_after_unguarded_write (W1 W2 : SyncStageAccessInfoType)
    (tag : ResourceUsageTag) (hw2 : W2.is_write = true) :
    ResourceAccessState.DetectHazard
      ⟨some ⟨W1.stage_mask, W1.stage_access_bit, tag, 0, 0⟩, []⟩ W2 =
      some ⟨SyncHazard.WRITE_AFTER_WRITE, tag⟩ := by
  unfold ResourceAccessState.DetectHazard WriteState.IsOrderedBefore
  simp [hw2]

/-- The state found at byte `x` of the range of a recorded write is the state of that write. -/
theorem find_entry_after_write (update : ResourceAccessState → ResourceAccessState)
    (f : ResourceAccessState) (hupd : ∀ s, update s = f) {lb : Nat}
    {m : ResourceAccessRangeMap} (hm : RangeMapOrdered lb m) (lo hi x : Nat) (h1 : lo ≤ x)
    (h2 : x < hi) :
    ∃ r : ResourceAccessRange,
      find_entry (infill_update_range update (some f) lo hi m) x = some ⟨r, f⟩ := by
  cases he : find_entry m x with
  | none =>
    obtain ⟨r, hr, _, _⟩ := find_entry_infill_update_range_infill update f hm he h1 h2
    exact ⟨r, hr⟩
  | some e =>
    have := find_entry_infill_update_range_some update (some f) hm (by omega : lo < hi) he
    refine ⟨⟨max lo e.range.begin_, min hi e.range.end_⟩, ?_⟩
    rw [this]
    unfold clip_entry
    have c : lo ≤ x ∧ x < hi := ⟨h1, h2⟩
    simp only [c, and_self, if_true, hupd]

theorem find_entry_map_state (f : ResourceAccessState → ResourceAccessState)
    (m : ResourceAccessRangeMap) (x : Nat) :
    find_entry (m.map (fun e => { e with state := f e.state })) x =
      (find_entry m x).map (fun e => { e with state := f e.state }) := by
  induction m with
  | nil => rfl
  | cons e es ih =>
    rw [List.map_cons, find_entry_cons, find_entry_cons]
    by_cases c : e.range.includes x
    · simp only [c, if_true, Option.map_some']
    · simp only [c, if_false]
      exact ih

theorem RangeMapOrdered.map_state (f : ResourceAccessState → ResourceAccessState) {lb : Nat}
    {m : ResourceAccessRangeMap} (hm : RangeMapOrdered lb m) :
    RangeMapOrdered lb (m.map (fun e => { e with state := f e.state })) := by
  induction m generalizing lb with
  | nil => trivial
  | cons e es ih =>
    obtain ⟨h1, h2, h3⟩ := hm
    exact ⟨h1, h2, ih h3⟩

theorem DetectHazard_write_after_guarded_write (W1 W2 : SyncStageAccessInfoType)
    (tag : ResourceUsageTag) (barrier : SyncBarrier) (hw2 : W2.is_write = true)
    (hsrc : W1.stage_mask &&& barrier.src_exec_scope ≠ 0 ∧
      W1.stage_access_bit &&& barrier.src_access_scope ≠ 0)
    (hdst : W2.stage_mask &&& barrier.dst_exec_scope ≠ 0 ∧
      W2.stage_access_bit &&& barrier.dst_access_scope ≠ 0) :
    (ResourceAccessState.ApplyBarrier
      ⟨some ⟨W1.stage_mask, W1.stage_access_bit, tag, 0, 0⟩, []⟩ barrier).DetectHazard W2 =
      none := by
  unfold ResourceAccessState.ApplyBarrier ResourceAccessState.DetectHazard
    WriteState.IsOrderedBefore
  simp [hw2, hsrc, hdst]

theorem DetectHazardRange_first (detector : ResourceAccessState → Option HazardResult)
    (range : ResourceAccessRange) (hr : range.non_empty) {lb : Nat}
    {m : ResourceAccessRangeMap} (hm : RangeMapOrdered lb m) {e : MapEntry}
    (he : find_entry m range.begin_ = some e) {hazard : HazardResult}
    (hd : detector e.state = some hazard) :
    DetectHazardRange detector range m = some hazard := by
  unfold ResourceAccessRange.non_empty at hr
  induction m generalizing lb with
  | nil => cases he
  | cons e0 es ih =>
    obtain ⟨h1, h2, h3⟩ := hm
    rw [find_entry_cons] at he
    unfold DetectHazardRange
    by_cases c : e0.range.includes range.begin_
    · simp only [c, if_true, Option.some.injEq] at he
      subst he
      unfold ResourceAccessRange.includes at c
      have hi : e0.range.intersects range := by
        unfold ResourceAccessRange.intersects; omega
      simp only [hi, if_true, hd]
    · simp only [c, if_false] at he
      have hb := h3.mem_bounds (find_entry_mem he)
      have hinc := find_entry_includes he
      unfold ResourceAccessRange.includes at hinc
      have hi : ¬ e0.range.intersects range := by
        unfold ResourceAccessRange.intersects; omega
      simp only [hi, if_false]
      exact ih h3 he

theorem DetectHazard_read_after_unguarded_write (W R : SyncStageAccessInfoType)
    (tag : ResourceUsageTag) (hr : R.is_write = false) :
    ResourceAccessState.DetectHazard
      ⟨some ⟨W.stage_mask, W.stage_access_bit, tag, 0, 0⟩, []⟩ R =
      some ⟨SyncHazard.READ_AFTER_WRITE, tag⟩ := by
  unfold ResourceAccessState.DetectHazard WriteState.IsOrderedBefore
  simp [hr]

/-! ## Lemmas on the merge of access states -/

theorem ReadState.Merge_absorbs (x r : ReadState) : (x.Merge r).Absorbs r := by
  unfold ReadState.Merge ReadState.Absorbs
  by_cases c1 : x.tag < r.tag
  · rw [if_pos c1]
    exact Or.inr ⟨rfl, Nat.or_self _⟩
  · rw [if_neg c1]
    by_cases c2 : x.tag = r.tag
    · rw [if_pos c2]
      refine Or.inr ⟨c2, ?_⟩
      show (x.barriers ||| r.barriers) ||| r.barriers = x.barriers ||| r.barriers
      rw [Nat.or_assoc, Nat.or_self]
    · rw [if_neg c2]
      exact Or.inl (Nat.lt_of_le_of_ne (Nat.le_of_not_lt c1) (Ne.symm c2))

theorem ReadState.Absorbs.merge {x r : ReadState} (h : x.Absorbs r) (r' : ReadState) :
    (x.Merge r').Absorbs r := by
  unfold ReadState.Merge
  unfold ReadState.Absorbs at h ⊢
  by_cases c1 : x.tag < r'.tag
  · rw [if_pos c1]
    rcases h with h | ⟨h1, _⟩
    · exact Or.inl (Nat.lt_trans h c1)
    · exact Or.inl (h1 ▸ c1)
  · rw [if_neg c1]
    by_cases c2 : x.tag = r'.tag
    · rw [if_pos c2]
      rcases h with h | ⟨h1, h2⟩
      · exact Or.inl h
      · refine Or.inr ⟨h1, ?_⟩
        show (x.barriers ||| r'.barriers) ||| r.barriers = x.barriers ||| r'.barriers
        rw [Nat.or_assoc, Nat.or_comm r'.barriers, ← Nat.or_assoc, h2]
    · rw [if_neg c2]
      exact h

theorem ReadState.Merge_stage {x r : ReadState} (h : x.stage = r.stage) :
    (x.Merge r).stage = x.stage := by
  unfold ReadState.Merge
  by_cases c1 : x.tag < r.tag
  · rw [if_pos c1]; exact h.symm
  · rw [if_neg c1]
    by_cases c2 : x.tag = r.tag
    · rw [if_pos c2]
    · rw [if_neg c2]

theorem ReadState.Absorbs.merge_eq {x r : ReadState} (h : x.Absorbs r) : x.Merge r = x := by
  unfold ReadState.Merge
  unfold ReadState.Absorbs at h
  rcases h with h | ⟨h1, h2⟩
  · have c1 : ¬ x.tag < r.tag := Nat.lt_asymm h
    have c2 : ¬ x.tag = r.tag := Ne.symm (Nat.ne_of_lt h)
    rw [if_neg c1, if_neg c2]
  · have c1 : ¬ x.tag < r.tag := h1 ▸ Nat.lt_irrefl _
    rw [if_neg c1, if_pos h1, h2]

theorem MergeRead_eq_of_absorb {l : List ReadState} {r : ReadState} (h : ReadsAbsorb l r) :
    MergeRead l r = l := by
  obtain ⟨⟨x, hx, hxs⟩, hall⟩ := h
  unfold MergeRead
  have hany : l.any (fun x => decide (x.stage = r.stage)) = true := by
    rw [List.any_eq_true]
    exact ⟨x, hx, by simpa using hxs⟩
  rw [if_pos hany]
  conv => rhs; rw [← List.map_id l]
  apply List.map_congr_left
  intro y hy
  by_cases c : y.stage = r.stage
  · simp only [c, if_true, id]
    exact (hall y hy c).merge_eq
  · simp only [c, if_false, id]

theorem MergeRead_absorbs (l : List ReadState) (r : ReadState) :
    ReadsAbsorb (MergeRead l r) r := by
  unfold MergeRead
  by_cases hany : l.any (fun x => decide (x.stage = r.stage)) = true
  · rw [if_pos hany]
    rw [List.any_eq_true] at hany
    obtain ⟨x, hx, hxs⟩ := hany
    have hxs' : x.stage = r.stage := by simpa using hxs
    constructor
    · refine ⟨x.Merge r, ?_, ?_⟩
      · rw [List.mem_map]
        exact ⟨x, hx, by simp only [hxs', if_true]⟩
      · rw [ReadState.Merge_stage hxs']; exact hxs'
    · intro y hy hys
      rw [List.mem_map] at hy
      obtain ⟨z, hz, hzy⟩ := hy
      by_cases c : z.stage = r.stage
      · simp only [c, if_true] at hzy
        rw [← hzy]
        exact ReadState.Merge_absorbs z r
      · simp only [c, if_false] at hzy
        rw [← hzy] at hys
        exact absurd hys c
  · rw [if_neg hany]
    have hno : ∀ x ∈ l, x.stage ≠ r.stage := by
      intro x hx hxs
      apply hany
      rw [List.any_eq_true]
      exact ⟨x, hx, by simpa using hxs⟩
    constructor
    · exact ⟨r, by simp, rfl⟩
    · intro y hy hys
      rw [List.mem_append] at hy
      rcases hy with hy | hy
      · exact absurd hys (hno y hy)
      · rw [List.mem_singleton] at hy
        subst hy
        exact Or.inr ⟨rfl, Nat.or_self _⟩

theorem ReadsAbsorb.mergeRead {l : List ReadState} {r : ReadState} (h : ReadsAbsorb l r)
    (r' : ReadState) : ReadsAbsorb (MergeRead l r') r := by
  obtain ⟨⟨x, hx, hxs⟩, hall⟩ := h
  unfold MergeRead
  by_cases hany : l.any (fun x => decide (x.stage = r'.stage)) = true
  · rw [if_pos hany]
    constructor
    · by_cases c : x.stage = r'.stage
      · refine ⟨x.Merge r', ?_, ?_⟩
        · rw [List.mem_map]
          exact ⟨x, hx, by simp only [c, if_true]⟩
        · rw [ReadState.Merge_stage c]; exact hxs
      · refine ⟨x, ?_, hxs⟩
        rw [List.mem_map]
        exact ⟨x, hx, by simp only [c, if_false]⟩
    · intro y hy hys
      rw [List.mem_map] at hy
      obtain ⟨z, hz, hzy⟩ := hy
      by_cases c : z.stage = r'.stage
      · simp only [c, if_true] at hzy
        rw [← hzy] at hys ⊢
        rw [ReadState.Merge_stage c] at hys
        exact (hall z hz hys).merge r'
      · simp only [c, if_false] at hzy
        rw [← hzy] at hys ⊢
        exact hall z hz hys
  · rw [if_neg hany]
    have hno : ∀ x ∈ l, x.stage ≠ r'.stage := by
      intro x hx hxs
      apply hany
      rw [List.any_eq_true]
      exact ⟨x, hx, by simpa using hxs⟩
    constructor
    · exact ⟨x, by simp [hx], hxs⟩
    · intro y hy hys
      rw [List.mem_append] at hy
      rcases hy with hy | hy
      · exact hall y hy hys
      · rw [List.mem_singleton] at hy
        subst hy
        exact absurd (hxs.trans hys.symm) (hno x hx)

theorem ReadsAbsorb.foldl {l : List ReadState} {r : ReadState} (h : ReadsAbsorb l r)
    (b : List ReadState) : ReadsAbsorb (b.foldl MergeRead l) r := by
  induction b generalizing l with
  | nil => exact h
  | cons r0 rest ih => exact ih (h.mergeRead r0)

theorem foldl_MergeRead_absorbs (a b : List ReadState) :
    ∀ r ∈ b, ReadsAbsorb (b.foldl MergeRead a) r := by
  induction b generalizing a with
  | nil => intro r hr; cases hr
  | cons r0 rest ih =>
    intro r hr
    rw [List.foldl_cons]
    rcases List.mem_cons.mp hr with rfl | h
    · exact (MergeRead_absorbs a r).foldl rest
    · exact ih (MergeRead a r0) r h

theorem foldl_MergeRead_eq {l : List ReadState} (b : List ReadState)
    (h : ∀ r ∈ b, ReadsAbsorb l r) : b.foldl MergeRead l = l := by
  induction b with
  | nil => rfl
  | cons r0 rest ih =>
    rw [List.foldl_cons, MergeRead_eq_of_absorb (h r0 (by simp))]
    exact ih (fun r hr => h r (by simp [hr]))

theorem foldl_MergeRead_idem (a b : List ReadState) :
    b.foldl MergeRead (b.foldl MergeRead a) = b.foldl MergeRead a :=
  foldl_MergeRead_eq b (foldl_MergeRead_absorbs a b)

theorem foldl_MergeRead_self {b : List ReadState} (h : (b.map (fun r => r.stage)).Nodup) :
    b.foldl MergeRead b = b := by
  apply foldl_MergeRead_eq
  intro r hr
  refine ⟨⟨r, hr, rfl⟩, ?_⟩
  intro x hx hxs
  have : x = r := List.inj_on_of_nodup_map h hx hr hxs
  subst this
  exact Or.inr ⟨rfl, Nat.or_self _⟩

theorem WriteState.MergeBarriers_self (w : WriteState) : w.MergeBarriers w = w := by
  unfold WriteState.MergeBarriers
  simp only [Nat.or_self]

theorem WriteState.MergeBarriers_idem (w o : WriteState) :
    (w.MergeBarriers o).MergeBarriers o = w.MergeBarriers o := by
  unfold WriteState.MergeBarriers
  simp only [Nat.or_assoc, Nat.or_self]

theorem ResourceAccessState.Resolve_self (q : ResourceAccessState) (hq : q.ReadsKeyed) :
    q.Resolve q = q := by
  unfold ResourceAccessState.ReadsKeyed at hq
  obtain ⟨w, reads⟩ := q
  cases w with
  | none =>
    unfold ResourceAccessState.Resolve ResourceAccessState.MergeReads
    simp only [foldl_MergeRead_self hq]
  | some w =>
    unfold ResourceAccessState.Resolve ResourceAccessState.MergeReads
    simp only [Nat.lt_irrefl, if_false, if_true, WriteState.MergeBarriers_self,
      foldl_MergeRead_self hq]

theorem ResourceAccessState.Resolve_idem (s q : ResourceAccessState) (hq : q.ReadsKeyed) :
    (s.Resolve q).Resolve q = s.Resolve q := by
  obtain ⟨sw, sreads⟩ := s
  obtain ⟨qw, qreads⟩ := q
  cases sw with
  | none =>
    cases qw with
    | none =>
      unfold ResourceAccessState.Resolve ResourceAccessState.MergeReads
      simp only [foldl_MergeRead_idem]
    | some o =>
      have h1 : ResourceAccessState.Resolve ⟨none, sreads⟩ ⟨some o, qreads⟩ =
          ⟨some o, qreads⟩ := rfl
      rw [h1]
      exact ResourceAccessState.Resolve_self _ hq
  | some w =>
    cases qw with
    | none => rfl
    | some o =>
      by_cases c1 : w.tag < o.tag
      · have h1 : ResourceAccessState.Resolve ⟨some w, sreads⟩ ⟨some o, qreads⟩ =
            ⟨some o, qreads⟩ := by
          unfold ResourceAccessState.Resolve
          simp only
          rw [if_pos c1]
        rw [h1]
        exact ResourceAccessState.Resolve_self _ hq
      · by_cases c2 : w.tag = o.tag
        · have h1 : ResourceAccessState.Resolve ⟨some w, sreads⟩ ⟨some o, qreads⟩ =
              ⟨some (w.MergeBarriers o), qreads.foldl MergeRead sreads⟩ := by
            unfold ResourceAccessState.Resolve ResourceAccessState.MergeReads
            simp only
            rw [if_neg c1, if_pos c2]
          rw [h1]
          have c3 : ¬ (w.MergeBarriers o).tag < o.tag := c1
          have c4 : (w.MergeBarriers o).tag = o.tag := c2
          unfold ResourceAccessState.Resolve ResourceAccessState.MergeReads
          simp only
          rw [if_neg c3, if_pos c4, WriteState.MergeBarriers_idem, foldl_MergeRead_idem]
        · have h1 : ResourceAccessState.Resolve ⟨some w, sreads⟩ ⟨some o, qreads⟩ =
              ⟨some w, sreads⟩ := by
            unfold ResourceAccessState.Resolve
            simp only
            rw [if_neg c1, if_neg c2]
          rw [h1, h1]

theorem infill_update_range_eq_self (update : ResourceAccessState → ResourceAccessState)
    (infill : Option ResourceAccessState) {lb : Nat} {m : ResourceAccessRangeMap}
    (hm : RangeMapOrdered lb m) {lo hi : Nat} (hs : Saturated update lo hi m) :
    infill_update_range update infill lo hi m = m := by
  by_cases hlh : hi ≤ lo
  · exact infill_update_range_of_le update infill hlh m
  have hlt : lo < hi := Nat.lt_of_not_le hlh
  induction m generalizing lb lo with
  | nil =>
    obtain ⟨e, he, _⟩ := hs lo (Nat.le_refl _) hlt
    cases he
  | cons e0 es ih =>
    obtain ⟨h1, h2, h3⟩ := hm
    unfold infill_update_range
    rw [if_neg hlh]
    by_cases c2 : e0.range.end_ ≤ lo
    · rw [if_pos c2]
      congr 1
      refine ih h3 ?_ hlh hlt
      intro x hx1 hx2
      obtain ⟨e, he, hb⟩ := hs x hx1 hx2
      refine ⟨e, ?_, hb⟩
      rw [find_entry_cons] at he
      have : ¬ e0.range.includes x := by
        unfold ResourceAccessRange.includes; omega
      rw [if_neg this] at he
      exact he
    rw [if_neg c2]
    -- the entry found at `lo` starts at `lo`, so the first entry does too
    obtain ⟨el, hel, hel1, hel2, _⟩ := hs lo (Nat.le_refl _) hlt
    have helb := (show RangeMapOrdered lb (e0 :: es) from ⟨h1, h2, h3⟩).mem_bounds
      (find_entry_mem hel)
    have heli := find_entry_includes hel
    unfold ResourceAccessRange.includes at heli
    have hel0 : e0.range.begin_ ≤ el.range.begin_ := by
      rcases List.mem_cons.mp (find_entry_mem hel) with h | h
      · rw [h]
      · have := h3.mem_bounds h
        omega
    have hb0 : e0.range.begin_ ≤ lo := by omega
    have c3 : ¬ hi ≤ e0.range.begin_ := by omega
    rw [if_neg c3]
    -- the first entry is found at `lo` and lies inside the range
    have hf0 : find_entry (e0 :: es) lo = some e0 := by
      rw [find_entry_cons]
      have : e0.range.includes lo := by
        unfold ResourceAccessRange.includes; omega
      rw [if_pos this]
    rw [hf0] at hel
    have hel' : e0 = el := Option.some.inj hel
    subst hel'
    obtain ⟨e, he, he1, he2, hupd⟩ := hs lo (Nat.le_refl _) hlt
    rw [hf0] at he
    have he' : e0 = e := Option.some.inj he
    subst he'
    have c5 : ¬ e0.range.begin_ < lo := by omega
    have c4 : ¬ hi < e0.range.end_ := by omega
    rw [if_neg c5, if_neg c4]
    have hgap : infill_gap infill lo e0.range.begin_ = [] := by
      rcases infill_gap_cases infill lo e0.range.begin_ with hg | ⟨_, _, hlt', _⟩
      · exact hg
      · omega
    rw [hgap, List.nil_append]
    have hmx : max lo e0.range.begin_ = e0.range.begin_ := by omega
    rw [hmx, hupd]
    congr 1
    by_cases c6 : hi ≤ e0.range.end_
    · exact infill_update_range_of_le update infill c6 es
    · refine ih h3 ?_ c6 (Nat.lt_of_not_le c6)
      intro x hx1 hx2
      obtain ⟨e, he, hb1, hb2, hb3⟩ := hs x (by omega) hx2
      rw [find_entry_cons] at he
      have : ¬ e0.range.includes x := by
        unfold ResourceAccessRange.includes; omega
      rw [if_neg this] at he
      have := h3.mem_bounds (find_entry_mem he)
      exact ⟨e, he, by omega, hb2, hb3⟩

theorem infill_update_range_saturated (update : ResourceAccessState → ResourceAccessState)
    (f : ResourceAccessState) (hf : update f = f) (hupd : ∀ s, update (update s) = update s)
    {lb : Nat} {m : ResourceAccessRangeMap} (hm : RangeMapOrdered lb m) (lo hi : Nat) :
    Saturated update lo hi (infill_update_range update (some f) lo hi m) := by
  intro x hx1 hx2
  have hlt : lo < hi := by omega
  cases he : find_entry m x with
  | none =>
    obtain ⟨r, hr, hr1, hr2⟩ := find_entry_infill_update_range_infill update f hm he hx1 hx2
    exact ⟨⟨r, f⟩, hr, hr1, hr2, hf⟩
  | some e =>
    have := find_entry_infill_update_range_some update (some f) hm hlt he
    refine ⟨_, this, ?_⟩
    unfold clip_entry
    have c : lo ≤ x ∧ x < hi := ⟨hx1, hx2⟩
    rw [if_pos c]
    exact ⟨by simp only; omega, by simp only; omega, hupd _⟩

theorem Saturated.frame {update : ResourceAccessState → ResourceAccessState}
    {lo hi : Nat} {lb : Nat} {m : ResourceAccessRangeMap} (hs : Saturated update lo hi m)
    (hm : RangeMapOrdered lb m) (update2 : ResourceAccessState → ResourceAccessState)
    (infill2 : Option ResourceAccessState) {lo2 hi2 : Nat} (hlt2 : lo2 < hi2)
    (hdis : hi ≤ lo2 ∨ hi2 ≤ lo) :
    Saturated update lo hi (SyncVal.infill_update_range update2 infill2 lo2 hi2 m) := by
  intro x hx1 hx2
  obtain ⟨e, he, he1, he2, he3⟩ := hs x hx1 hx2
  have hinc := find_entry_includes he
  unfold ResourceAccessRange.includes at hinc
  have := find_entry_infill_update_range_some update2 infill2 hm hlt2 he
  refine ⟨e, ?_, he1, he2, he3⟩
  rw [this]
  congr 1
  obtain ⟨⟨eb, ee⟩, st⟩ := e
  simp only at *
  unfold clip_entry
  have c : ¬ (lo2 ≤ x ∧ x < hi2) := by omega
  rw [if_neg c]
  by_cases c2 : x < lo2
  · rw [if_pos c2]
    have : min lo2 ee = ee := by omega
    simp only [this]
  · rw [if_neg c2]
    have : max hi2 eb = eb := by omega
    simp only [this]

theorem ApplyBarrier_ReadsKeyed (s : ResourceAccessState) (barrier : SyncBarrier)
    (h : s.ReadsKeyed) : (s.ApplyBarrier barrier).ReadsKeyed := by
  unfold ResourceAccessState.ReadsKeyed ResourceAccessState.ApplyBarrier at *
  simp only [List.map_map]
  have : ((fun r : ReadState => r.stage) ∘ fun r : ReadState =>
      if r.stage &&& barrier.src_exec_scope ≠ 0 then
        { r with barriers := r.barriers ||| barrier.dst_exec_scope }
      else r) = fun r => r.stage := by
    funext r
    simp only [Function.comp]
    split <;> rfl
  rw [this]
  exact h

theorem resolve_entry_ordered (resolve_op : ResourceAccessState → ResourceAccessState)
    {m : ResourceAccessRangeMap} (hm : RangeMapOrdered 0 m) (e : MapEntry) :
    RangeMapOrdered 0 (resolve_entry resolve_op m e) := by
  have := infill_update_range_ordered (fun s => s.Resolve (resolve_op e.state))
    (some (resolve_op e.state)) hm e.range.begin_ e.range.end_
  rw [Nat.zero_min] at this
  exact this

theorem foldl_resolve_entry_ordered (resolve_op : ResourceAccessState → ResourceAccessState)
    (p : ResourceAccessRangeMap) {m : ResourceAccessRangeMap} (hm : RangeMapOrdered 0 m) :
    RangeMapOrdered 0 (p.foldl (resolve_entry resolve_op) m) := by
  induction p generalizing m with
  | nil => exact hm
  | cons e rest ih => exact ih (resolve_entry_ordered resolve_op hm e)

/-- The entries of the predecessor that were merged are saturated in the result. -/
theorem foldl_resolve_entry_saturated (resolve_op : ResourceAccessState → ResourceAccessState)
    {lb : Nat} {p : ResourceAccessRangeMap} (hp : RangeMapOrdered lb p)
    (hk : ∀ e ∈ p, (resolve_op e.state).ReadsKeyed) {m : ResourceAccessRangeMap}
    (hm : RangeMapOrdered 0 m) :
    ∀ e ∈ p, Saturated (fun s => s.Resolve (resolve_op e.state)) e.range.begin_ e.range.end_
      (p.foldl (resolve_entry resolve_op) m) := by
  induction p generalizing lb m with
  | nil => intro e he; cases he
  | cons e0 rest ih =>
    obtain ⟨h1, h2, h3⟩ := hp
    intro e he
    rw [List.foldl_cons]
    rcases List.mem_cons.mp he with rfl | h
    · -- saturated by its own step, and the later steps are disjoint from it
      have hk0 := hk e (by simp)
      have hsat : Saturated (fun s => s.Resolve (resolve_op e.state)) e.range.begin_
          e.range.end_ (resolve_entry resolve_op m e) :=
        infill_update_range_saturated (fun s => s.Resolve (resolve_op e.state))
          (resolve_op e.state) (ResourceAccessState.Resolve_self _ hk0)
          (fun s => ResourceAccessState.Resolve_idem s _ hk0) hm e.range.begin_ e.range.end_
      have hm' := resolve_entry_ordered resolve_op hm e
      clear ih hk he
      generalize resolve_entry resolve_op m e = m' at hsat hm'
      induction rest generalizing m' with
      | nil => exact hsat
      | cons e1 rest' ih' =>
        rw [List.foldl_cons]
        have hb1 := h3.mem_bounds (show e1 ∈ e1 :: rest' by simp)
        refine ih' ?_ _ ?_ (resolve_entry_ordered resolve_op hm' e1)
        · obtain ⟨g1, g2, g3⟩ := h3
          exact g3.mono (by omega)
        · exact hsat.frame hm' _ _ hb1.2 (Or.inl hb1.1)
    · exact ih h3 (fun e' he' => hk e' (by simp [he'])) (resolve_entry_ordered resolve_op hm e0)
        e h

theorem foldl_resolve_entry_eq_self (resolve_op : ResourceAccessState → ResourceAccessState)
    (p : ResourceAccessRangeMap) {m : ResourceAccessRangeMap} (hm : RangeMapOrdered 0 m)
    (hs : ∀ e ∈ p, Saturated (fun s => s.Resolve (resolve_op e.state)) e.range.begin_
      e.range.end_ m) :
    p.foldl (resolve_entry resolve_op) m = m := by
  induction p with
  | nil => rfl
  | cons e rest ih =>
    rw [List.foldl_cons]
    have : resolve_entry resolve_op m e = m :=
      infill_update_range_eq_self _ _ hm (hs e (by simp))
    rw [this]
    exact ih (fun e' he' => hs e' (by simp [he']))

/-! ## Lemmas on the tags of a command buffer -/

theorem AddHandle_GetTagLimit (cb : CommandBufferAccessContext) (tag : ResourceUsageTag)
    (h : NamedHandle) : (cb.AddHandle tag h).GetTagLimit = cb.GetTagLimit := by
  unfold CommandBufferAccessContext.AddHandle CommandBufferAccessContext.GetTagLimit
  by_cases c : tag < cb.access_log_.length
  · rw [if_pos c]
    simp only [List.length_modify]
  · rw [if_neg c]

theorem request_tag (cb : CommandBufferAccessContext) (r : TagRequest) :
    (cb.request r).1 = cb.GetTagLimit ∧ (cb.request r).2.GetTagLimit = cb.GetTagLimit + 1 := by
  have hc : ∀ c s, (cb.NextCommandTag c s).1 = cb.GetTagLimit ∧
      (cb.NextCommandTag c s).2.GetTagLimit = cb.GetTagLimit + 1 := by
    intro c s
    unfold CommandBufferAccessContext.NextCommandTag CommandBufferAccessContext.GetTagLimit
    simp
  have hs : ∀ c s, (cb.NextSubcommandTag c s).1 = cb.GetTagLimit ∧
      (cb.NextSubcommandTag c s).2.GetTagLimit = cb.GetTagLimit + 1 := by
    intro c s
    unfold CommandBufferAccessContext.NextSubcommandTag CommandBufferAccessContext.GetTagLimit
    simp
  cases r with
  | NextCommandTag c s => exact hc c s
  | NextSubcommandTag c s => exact hs c s
  | NextCommandTagHandle c h s =>
    refine ⟨(hc c s).1, ?_⟩
    show CommandBufferAccessContext.GetTagLimit
      { (cb.NextCommandTag c s).2.AddHandle (cb.NextCommandTag c s).1 h with
        command_handles_ := [h] } = _
    have := AddHandle_GetTagLimit (cb.NextCommandTag c s).2 (cb.NextCommandTag c s).1 h
    unfold CommandBufferAccessContext.GetTagLimit at this ⊢
    simp only
    rw [this]
    exact (hc c s).2
  | NextSubcommandTagHandle c h s =>
    refine ⟨(hs c s).1, ?_⟩
    show ((cb.NextSubcommandTag c s).2.AddHandle (cb.NextSubcommandTag c s).1 h).GetTagLimit = _
    rw [AddHandle_GetTagLimit]
    exact (hs c s).2
  | NextIndexedCommandTag c i =>
    show (cb.NextIndexedCommandTag c i).1 = _ ∧ (cb.NextIndexedCommandTag c i).2.GetTagLimit = _
    unfold CommandBufferAccessContext.NextIndexedCommandTag
    by_cases c0 : i = 0
    · rw [if_pos c0]; exact hc c _
    · rw [if_neg c0]; exact hs c _

theorem requests_bounds (cb : CommandBufferAccessContext) (reqs : List TagRequest) :
    ∀ p ∈ (cb.requests reqs).1, cb.GetTagLimit ≤ p.1 ∧ p.1 < p.2 := by
  induction reqs generalizing cb with
  | nil => intro p hp; cases hp
  | cons r rs ih =>
    intro p hp
    unfold CommandBufferAccessContext.requests at hp
    simp only [List.mem_cons] at hp
    obtain ⟨h1, h2⟩ := request_tag cb r
    rcases hp with rfl | hp
    · simp only
      rw [h1, h2]
      exact ⟨Nat.le_refl _, Nat.lt_succ_self _⟩
    · have := ih (cb.request r).2 p hp
      rw [h2] at this
      exact ⟨Nat.le_of_succ_le this.1, this.2⟩

/-! ## Lemmas on the global tag counter -/

theorem ReserveGlobalTagRange_eq (v : SyncValidator) (c : Nat)
    (h : v.tag_limit_ + c < 2 ^ 64) :
    v.ReserveGlobalTagRange c = (⟨v.tag_limit_, v.tag_limit_ + c⟩, ⟨v.tag_limit_ + c⟩) := by
  unfold SyncValidator.ReserveGlobalTagRange
  rw [Nat.mod_eq_of_lt h]

theorem reserve_all_cons (v : SyncValidator) (c : Nat) (cs : List Nat)
    (h : v.tag_limit_ + c < 2 ^ 64) :
    (v.reserve_all (c :: cs)).1 =
      ⟨v.tag_limit_, v.tag_limit_ + c⟩ ::
        (SyncValidator.reserve_all ⟨v.tag_limit_ + c⟩ cs).1 := by
  rw [SyncValidator.reserve_all]
  simp only
  rw [ReserveGlobalTagRange_eq v c h]

theorem reserve_step_bounds (v : SyncValidator) (c : Nat) (cs : List Nat)
    (h : v.tag_limit_ + (c :: cs).sum < 2 ^ 64) :
    v.tag_limit_ + c < 2 ^ 64 ∧
      (⟨v.tag_limit_ + c⟩ : SyncValidator).tag_limit_ + cs.sum < 2 ^ 64 := by
  rw [List.sum_cons] at h
  simp only [ResourceUsageTag] at h ⊢
  omega

theorem reserve_all_bounds (v : SyncValidator) (counts : List Nat)
    (h : v.tag_limit_ + counts.sum < 2 ^ 64) :
    ∀ r ∈ (v.reserve_all counts).1, v.tag_limit_ ≤ r.begin_ ∧ r.begin_ ≤ r.end_ := by
  induction counts generalizing v with
  | nil => intro r hr; cases hr
  | cons c cs ih =>
    obtain ⟨h1, h2⟩ := reserve_step_bounds v c cs h
    intro r hr
    rw [reserve_all_cons v c cs h1] at hr
    rcases List.mem_cons.mp hr with rfl | hr
    · exact ⟨Nat.le_refl _, Nat.le_add_right _ _⟩
    · have := ih ⟨v.tag_limit_ + c⟩ h2 r hr
      exact ⟨Nat.le_trans (Nat.le_add_right _ _) this.1, this.2⟩

theorem reserve_all_get (v : SyncValidator) (counts : List Nat)
    (h : v.tag_limit_ + counts.sum < 2 ^ 64) (i : Nat) (hi : i < counts.length) :
    (v.reserve_all counts).1.get? i =
      some ⟨v.tag_limit_ + (counts.take i).sum,
        v.tag_limit_ + (counts.take i).sum + counts.getD i 0⟩ := by
  induction counts generalizing v i with
  | nil => cases hi
  | cons c cs ih =>
    obtain ⟨h1, h2⟩ := reserve_step_bounds v c cs h
    rw [reserve_all_cons v c cs h1]
    cases i with
    | zero => simp
    | succ j =>
      rw [List.get?_cons_succ]
      rw [ih ⟨v.tag_limit_ + c⟩ h2 j (by simpa using hi)]
      simp only [List.take_succ_cons, List.sum_cons, Nat.add_assoc, List.getD_cons_succ]

theorem reserve_all_length (v : SyncValidator) (counts : List Nat) :
    (v.reserve_all counts).1.length = counts.length := by
  induction counts generalizing v with
  | nil => rfl
  | cons c cs ih =>
    rw [SyncValidator.reserve_all]
    simp only [List.length_cons]
    rw [ih]

theorem reserve_all_pairwise (v : SyncValidator) (counts : List Nat)
    (h : v.tag_limit_ + counts.sum < 2 ^ 64) :
    (v.reserve_all counts).1.Pairwise (fun a b => a.end_ ≤ b.begin_) := by
  induction counts generalizing v with
  | nil => exact List.Pairwise.nil
  | cons c cs ih =>
    obtain ⟨h1, h2⟩ := reserve_step_bounds v c cs h
    rw [reserve_all_cons v c cs h1]
    refine List.Pairwise.cons ?_ (ih ⟨v.tag_limit_ + c⟩ h2)
    intro b hb
    exact (reserve_all_bounds ⟨v.tag_limit_ + c⟩ cs h2 b hb).1

/-! ## Lemmas on the reset count -/

theorem AddHandle_reset_count (cb : CommandBufferAccessContext) (tag : ResourceUsageTag)
    (h : NamedHandle) : (cb.AddHandle tag h).reset_count_ = cb.reset_count_ := by
  unfold CommandBufferAccessContext.AddHandle
  by_cases c : tag < cb.access_log_.length
  · rw [if_pos c]
  · rw [if_neg c]

theorem request_reset_count (cb : CommandBufferAccessContext) (r : TagRequest) :
    (cb.request r).2.reset_count_ = cb.reset_count_ := by
  cases r with
  | NextCommandTag c s => rfl
  | NextSubcommandTag c s => rfl
  | NextCommandTagHandle c h s =>
    show (cb.NextCommandTagHandle c h s).2.reset_count_ = _
    unfold CommandBufferAccessContext.NextCommandTagHandle
    simp only
    rw [AddHandle_reset_count]
    rfl
  | NextSubcommandTagHandle c h s =>
    show (cb.NextSubcommandTagHandle c h s).2.reset_count_ = _
    unfold CommandBufferAccessContext.NextSubcommandTagHandle
    simp only
    rw [AddHandle_reset_count]
    rfl
  | NextIndexedCommandTag c i =>
    show (cb.NextIndexedCommandTag c i).2.reset_count_ = _
    unfold CommandBufferAccessContext.NextIndexedCommandTag
    by_cases c0 : i = 0
    · rw [if_pos c0]; rfl
    · rw [if_neg c0]; rfl

theorem run_reset_count (cb : CommandBufferAccessContext) (ops : List CommandBufferOp)
    (hc : cb.reset_count_ < 2 ^ 32) :
    (cb.run ops).reset_count_ = (cb.reset_count_ + CommandBufferOp.resets ops) % 2 ^ 32 := by
  induction ops generalizing cb with
  | nil =>
    show cb.reset_count_ = (cb.reset_count_ + 0) % 2 ^ 32
    rw [Nat.add_zero, Nat.mod_eq_of_lt hc]
  | cons op rest ih =>
    show ((cb.apply op).run rest).reset_count_ = _
    cases op with
    | Request r =>
      have h1 : (cb.apply (CommandBufferOp.Request r)).reset_count_ = cb.reset_count_ :=
        request_reset_count cb r
      rw [ih _ (h1 ▸ hc), h1]
      rfl
    | AddHandle tag h =>
      have h1 : (cb.apply (CommandBufferOp.AddHandle tag h)).reset_count_ = cb.reset_count_ :=
        AddHandle_reset_count cb tag h
      rw [ih _ (h1 ▸ hc), h1]
      rfl
    | Destroy =>
      have h1 : (cb.apply CommandBufferOp.Destroy).reset_count_ = cb.reset_count_ := rfl
      rw [ih _ (h1 ▸ hc), h1]
      rfl
    | Reset =>
      have h1 : (cb.apply CommandBufferOp.Reset).reset_count_ =
          (cb.reset_count_ + 1) % 2 ^ 32 := rfl
      rw [ih _ (h1 ▸ Nat.mod_lt _ (by decide)), h1]
      show _ = (cb.reset_count_ + (CommandBufferOp.resets rest + 1)) % 2 ^ 32
      omega

theorem run_reset_count_ne (cb : CommandBufferAccessContext) (ops : List CommandBufferOp)
    (hc : cb.reset_count_ < 2 ^ 32) (h0 : 0 < CommandBufferOp.resets ops)
    (h1 : CommandBufferOp.resets ops < 2 ^ 32) :
    (cb.run ops).reset_count_ ≠ cb.reset_count_ := by
  rw [run_reset_count cb ops hc]
  omega

theorem NextCommandTag_created (cb : CommandBufferAccessContext) (c : Nat)
    (s : SubcommandType) :
    (cb.NextCommandTag c s).2.access_log_.get? (cb.NextCommandTag c s).1 =
      some (ResourceUsageRecord.mk6 c ((cb.command_number_ + 1) % 2 ^ 32) s 0 cb.cb_state_
        cb.reset_count_) := by
  unfold CommandBufferAccessContext.NextCommandTag
  simp only [List.get?_eq_getElem?, List.getElem?_concat_length]

theorem NextSubcommandTag_created (cb : CommandBufferAccessContext) (c : Nat)
    (s : SubcommandType) :
    (cb.NextSubcommandTag c s).2.access_log_.get? (cb.NextSubcommandTag c s).1 =
      some { ResourceUsageRecord.mk6 c cb.command_number_ s
              ((cb.subcommand_number_ + 1) % 2 ^ 32) cb.cb_state_ cb.reset_count_ with
             handles := cb.command_handles_ } := by
  unfold CommandBufferAccessContext.NextSubcommandTag
  simp only [List.get?_eq_getElem?, List.getElem?_concat_length]

theorem AddHandle_get (cb : CommandBufferAccessContext) (tag : ResourceUsageTag)
    (h : NamedHandle) {r : ResourceUsageRecord} (hr : cb.access_log_.get? tag = some r) :
    (cb.AddHandle tag h).access_log_.get? tag = some (r.AddHandle h) := by
  unfold CommandBufferAccessContext.AddHandle
  have hlt : tag < cb.access_log_.length := by
    rw [List.get?_eq_some] at hr
    exact hr.1
  rw [if_pos hlt]
  simp only [List.get?_eq_getElem?, List.getElem?_modify_eq] at hr ⊢
  rw [hr]
  rfl

theorem created_record_reset_count (cb : CommandBufferAccessContext) (q : TagRequest)
    {r : ResourceUsageRecord} (hr : cb.created_record q = some r) :
    r.reset_count = cb.reset_count_ := by
  unfold CommandBufferAccessContext.created_record at hr
  have hc : ∀ c s r, (cb.NextCommandTag c s).2.access_log_.get? (cb.NextCommandTag c s).1 =
      some r → r.reset_count = cb.reset_count_ := by
    intro c s r h
    rw [NextCommandTag_created] at h
    rw [← Option.some.inj h]
    rfl
  have hs : ∀ c s r,
      (cb.NextSubcommandTag c s).2.access_log_.get? (cb.NextSubcommandTag c s).1 = some r →
        r.reset_count = cb.reset_count_ := by
    intro c s r h
    rw [NextSubcommandTag_created] at h
    rw [← Option.some.inj h]
    rfl
  cases q with
  | NextCommandTag c s => exact hc c s r hr
  | NextSubcommandTag c s => exact hs c s r hr
  | NextCommandTagHandle c h s =>
    have h2 := AddHandle_get (cb.NextCommandTag c s).2 (cb.NextCommandTag c s).1 h
      (NextCommandTag_created cb c s)
    have h3 : (cb.request (TagRequest.NextCommandTagHandle c h s)).2.access_log_.get?
        (cb.request (TagRequest.NextCommandTagHandle c h s)).1 =
        ((cb.NextCommandTag c s).2.AddHandle (cb.NextCommandTag c s).1 h).access_log_.get?
          (cb.NextCommandTag c s).1 := rfl
    rw [h3, h2] at hr
    rw [← Option.some.inj hr]
    rfl
  | NextSubcommandTagHandle c h s =>
    have h2 := AddHandle_get (cb.NextSubcommandTag c s).2 (cb.NextSubcommandTag c s).1 h
      (NextSubcommandTag_created cb c s)
    have h3 : (cb.request (TagRequest.NextSubcommandTagHandle c h s)).2.access_log_.get?
        (cb.request (TagRequest.NextSubcommandTagHandle c h s)).1 =
        ((cb.NextSubcommandTag c s).2.AddHandle (cb.NextSubcommandTag c s).1
          h).access_log_.get? (cb.NextSubcommandTag c s).1 := rfl
    rw [h3, h2] at hr
    rw [← Option.some.inj hr]
    rfl
  | NextIndexedCommandTag c i =>
    have h3 : (cb.request (TagRequest.NextIndexedCommandTag c i)) =
        cb.NextIndexedCommandTag c i := rfl
    rw [h3] at hr
    unfold CommandBufferAccessContext.NextIndexedCommandTag at hr
    by_cases c0 : i = 0
    · rw [if_pos c0] at hr; exact hc c _ r hr
    · rw [if_neg c0] at hr; exact hs c _ r hr

theorem run_replicate_Reset (cb : CommandBufferAccessContext) (n : Nat) :
    cb.run (List.replicate (n + 1) CommandBufferOp.Reset) =
      { cb.Reset with reset_count_ := (cb.reset_count_ + (n + 1)) % 2 ^ 32 } := by
  induction n generalizing cb with
  | zero => rfl
  | succ k ih =>
    have h1 : cb.run (List.replicate (k + 1 + 1) CommandBufferOp.Reset) =
        cb.Reset.run (List.replicate (k + 1) CommandBufferOp.Reset) := rfl
    rw [h1, ih]
    have h2 : (cb.Reset.reset_count_ + (k + 1)) % 2 ^ 32 =
        (cb.reset_count_ + (k + 1 + 1)) % 2 ^ 32 := by
      show ((cb.reset_count_ + 1) % 2 ^ 32 + (k + 1)) % 2 ^ 32 = _
      omega
    rw [h2]
    rfl

/-- C8 (amended): after `Reset()` the log is empty, so every tag `t` satisfies
`t >= GetTagLimit()` and `AddHandle(t, ...)` changes nothing; and the reset count stamped into a
record created after a reset differs from the reset count of every record the same command buffer
created before it, provided fewer than 2^32 resets lie between the two records (in particular
for the records of the log the reset discards). -/
theorem C8_reset_invalidates_earlier_tags (cb : CommandBufferAccessContext)
    (hc : cb.reset_count_ < 2 ^ 32) :
    (cb.Reset.GetTagLimit = 0 ∧
      ∀ (t : ResourceUsageTag) (h : NamedHandle),
        cb.Reset.GetTagLimit ≤ t ∧ cb.Reset.AddHandle t h = cb.Reset) ∧
    ∀ (q q' : TagRequest) (ops : List CommandBufferOp) (r r' : ResourceUsageRecord),
      0 < CommandBufferOp.resets ops → CommandBufferOp.resets ops < 2 ^ 32 →
      cb.created_record q = some r →
      ((cb.request q).2.run ops).created_record q' = some r' →
      r'.reset_count ≠ r.reset_count := by
  refine ⟨⟨rfl, fun t h => ⟨Nat.zero_le _, ?_⟩⟩, ?_⟩
  · unfold CommandBufferAccessContext.AddHandle
    have : ¬ t < cb.Reset.access_log_.length := Nat.not_lt_zero _
    rw [if_neg this]
  · intro q q' ops r r' h0 h1 hr hr'
    rw [created_record_reset_count cb q hr, created_record_reset_count _ q' hr']
    have hc' : (cb.request q).2.reset_count_ < 2 ^ 32 := by
      rw [request_reset_count]; exact hc
    have := run_reset_count_ne (cb.request q).2 ops hc' h0 h1
    rw [request_reset_count] at this
    exact this

/-! ## Lemmas on the dynamic state conversion -/

theorem handled_dynamic_states_bounds :
    ∀ s ∈ handled_dynamic_states,
      CB_DYNAMIC_STATE_VIEWPORT ≤ s ∧ s ≤ CB_DYNAMIC_STATE_ATTACHMENT_FEEDBACK_LOOP_ENABLE_EXT := by
  decide

theorem mem_handled_dynamic_states (s : CBDynamicState) :
    s ∈ handled_dynamic_states ↔
      CB_DYNAMIC_STATE_VIEWPORT ≤ s ∧ s ≤ CB_DYNAMIC_STATE_ATTACHMENT_FEEDBACK_LOOP_ENABLE_EXT := by
  constructor
  · exact handled_dynamic_states_bounds s
  · rintro ⟨h1, h2⟩
    have h1' : 1 ≤ s := h1
    have h2' : s ≤ 72 := h2
    interval_cases s <;> decide

theorem ConvertToDynamicState_round_trip_handled :
    ∀ s ∈ handled_dynamic_states, ConvertToCBDynamicState (ConvertToDynamicState s) = s := by
  decide

theorem ConvertToDynamicState_unhandled (s : Nat)
    (h : s ∉ handled_dynamic_states) :
    ConvertToDynamicState s = VkDynamicState.VK_DYNAMIC_STATE_MAX_ENUM := by
  rw [mem_handled_dynamic_states] at h
  have h' : ¬ (1 ≤ s ∧ s ≤ 72) := h
  have h0' : s < 1 ∨ 73 ≤ s := by omega
  rcases h0' with h0 | h0
  · have : s = 0 := by omega
    subst this
    rfl
  · obtain ⟨n, rfl⟩ : ∃ n, s = n + 73 := ⟨s - 73, by omega⟩
    rfl

/-! ## Lemmas on the construction of trackbacks and clear attachment infos -/

theorem from_dependencies_foldl {Dependency : Type}
    (make_barrier : Nat → Dependency → SyncBarrier) (queue_flags_ : Nat)
    (dependencies : List Dependency) (acc : List SyncBarrier) :
    (dependencies.map some).foldl
      (fun (barriers : Option (List SyncBarrier)) (dependency : Option Dependency) =>
        match barriers, dependency with
        | some barriers, some dependency =>
          some (barriers ++ [make_barrier queue_flags_ dependency])
        | _, _ => none)
      (some acc) = some (acc ++ dependencies.map (make_barrier queue_flags_)) := by
  induction dependencies generalizing acc with
  | nil => simp
  | cons d ds ih =>
    simp only [List.map_cons, List.foldl_cons]
    rw [ih]
    simp

theorem from_dependencies_eq {SubpassNode Dependency : Type}
    (make_barrier : Nat → Dependency → SyncBarrier)
    (source_subpass_ : Option SubpassNode) (queue_flags_ : Nat)
    (dependencies : List Dependency) :
    SubpassBarrierTrackback.from_dependencies make_barrier source_subpass_ queue_flags_
        (dependencies.map some) =
      some ⟨dependencies.map (make_barrier queue_flags_), source_subpass_⟩ := by
  unfold SubpassBarrierTrackback.from_dependencies
  rw [from_dependencies_foldl]
  simp

/-! ## Lemmas on the debug output buffer -/

theorem CreateDevice_output_buffer_size (self : GpuAssisted) (buffer_device_address : Bool)
    (max_buffer_device_addresses kInstMaxOutCnt : Nat) :
    (self.CreateDevice buffer_device_address max_buffer_device_addresses
      kInstMaxOutCnt).output_buffer_size =
      (4 * (kInstMaxOutCnt + kDebugOutputDataOffset)) % 2 ^ 32 := by
  unfold GpuAssisted.CreateDevice
  cases buffer_device_address <;> rfl

theorem words_to_clear_eq (self : GpuAssisted) (total_words : Nat)
    (hlo : kDebugOutputDataOffset ≤ self.output_buffer_size)
    (hhi : self.output_buffer_size < 2 ^ 32) :
    self.words_to_clear total_words =
      min total_words (self.output_buffer_size - kDebugOutputDataOffset) := by
  unfold GpuAssisted.words_to_clear
  have h : (self.output_buffer_size + 2 ^ 32 - kDebugOutputDataOffset) % 2 ^ 32 =
      self.output_buffer_size - kDebugOutputDataOffset := by
    have e : self.output_buffer_size + 2 ^ 32 - kDebugOutputDataOffset =
        (self.output_buffer_size - kDebugOutputDataOffset) + 2 ^ 32 := by omega
    rw [e, Nat.add_mod_right]
    exact Nat.mod_eq_of_lt (by omega)
  rw [h]

theorem words_to_clear_CreateDevice (self : GpuAssisted) (buffer_device_address : Bool)
    (max_buffer_device_addresses kInstMaxOutCnt total_words : Nat)
    (hfit : 4 * (kInstMaxOutCnt + kDebugOutputDataOffset) < 2 ^ 32) :
    (self.CreateDevice buffer_device_address max_buffer_device_addresses
      kInstMaxOutCnt).words_to_clear total_words =
      min total_words (4 * kInstMaxOutCnt + 3 * kDebugOutputDataOffset) := by
  have hsize := CreateDevice_output_buffer_size self buffer_device_address
    max_buffer_device_addresses kInstMaxOutCnt
  rw [Nat.mod_eq_of_lt hfit] at hsize
  rw [words_to_clear_eq _ _ (by rw [hsize]; omega) (by rw [hsize]; exact hfit), hsize]
  have e : 4 * (kInstMaxOutCnt + kDebugOutputDataOffset) - kDebugOutputDataOffset =
      4 * kInstMaxOutCnt + 3 * kDebugOutputDataOffset := by omega
  rw [e]

theorem words_to_clear_exceeds (self : GpuAssisted) (buffer_device_address : Bool)
    (max_buffer_device_addresses kInstMaxOutCnt total_words : Nat)
    (hfit : 4 * (kInstMaxOutCnt + kDebugOutputDataOffset) < 2 ^ 32)
    (h : kInstMaxOutCnt < total_words) :
    kInstMaxOutCnt <
      (self.CreateDevice buffer_device_address max_buffer_device_addresses
        kInstMaxOutCnt).words_to_clear total_words := by
  rw [words_to_clear_CreateDevice self _ _ _ _ hfit]
  have hd : kDebugOutputDataOffset = 2 := rfl
  rw [hd]
  omega

theorem CreateDevice_output_buffer_words (self : GpuAssisted) (buffer_device_address : Bool)
    (max_buffer_device_addresses kInstMaxOutCnt : Nat)
    (hfit : 4 * (kInstMaxOutCnt + kDebugOutputDataOffset) < 2 ^ 32) :
    (self.CreateDevice buffer_device_address max_buffer_device_addresses
      kInstMaxOutCnt).output_buffer_words = kInstMaxOutCnt + kDebugOutputDataOffset := by
  unfold GpuAssisted.output_buffer_words
  rw [CreateDevice_output_buffer_size, Nat.mod_eq_of_lt hfit]
  omega

theorem AnalyzeAndGenerateMessages_in_bounds (self : GpuAssisted) (uses_robustness : Bool)
    (GenerateValidationMessage : (Nat → Nat) → GeneratedMessage)
    (UtilGenerateMessages : (Nat → Nat) → String)
    (debug_output_buffer : Nat → Nat)
    (h : debug_output_buffer kDebugOutputSizeOffset ≠ 0)
    (hin : kDebugOutputDataOffset +
        self.words_to_clear (debug_output_buffer kDebugOutputSizeOffset) ≤
      self.output_buffer_words) :
    ∃ log : List LogMessage,
      self.AnalyzeAndGenerateMessages uses_robustness GenerateValidationMessage
          UtilGenerateMessages debug_output_buffer =
        Except.ok (log, fun j =>
          if kDebugOutputDataOffset ≤ j ∧
              j < kDebugOutputDataOffset +
                self.words_to_clear (debug_output_buffer kDebugOutputSizeOffset) then 0
          else if j = kDebugOutputSizeOffset then 0
          else debug_output_buffer j) := by
  unfold GpuAssisted.AnalyzeAndGenerateMessages
  simp only
  rw [if_neg (fun e => h e.symm), if_pos hin]
  exact ⟨_, rfl⟩

theorem AnalyzeAndGenerateMessages_out_of_bounds (self : GpuAssisted) (uses_robustness : Bool)
    (GenerateValidationMessage : (Nat → Nat) → GeneratedMessage)
    (UtilGenerateMessages : (Nat → Nat) → String)
    (debug_output_buffer : Nat → Nat)
    (h : debug_output_buffer kDebugOutputSizeOffset ≠ 0)
    (hout : self.output_buffer_words <
      kDebugOutputDataOffset +
        self.words_to_clear (debug_output_buffer kDebugOutputSizeOffset)) :
    self.AnalyzeAndGenerateMessages uses_robustness GenerateValidationMessage
        UtilGenerateMessages debug_output_buffer =
      Except.error (max kDebugOutputDataOffset self.output_buffer_words) := by
  unfold GpuAssisted.AnalyzeAndGenerateMessages
  simp only
  rw [if_neg (fun e => h e.symm), if_neg (Nat.not_le.mpr hout)]

theorem AnalyzeAndGenerateMessages_past_buffer (self : GpuAssisted)
    (buffer_device_address : Bool) (max_buffer_device_addresses kInstMaxOutCnt : Nat)
    (uses_robustness : Bool)
    (GenerateValidationMessage : (Nat → Nat) → GeneratedMessage)
    (UtilGenerateMessages : (Nat → Nat) → String)
    (debug_output_buffer : Nat → Nat)
    (hfit : 4 * (kInstMaxOutCnt + kDebugOutputDataOffset) < 2 ^ 32)
    (h : kInstMaxOutCnt < debug_output_buffer kDebugOutputSizeOffset) :
    (self.CreateDevice buffer_device_address max_buffer_device_addresses
        kInstMaxOutCnt).AnalyzeAndGenerateMessages uses_robustness GenerateValidationMessage
        UtilGenerateMessages debug_output_buffer =
      Except.error (kInstMaxOutCnt + kDebugOutputDataOffset) := by
  have hw := CreateDevice_output_buffer_words self buffer_device_address
    max_buffer_device_addresses kInstMaxOutCnt hfit
  have hx := words_to_clear_exceeds self buffer_device_address max_buffer_device_addresses
    kInstMaxOutCnt (debug_output_buffer kDebugOutputSizeOffset) hfit h
  rw [AnalyzeAndGenerateMessages_out_of_bounds _ _ _ _ _ (by omega) (by rw [hw]; omega), hw]
  congr 1
  omega

theorem AnalyzeAndGenerateMessages_clears_in_bounds (self : GpuAssisted)
    (uses_robustness : Bool)
    (GenerateValidationMessage : (Nat → Nat) → GeneratedMessage)
    (UtilGenerateMessages : (Nat → Nat) → String)
    (debug_output_buffer : Nat → Nat)
    (h : debug_output_buffer kDebugOutputSizeOffset ≠ 0)
    (hlo : kDebugOutputDataOffset ≤ self.output_buffer_size)
    (hhi : self.output_buffer_size < 2 ^ 32)
    (hin : kDebugOutputDataOffset +
        min (debug_output_buffer kDebugOutputSizeOffset)
          (self.output_buffer_size - kDebugOutputDataOffset) ≤ self.output_buffer_words) :
    ∃ (log : List LogMessage) (buffer : Nat → Nat),
      self.AnalyzeAndGenerateMessages uses_robustness GenerateValidationMessage
          UtilGenerateMessages debug_output_buffer = Except.ok (log, buffer) ∧
      buffer kDebugOutputSizeOffset = 0 ∧
      (∀ i : Nat,
          i < min (debug_output_buffer kDebugOutputSizeOffset)
              (self.output_buffer_size - kDebugOutputDataOffset) →
          buffer (kDebugOutputDataOffset + i) = 0) ∧
      (∀ j : Nat, j ≠ kDebugOutputSizeOffset →
          ¬ (kDebugOutputDataOffset ≤ j ∧
              j < kDebugOutputDataOffset +
                min (debug_output_buffer kDebugOutputSizeOffset)
                  (self.output_buffer_size - kDebugOutputDataOffset)) →
          buffer j = debug_output_buffer j) ∧
      buffer kDebugOutputFlagsOffset = debug_output_buffer kDebugOutputFlagsOffset := by
  have hw := words_to_clear_eq self (debug_output_buffer kDebugOutputSizeOffset) hlo hhi
  obtain ⟨log, hb⟩ := AnalyzeAndGenerateMessages_in_bounds self uses_robustness
    GenerateValidationMessage UtilGenerateMessages debug_output_buffer h (by rw [hw]; exact hin)
  rw [hw] at hb
  refine ⟨log, _, hb, ?_, ?_, ?_, ?_⟩
  · simp [kDebugOutputSizeOffset, kDebugOutputDataOffset]
  · intro i hi
    exact if_pos ⟨Nat.le_add_right _ _, Nat.add_lt_add_left hi _⟩
  · intro j hj hn
    show (if _ then _ else _) = _
    rw [if_neg hn, if_neg hj]
  · simp [kDebugOutputSizeOffset, kDebugOutputDataOffset, kDebugOutputFlagsOffset]

theorem AnalyzeAndGenerateMessages_clears_in_bounds_example :
    ∃ (log : List LogMessage) (buffer : Nat → Nat),
      (GpuAssisted.mk 4 104 60 true 0 1).AnalyzeAndGenerateMessages false
          (fun _ => ⟨false, false, "error", "VUID"⟩) (fun _ => "")
          (fun j : Nat => if j = 0 then 1 else if j = 1 then 3 else if j = 5 then 5 else j + 5) =
        Except.ok (log, buffer) ∧
      buffer 0 = 1 ∧ buffer 1 = 0 ∧ buffer 2 = 0 ∧ buffer 3 = 0 ∧ buffer 4 = 0 ∧
      buffer 5 = 5 := by
  obtain ⟨log, buffer, h1, h2, h3, h4, h5⟩ :=
    AnalyzeAndGenerateMessages_clears_in_bounds (GpuAssisted.mk 4 104 60 true 0 1) false
      (fun _ => ⟨false, false, "error", "VUID"⟩) (fun _ => "")
      (fun j : Nat => if j = 0 then 1 else if j = 1 then 3 else if j = 5 then 5 else j + 5)
      (by decide) (by decide) (by decide) (by decide)
  exact ⟨log, buffer, h1, h5, h2, h3 0 (by decide), h3 1 (by decide), h3 2 (by decide),
    h4 5 (by decide) (by decide)⟩

/-! ## Lemmas on the buffer of device addresses -/

theorem UpdateBDABuffer_loop_spec (ranges : List BufferAddressRange) :
    ∀ (a s : Nat) (d : BdaData),
      a + ranges.length < 2 ^ 32 → s + ranges.length < 2 ^ 64 → a + ranges.length ≤ s →
      (UpdateBDABuffer.loop ranges a s d).1 = a + ranges.length ∧
      (UpdateBDABuffer.loop ranges a s d).2.1 = s + ranges.length ∧
      ∀ j : Nat, (UpdateBDABuffer.loop ranges a s d).2.2.words j =
        if a ≤ j ∧ j < a + ranges.length then (ranges.getD (j - a) ⟨0, 0⟩).begin_
        else if s ≤ j ∧ j < s + ranges.length then
          ((ranges.getD (j - s) ⟨0, 0⟩).end_ + 2 ^ 64 -
            (ranges.getD (j - s) ⟨0, 0⟩).begin_) % 2 ^ 64
        else d.words j := by
  induction ranges with
  | nil =>
    intro a s d _ _ _
    refine ⟨rfl, rfl, ?_⟩
    intro j
    have h1 : ¬ (a ≤ j ∧ j < a + ([] : List BufferAddressRange).length) := by
      simp only [List.length_nil]; omega
    have h2 : ¬ (s ≤ j ∧ j < s + ([] : List BufferAddressRange).length) := by
      simp only [List.length_nil]; omega
    rw [if_neg h1, if_neg h2]
    rfl
  | cons r rs ih =>
    intro a s d ha hs has
    simp only [List.length_cons] at ha hs has ⊢
    rw [UpdateBDABuffer.loop]
    have ea : (a + 1) % 2 ^ 32 = a + 1 := Nat.mod_eq_of_lt (by omega)
    have es : (s + 1) % 2 ^ 64 = s + 1 := Nat.mod_eq_of_lt (by omega)
    rw [ea, es]
    obtain ⟨i1, i2, i3⟩ := ih (a + 1) (s + 1)
      ((d.store a r.begin_).store s ((r.end_ + 2 ^ 64 - r.begin_) % 2 ^ 64))
      (by omega) (by omega) (by omega)
    refine ⟨by rw [i1]; omega, by rw [i2]; omega, ?_⟩
    intro j
    rw [i3]
    by_cases c1 : a ≤ j ∧ j < a + (rs.length + 1)
    · rw [if_pos c1]
      by_cases c2 : j = a
      · subst c2
        rw [if_neg (by omega), if_neg (by omega)]
        simp only [BdaData.store, Nat.sub_self, List.getD_cons_zero]
        rw [if_neg (by omega)]
        exact if_pos trivial
      · rw [if_pos (by omega)]
        have e : j - a = (j - (a + 1)) + 1 := by omega
        rw [e, List.getD_cons_succ]
    · rw [if_neg c1, if_neg (by omega)]
      by_cases c3 : s ≤ j ∧ j < s + (rs.length + 1)
      · rw [if_pos c3]
        by_cases c4 : j = s
        · subst c4
          rw [if_neg (by omega)]
          simp only [BdaData.store, Nat.sub_self, List.getD_cons_zero]
          exact if_pos trivial
        · rw [if_pos (by omega)]
          have e : j - s = (j - (s + 1)) + 1 := by omega
          rw [e, List.getD_cons_succ]
      · rw [if_neg c3, if_neg (by omega)]
        simp only [BdaData.store]
        rw [if_neg (by omega), if_neg (by omega)]

theorem UpdateBDABuffer_words (self : GpuAssisted) (address_ranges : List BufferAddressRange)
    (bda_data : BdaData)
    (hversion : self.gpuav_bda_buffer_version ≠ self.buffer_device_address_ranges_version)
    (hN : 1 ≤ address_ranges.length)
    (hM : address_ranges.length ≤ self.app_bda_max_addresses)
    (h32 : address_ranges.length + 2 < 2 ^ 32) (j : Nat) :
    (self.UpdateBDABuffer address_ranges bda_data).2.words j =
      if j = 2 * address_ranges.length + 4 then 0
      else if j = address_ranges.length + 2 then 2 ^ 64 - 1
      else if 2 ≤ j ∧ j < 2 + address_ranges.length then
        (address_ranges.getD (j - 2) ⟨0, 0⟩).begin_
      else if address_ranges.length + 4 ≤ j ∧ j < address_ranges.length + 4 +
          address_ranges.length then
        ((address_ranges.getD (j - (address_ranges.length + 4)) ⟨0, 0⟩).end_ + 2 ^ 64 -
          (address_ranges.getD (j - (address_ranges.length + 4)) ⟨0, 0⟩).begin_) % 2 ^ 64
      else if j = address_ranges.length + 3 then 0
      else if j = 1 then 0
      else if j = 0 then address_ranges.length + 3
      else if j < self.app_bda_buffer_size / 8 then 0
      else bda_data.words j := by
  unfold GpuAssisted.UpdateBDABuffer
  rw [if_neg hversion, if_neg (by omega)]
  have e1 : (3 + address_ranges.length) % 2 ^ 64 = address_ranges.length + 3 := by
    rw [Nat.mod_eq_of_lt (by omega)]; omega
  have e2 : (1 + 1) % 2 ^ 32 = 2 := by decide
  have e3 : (address_ranges.length + 3 + 1) % 2 ^ 64 = address_ranges.length + 4 :=
    Nat.mod_eq_of_lt (by omega)
  have e4 : min address_ranges.length self.app_bda_max_addresses = address_ranges.length :=
    Nat.min_eq_left hM
  simp only [e1, e2, e3, e4, List.take_length]
  obtain ⟨i1, i2, i3⟩ := UpdateBDABuffer_loop_spec address_ranges 2
    (address_ranges.length + 4)
    ((((bda_data.memset_zero self.app_bda_buffer_size).store 0
      (address_ranges.length + 3)).store 1 0).store (address_ranges.length + 3) 0)
    (by omega) (by omega) (by omega)
  generalize hd0 : (((bda_data.memset_zero self.app_bda_buffer_size).store 0
      (address_ranges.length + 3)).store 1 0).store (address_ranges.length + 3) 0 = d0
    at i1 i2 i3 ⊢
  simp only [i1, i2]
  simp only [BdaData.store, i3]
  subst hd0
  simp only [BdaData.store, BdaData.memset_zero]
  have e5 : address_ranges.length + 4 + address_ranges.length =
      2 * address_ranges.length + 4 := by omega
  have e6 : 2 + address_ranges.length = address_ranges.length + 2 := by omega
  rw [e5, e6]

theorem UpdateBDABuffer_loop_written (ranges : List BufferAddressRange) :
    ∀ (a s : Nat) (d : BdaData),
      a + ranges.length < 2 ^ 32 → s + ranges.length < 2 ^ 64 →
      ∀ x ∈ (UpdateBDABuffer.loop ranges a s d).2.2.written,
        x ∈ d.written ∨ (a ≤ x ∧ x < a + ranges.length) ∨ (s ≤ x ∧ x < s + ranges.length) := by
  induction ranges with
  | nil =>
    intro a s d _ _ x hx
    exact Or.inl hx
  | cons r rs ih =>
    intro a s d ha hs x hx
    simp only [List.length_cons] at ha hs ⊢
    rw [UpdateBDABuffer.loop] at hx
    have ea : (a + 1) % 2 ^ 32 = a + 1 := Nat.mod_eq_of_lt (by omega)
    have es : (s + 1) % 2 ^ 64 = s + 1 := Nat.mod_eq_of_lt (by omega)
    rw [ea, es] at hx
    rcases ih (a + 1) (s + 1) _ (by omega) (by omega) x hx with h | h | h
    · simp only [BdaData.store, List.mem_append, List.mem_singleton] at h
      rcases h with (h | h) | h
      · exact Or.inl h
      · exact Or.inr (Or.inl (by omega))
      · exact Or.inr (Or.inr (by omega))
    · exact Or.inr (Or.inl (by omega))
    · exact Or.inr (Or.inr (by omega))

theorem UpdateBDABuffer_written_in_bounds (self : GpuAssisted)
    (address_ranges : List BufferAddressRange) (words : Nat → Nat)
    (hM : address_ranges.length ≤ self.app_bda_max_addresses)
    (h32 : address_ranges.length + 2 < 2 ^ 32)
    (hsize : self.app_bda_buffer_size =
      (1 + (self.app_bda_max_addresses + 2) + (self.app_bda_max_addresses + 2)) * 8) :
    ∀ x ∈ (self.UpdateBDABuffer address_ranges ⟨words, []⟩).2.written,
      x < 2 * self.app_bda_max_addresses + 5 := by
  intro x hx
  unfold GpuAssisted.UpdateBDABuffer at hx
  by_cases hversion : self.gpuav_bda_buffer_version = self.buffer_device_address_ranges_version
  · rw [if_pos hversion] at hx
    simp at hx
  · rw [if_neg hversion] at hx
    by_cases hN : address_ranges.length = 0
    · rw [if_pos hN] at hx
      simp at hx
    · rw [if_neg hN] at hx
      have e1 : (3 + address_ranges.length) % 2 ^ 64 = address_ranges.length + 3 := by
        rw [Nat.mod_eq_of_lt (by omega)]; omega
      have e2 : (1 + 1) % 2 ^ 32 = 2 := by decide
      have e3 : (address_ranges.length + 3 + 1) % 2 ^ 64 = address_ranges.length + 4 :=
        Nat.mod_eq_of_lt (by omega)
      have e4 : min address_ranges.length self.app_bda_max_addresses =
          address_ranges.length := Nat.min_eq_left hM
      simp only [e1, e2, e3, e4, List.take_length] at hx
      obtain ⟨i1, i2, _⟩ := UpdateBDABuffer_loop_spec address_ranges 2
        (address_ranges.length + 4)
        ((((BdaData.mk words []).memset_zero self.app_bda_buffer_size).store 0
          (address_ranges.length + 3)).store 1 0 |>.store (address_ranges.length + 3) 0)
        (by omega) (by omega) (by omega)
      have hl := UpdateBDABuffer_loop_written address_ranges 2 (address_ranges.length + 4)
        ((((BdaData.mk words []).memset_zero self.app_bda_buffer_size).store 0
          (address_ranges.length + 3)).store 1 0 |>.store (address_ranges.length + 3) 0)
        (by omega) (by omega)
      generalize hd0 : ((((BdaData.mk words []).memset_zero self.app_bda_buffer_size).store 0
          (address_ranges.length + 3)).store 1 0 |>.store (address_ranges.length + 3) 0) = d0
        at i1 i2 hl hx
      simp only [i1, i2] at hx
      simp only [BdaData.store, List.mem_append, List.mem_singleton] at hx
      have hcap : self.app_bda_buffer_size / 8 = 2 * self.app_bda_max_addresses + 5 := by
        rw [hsize]; omega
      rcases hx with (hx | hx) | hx
      · rcases hl x hx with h | h | h
        · subst hd0
          simp only [BdaData.store, BdaData.memset_zero, List.nil_append, List.mem_append,
            List.mem_singleton, List.mem_range] at h
          omega
        · omega
        · omega
      · omega
      · omega

theorem UpdateBDABuffer_written_past_end (self : GpuAssisted)
    (address_ranges : List BufferAddressRange) (bda_data : BdaData)
    (hversion : self.gpuav_bda_buffer_version ≠ self.buffer_device_address_ranges_version)
    (hM : self.app_bda_max_addresses < address_ranges.length)
    (h32 : address_ranges.length + 2 < 2 ^ 32) :
    address_ranges.length + 4 + self.app_bda_max_addresses ∈
        (self.UpdateBDABuffer address_ranges bda_data).2.written ∧
      2 * self.app_bda_max_addresses + 5 ≤
        address_ranges.length + 4 + self.app_bda_max_addresses := by
  refine ⟨?_, by omega⟩
  unfold GpuAssisted.UpdateBDABuffer
  rw [if_neg hversion, if_neg (by omega)]
  have e1 : (3 + address_ranges.length) % 2 ^ 64 = address_ranges.length + 3 := by
    rw [Nat.mod_eq_of_lt (by omega)]; omega
  have e2 : (1 + 1) % 2 ^ 32 = 2 := by decide
  have e3 : (address_ranges.length + 3 + 1) % 2 ^ 64 = address_ranges.length + 4 :=
    Nat.mod_eq_of_lt (by omega)
  have e4 : min address_ranges.length self.app_bda_max_addresses =
      self.app_bda_max_addresses := Nat.min_eq_right (Nat.le_of_lt hM)
  simp only [e1, e2, e3, e4]
  have hlen : (address_ranges.take self.app_bda_max_addresses).length =
      self.app_bda_max_addresses := by
    rw [List.length_take]; exact Nat.min_eq_left (Nat.le_of_lt hM)
  obtain ⟨_, i2, _⟩ := UpdateBDABuffer_loop_spec
    (address_ranges.take self.app_bda_max_addresses) 2 (address_ranges.length + 4)
    ((((bda_data.memset_zero self.app_bda_buffer_size).store 0
      (address_ranges.length + 3)).store 1 0).store (address_ranges.length + 3) 0)
    (by omega) (by omega) (by omega)
  rw [hlen] at i2
  simp only [BdaData.store, List.mem_append, List.mem_singleton]
  exact Or.inr i2.symm

/-! ## Lemmas on the count of an indirect draw -/

theorem max_count_eq (command : Func) (count_buffer_offset offset stride bufsize : Nat)
    (hcommand : command = Func.vkCmdDrawIndirectCount ∨
      command = Func.vkCmdDrawIndirectCountKHR ∨
      command = Func.vkCmdDrawIndexedIndirectCount ∨
      command = Func.vkCmdDrawIndexedIndirectCountKHR)
    (hcount : count_buffer_offset ≤ 2 ^ 32 - 1)
    (hstride : 0 < stride)
    (hsum : struct_size command + offset < 2 ^ 64)
    (hfit : struct_size command + offset ≤ bufsize →
      1 + (bufsize - struct_size command - offset) / stride < 2 ^ 32) :
    max_count command count_buffer_offset offset stride bufsize =
      some (if struct_size command + offset > bufsize then 0
        else 1 + (bufsize - struct_size command - offset) / stride) := by
  unfold max_count
  rw [if_pos hcommand, if_neg (by omega)]
  simp only
  rw [Nat.mod_eq_of_lt hsum]
  by_cases h : struct_size command + offset > bufsize
  · rw [if_pos h, if_pos h]
  · rw [if_neg h, if_neg h]
    have hfit := hfit (by omega)
    have e : bufsize - (struct_size command + offset) =
        bufsize - struct_size command - offset := by omega
    rw [e, if_neg (by omega), if_pos (by omega), Nat.mod_eq_of_lt hfit]

theorem count_fits_iff (S o t B n : Nat) (ht : 0 < t) (hn : 1 ≤ n) :
    t * (n - 1) + o + S ≤ B ↔
      n ≤ (if S + o > B then 0 else 1 + (B - S - o) / t) := by
  by_cases h : S + o > B
  · rw [if_pos h]
    constructor
    · intro h1
      have : 0 ≤ t * (n - 1) := Nat.zero_le _
      omega
    · intro h1
      omega
  · rw [if_neg h]
    have key : n - 1 ≤ (B - S - o) / t ↔ (n - 1) * t ≤ B - S - o :=
      Nat.le_div_iff_mul_le ht
    rw [Nat.mul_comm] at key
    constructor
    · intro h1
      have : n - 1 ≤ (B - S - o) / t := key.mpr (by omega)
      omega
    · intro h1
      have : t * (n - 1) ≤ B - S - o := key.mp (by omega)
      omega

/-! ## Lemmas on the names of sets of dynamic states -/

theorem String_append_ne_empty (a b : String) (h : a ≠ "") : a ++ b ≠ "" := by
  intro e
  apply h
  have e2 := congrArg String.data e
  rw [String.data_append] at e2
  have e3 : a.data = [] := (List.append_eq_nil.mp e2).1
  exact String.ext e3

theorem String_isEmpty_eq_false (a : String) (h : a ≠ "") : a.isEmpty = false := by
  cases hb : a.isEmpty with
  | false => rfl
  | true => exact absurd ((String.isEmpty_iff a).mp hb) h

theorem intercalate_go_ne_empty (s : String) (l : List String) :
    ∀ acc : String, acc ≠ "" → String.intercalate.go acc s l ≠ "" := by
  induction l with
  | nil => intro acc h; exact h
  | cons a l ih =>
    intro acc h
    rw [String.intercalate.go]
    exact ih _ (String_append_ne_empty _ _ (String_append_ne_empty _ _ h))

theorem DynamicStatesToString_foldl_nonempty (string_VkDynamicState : VkDynamicState → String)
    (dynamic_states : CBDynamicFlags) (indices : List Nat) :
    ∀ ret : String, ret ≠ "" →
      indices.foldl (DynamicStatesToString.step string_VkDynamicState dynamic_states) ret =
        String.intercalate.go ret "|"
          ((indices.filter (fun i => dynamic_states i)).map
            (fun i => string_VkDynamicState (ConvertToDynamicState i))) := by
  induction indices with
  | nil => intro ret _; rfl
  | cons i l ih =>
    intro ret h
    rw [List.foldl_cons]
    cases hF : dynamic_states i with
    | false =>
      have e : DynamicStatesToString.step string_VkDynamicState dynamic_states ret i = ret := by
        unfold DynamicStatesToString.step
        simp only [hF]
        rfl
      rw [e, ih ret h, List.filter_cons_of_neg (by simp [hF])]
    | true =>
      have e : DynamicStatesToString.step string_VkDynamicState dynamic_states ret i =
          ret ++ "|" ++ string_VkDynamicState (ConvertToDynamicState i) := by
        unfold DynamicStatesToString.step
        simp only [hF, String_isEmpty_eq_false ret h]
        rfl
      rw [e, ih _ (String_append_ne_empty _ _ (String_append_ne_empty _ _ h)),
        List.filter_cons_of_pos (by simp [hF]), List.map_cons, String.intercalate.go]

theorem DynamicStatesToString_foldl_empty (string_VkDynamicState : VkDynamicState → String)
    (dynamic_states : CBDynamicFlags) (indices : List Nat)
    (hnames : ∀ i ∈ indices, dynamic_states i = true →
      string_VkDynamicState (ConvertToDynamicState i) ≠ "") :
    indices.foldl (DynamicStatesToString.step string_VkDynamicState dynamic_states) "" =
      "|".intercalate
        ((indices.filter (fun i => dynamic_states i)).map
          (fun i => string_VkDynamicState (ConvertToDynamicState i))) := by
  induction indices with
  | nil => rfl
  | cons i l ih =>
    rw [List.foldl_cons]
    cases hF : dynamic_states i with
    | false =>
      have e : DynamicStatesToString.step string_VkDynamicState dynamic_states "" i = "" := by
        unfold DynamicStatesToString.step
        simp only [hF]
        rfl
      rw [e, ih (fun j hj => hnames j (List.mem_cons_of_mem _ hj)),
        List.filter_cons_of_neg (by simp [hF])]
    | true =>
      have e : DynamicStatesToString.step string_VkDynamicState dynamic_states "" i =
          string_VkDynamicState (ConvertToDynamicState i) := by
        unfold DynamicStatesToString.step
        simp only [hF]
        rfl
      rw [e, DynamicStatesToString_foldl_nonempty _ _ _ _
          (hnames i (List.mem_cons_self _ _) hF),
        List.filter_cons_of_pos (by simp [hF]), List.map_cons]
      rfl

theorem intercalate_ne_empty (s : String) (l : List String) (hl : l ≠ [])
    (hne : ∀ a ∈ l, a ≠ "") : s.intercalate l ≠ "" := by
  cases l with
  | nil => exact absurd rfl hl
  | cons a l =>
    exact intercalate_go_ne_empty s l a (hne a (List.mem_cons_self _ _))

/-! ## The claims -/

/-- C1: for two write accesses W1 and W2 to overlapping ranges of the same buffer, with W1 stored
by `UpdateAccessState` under ordering rule kOrderingNone into an access context (any context
whose range map is well formed) and nothing applied afterwards, `DetectHazard` for W2 over its
range reports a hazard, never none. -/
theorem C1_unsynchronized_write_write_reports_hazard (ctx : AccessContext)
    (buffer : BUFFER_STATE) (W1 W2 : SyncStageAccessInfoType) (r1 r2 : ResourceAccessRange)
    (tag1 : ResourceUsageTag) (hctx : RangeMapOrdered 0 ctx.access_state_map_)
    (hw1 : W1.is_write = true) (hw2 : W2.is_write = true) (hr1 : r1.non_empty)
    (hr2 : r2.non_empty) (hov : r1.intersects r2) :
    ((ctx.UpdateAccessState buffer W1 SyncOrdering.kOrderingNone r1 tag1).DetectHazard
      buffer W2 r2).isSome = true := by
  unfold ResourceAccessRange.non_empty at hr1 hr2
  unfold ResourceAccessRange.intersects at hov
  obtain ⟨r, hr⟩ := find_entry_after_write
    (fun s => s.Update W1 SyncOrdering.kOrderingNone tag1)
    (ResourceAccessState.empty.Update W1 SyncOrdering.kOrderingNone tag1)
    (fun s => by
      show s.Update W1 SyncOrdering.kOrderingNone tag1 = _
      rw [Update_write s W1 _ tag1 hw1, Update_write _ W1 _ tag1 hw1]) hctx
    (r1.offset buffer.base_address).begin_ (r1.offset buffer.base_address).end_
    (max r1.begin_ r2.begin_ + buffer.base_address)
    (by unfold ResourceAccessRange.offset; simp only; omega)
    (by unfold ResourceAccessRange.offset; simp only; omega)
  have hd := DetectHazardRange_isSome_of_find (fun s => s.DetectHazard W2)
    (r2.offset buffer.base_address) hr
    (by unfold ResourceAccessRange.includes ResourceAccessRange.offset; simp only; omega)
    (by
      simp only
      rw [Update_write _ W1 _ tag1 hw1, DetectHazard_write_after_unguarded_write W1 W2 tag1 hw2]
      rfl)
  unfold AccessContext.DetectHazard AccessContext.UpdateAccessState
  simp only
  cases hdr : DetectHazardRange (fun s => s.DetectHazard W2) (r2.offset buffer.base_address)
      (infill_update_range (fun s => s.Update W1 SyncOrdering.kOrderingNone tag1)
        (some (ResourceAccessState.empty.Update W1 SyncOrdering.kOrderingNone tag1))
        (r1.offset buffer.base_address).begin_ (r1.offset buffer.base_address).end_
        ctx.access_state_map_) with
  | none => rw [hdr] at hd; cases hd
  | some hz => rfl

/-- Witness of C1: a write to `[0, 64)` followed by a write to `[32, 96)` of the same buffer. -/
theorem C1_unsynchronized_write_write_reports_hazard_witness :
    RangeMapOrdered 0 AccessContext.new.access_state_map_ ∧
    (⟨4, 8, true⟩ : SyncStageAccessInfoType).is_write = true ∧
    (⟨0, 64⟩ : ResourceAccessRange).non_empty ∧ (⟨32, 96⟩ : ResourceAccessRange).non_empty ∧
    (⟨0, 64⟩ : ResourceAccessRange).intersects ⟨32, 96⟩ ∧
    ((AccessContext.new.UpdateAccessState ⟨4096⟩ ⟨4, 8, true⟩ SyncOrdering.kOrderingNone ⟨0, 64⟩
      5).DetectHazard ⟨4096⟩ ⟨4, 8, true⟩ ⟨32, 96⟩).isSome = true :=
  ⟨by decide, rfl, by decide, by decide, by decide,
    C1_unsynchronized_write_write_reports_hazard AccessContext.new ⟨4096⟩ ⟨4, 8, true⟩
      ⟨4, 8, true⟩ ⟨0, 64⟩ ⟨32, 96⟩ 5 (by decide) rfl rfl (by decide) (by decide) (by decide)⟩

/-- C2: a write W1 is recorded into an access context, then a pipeline barrier is recorded whose
single barrier has a source scope that covers the stage and access of W1 and a destination scope
that covers the stage and access of W2, and which applies to the range of W1 (a global memory
barrier, or a buffer memory barrier of the same buffer over a range that includes W1's). Then
`DetectHazard` for a later write W2 reports no hazard. The access context is the command
buffer's own (no asynchronous contexts), and the bytes of W2's range outside W1's hold no earlier
access. -/
theorem C2_barrier_suppresses_write_write_hazard (ctx : AccessContext) (buffer : BUFFER_STATE)
    (W1 W2 : SyncStageAccessInfoType) (r1 r2 : ResourceAccessRange) (tag1 : ResourceUsageTag)
    (barrier : SyncBarrier) (barrier_set : BarrierSet)
    (hctx : RangeMapOrdered 0 ctx.access_state_map_) (hasync : ctx.async_ = [])
    (hw1 : W1.is_write = true) (hw2 : W2.is_write = true) (hr1 : r1.non_empty)
    (hr2 : r2.non_empty)
    (hsrc : W1.stage_mask &&& barrier.src_exec_scope ≠ 0 ∧
      W1.stage_access_bit &&& barrier.src_access_scope ≠ 0)
    (hdst : W2.stage_mask &&& barrier.dst_exec_scope ≠ 0 ∧
      W2.stage_access_bit &&& barrier.dst_access_scope ≠ 0)
    (hset : (barrier_set.memory_barriers = [barrier] ∧ barrier_set.buffer_memory_barriers = []) ∨
      (barrier_set.memory_barriers = [] ∧
        ∃ rb : ResourceAccessRange,
          barrier_set.buffer_memory_barriers = [⟨buffer, barrier, rb⟩] ∧
            rb.begin_ ≤ r1.begin_ ∧ r1.end_ ≤ rb.end_))
    (hrest : ∀ x, (r2.offset buffer.base_address).includes x →
      ¬ (r1.offset buffer.base_address).includes x →
        find_entry ctx.access_state_map_ x = none) :
    (barrier_set.Record
      (ctx.UpdateAccessState buffer W1 SyncOrdering.kOrderingNone r1 tag1)).DetectHazard
        buffer W2 r2 = none := by
  unfold ResourceAccessRange.non_empty at hr1
  -- the range map after the write
  have hupd : ∀ s : ResourceAccessState,
      s.Update W1 SyncOrdering.kOrderingNone tag1 =
        ResourceAccessState.empty.Update W1 SyncOrdering.kOrderingNone tag1 := by
    intro s
    rw [Update_write s W1 _ tag1 hw1, Update_write _ W1 _ tag1 hw1]
  have hm1 : RangeMapOrdered (min 0 (r1.offset buffer.base_address).begin_)
      (ctx.UpdateAccessState buffer W1 SyncOrdering.kOrderingNone r1 tag1).access_state_map_ :=
    infill_update_range_ordered
      (fun s => s.Update W1 SyncOrdering.kOrderingNone tag1)
      (some (ResourceAccessState.empty.Update W1 SyncOrdering.kOrderingNone tag1)) hctx
      (r1.offset buffer.base_address).begin_ (r1.offset buffer.base_address).end_
  have hr2' : (r2.offset buffer.base_address).non_empty := by
    unfold ResourceAccessRange.non_empty ResourceAccessRange.offset at *
    simp only; omega
  have hin : ∀ x, (r1.offset buffer.base_address).includes x →
      ∃ r : ResourceAccessRange,
        find_entry (ctx.UpdateAccessState buffer W1 SyncOrdering.kOrderingNone r1
          tag1).access_state_map_ x =
          some ⟨r, ResourceAccessState.empty.Update W1 SyncOrdering.kOrderingNone tag1⟩ := by
    intro x hx
    unfold ResourceAccessRange.includes at hx
    obtain ⟨r, hr⟩ := find_entry_after_write
      (fun s => s.Update W1 SyncOrdering.kOrderingNone tag1)
      (ResourceAccessState.empty.Update W1 SyncOrdering.kOrderingNone tag1) hupd hctx
      (r1.offset buffer.base_address).begin_ (r1.offset buffer.base_address).end_ x hx.1 hx.2
    exact ⟨r, hr⟩
  have hout : ∀ x, (r2.offset buffer.base_address).includes x →
      ¬ (r1.offset buffer.base_address).includes x →
        find_entry (ctx.UpdateAccessState buffer W1 SyncOrdering.kOrderingNone r1
          tag1).access_state_map_ x = none := by
    intro x hx2 hx1
    refine find_entry_infill_update_range_none _ _ hctx ?_ (hrest x hx2 hx1) ?_
    · unfold ResourceAccessRange.offset; simp only; omega
    · unfold ResourceAccessRange.includes at hx1
      right; omega
  -- the own range map holds no hazard
  have hown : DetectHazardRange (fun s => s.DetectHazard W2) (r2.offset buffer.base_address)
      (barrier_set.Record
        (ctx.UpdateAccessState buffer W1 SyncOrdering.kOrderingNone r1
          tag1)).access_state_map_ = none := by
    rcases hset with ⟨hg, hb⟩ | ⟨hg, rb, hb, hrb1, hrb2⟩
    · -- a global memory barrier
      have hmap : (barrier_set.Record
          (ctx.UpdateAccessState buffer W1 SyncOrdering.kOrderingNone r1
            tag1)).access_state_map_ =
          (ctx.UpdateAccessState buffer W1 SyncOrdering.kOrderingNone r1
            tag1).access_state_map_.map
            (fun e => { e with state := e.state.ApplyBarrier barrier }) := by
        unfold BarrierSet.Record ApplyGlobalBarriers ApplyBarriers
        rw [hg, hb]
        rfl
      rw [hmap]
      refine DetectHazardRange_eq_none _ _
        (hm1.map_state (fun s => s.ApplyBarrier barrier)) hr2' ?_
      intro x e hx he
      rw [find_entry_map_state (fun s => s.ApplyBarrier barrier)] at he
      by_cases hx1 : (r1.offset buffer.base_address).includes x
      · obtain ⟨r, hr⟩ := hin x hx1
        rw [hr] at he
        simp only [Option.map_some', Option.some.injEq] at he
        rw [← he]
        simp only
        rw [Update_write _ W1 _ tag1 hw1]
        exact DetectHazard_write_after_guarded_write W1 W2 tag1 barrier hw2 hsrc hdst
      · rw [hout x hx hx1] at he
        cases he
    · -- a buffer memory barrier over a range that includes the range of the write
      have hmap : (barrier_set.Record
          (ctx.UpdateAccessState buffer W1 SyncOrdering.kOrderingNone r1
            tag1)).access_state_map_ =
          infill_update_range (fun s => s.ApplyBarrier barrier) none
            (rb.offset buffer.base_address).begin_ (rb.offset buffer.base_address).end_
            (ctx.UpdateAccessState buffer W1 SyncOrdering.kOrderingNone r1
              tag1).access_state_map_ := by
        unfold BarrierSet.Record ApplyGlobalBarriers ApplyBarriers
        rw [hg, hb]
        rfl
      rw [hmap]
      have hlt : (rb.offset buffer.base_address).begin_ <
          (rb.offset buffer.base_address).end_ := by
        unfold ResourceAccessRange.offset; simp only; omega
      refine DetectHazardRange_eq_none _ _
        (infill_update_range_ordered _ _ hm1 _ _) hr2' ?_
      intro x e hx he
      by_cases hx1 : (r1.offset buffer.base_address).includes x
      · obtain ⟨r, hr⟩ := hin x hx1
        rw [find_entry_infill_update_range_some _ _ hm1 hlt hr] at he
        have hxb : (rb.offset buffer.base_address).begin_ ≤ x ∧
            x < (rb.offset buffer.base_address).end_ := by
          unfold ResourceAccessRange.includes ResourceAccessRange.offset at hx1
          unfold ResourceAccessRange.offset
          simp only at hx1 ⊢
          omega
        unfold clip_entry at he
        simp only [hxb, and_self, if_true, Option.some.injEq] at he
        rw [← he]
        simp only
        rw [Update_write _ W1 _ tag1 hw1]
        exact DetectHazard_write_after_guarded_write W1 W2 tag1 barrier hw2 hsrc hdst
      · rw [find_entry_infill_update_range_none _ _ hm1 hlt (hout x hx hx1) (Or.inl rfl)] at he
        cases he
  have hasync2 : (barrier_set.Record
      (ctx.UpdateAccessState buffer W1 SyncOrdering.kOrderingNone r1 tag1)).async_ = [] := by
    unfold BarrierSet.Record ApplyGlobalBarriers ApplyBarriers AccessContext.UpdateAccessState
    exact hasync
  unfold AccessContext.DetectHazard
  rw [hown, hasync2]
  rfl

/-- Witness of C2: a write to `[0, 64)`, a buffer memory barrier over `[0, 64)` from the scope of
the write to itself, then a write to `[32, 96)`. -/
theorem C2_barrier_suppresses_write_write_hazard_witness :
    RangeMapOrdered 0 AccessContext.new.access_state_map_ ∧
    AccessContext.new.async_ = [] ∧
    (⟨4, 8, true⟩ : SyncStageAccessInfoType).is_write = true ∧
    (⟨0, 64⟩ : ResourceAccessRange).non_empty ∧ (⟨32, 96⟩ : ResourceAccessRange).non_empty ∧
    (4 &&& (⟨4, 8, 4, 8⟩ : SyncBarrier).src_exec_scope ≠ 0 ∧
      8 &&& (⟨4, 8, 4, 8⟩ : SyncBarrier).src_access_scope ≠ 0) ∧
    (4 &&& (⟨4, 8, 4, 8⟩ : SyncBarrier).dst_exec_scope ≠ 0 ∧
      8 &&& (⟨4, 8, 4, 8⟩ : SyncBarrier).dst_access_scope ≠ 0) ∧
    (BarrierSet.Record ⟨0, [], [⟨⟨4096⟩, ⟨4, 8, 4, 8⟩, ⟨0, 64⟩⟩], true⟩
      (AccessContext.new.UpdateAccessState ⟨4096⟩ ⟨4, 8, true⟩ SyncOrdering.kOrderingNone
        ⟨0, 64⟩ 5)).DetectHazard ⟨4096⟩ ⟨4, 8, true⟩ ⟨32, 96⟩ = none :=
  ⟨by decide, rfl, rfl, by decide, by decide, by decide, by decide,
    C2_barrier_suppresses_write_write_hazard AccessContext.new ⟨4096⟩ ⟨4, 8, true⟩ ⟨4, 8, true⟩
      ⟨0, 64⟩ ⟨32, 96⟩ 5 ⟨4, 8, 4, 8⟩ ⟨0, [], [⟨⟨4096⟩, ⟨4, 8, 4, 8⟩, ⟨0, 64⟩⟩], true⟩
      (by decide) rfl rfl rfl (by decide) (by decide) (by decide) (by decide)
      (Or.inr ⟨rfl, ⟨0, 64⟩, rfl, by decide, by decide⟩) (fun _ _ _ => rfl)⟩

/-- C3: an access context (of a command buffer, with a well formed range map) records a write of
bufferA over `[0, 64)` under tag 5; a read of bufferA over `[32, 96)` validated next, with no
barrier in between, gets from `DetectHazard` the hazard of the read/write pair (the read comes
after the write, so it is reported as read-after-write) whose prior access is tag 5. The tag 6
of the read is assigned after its validation and is no input of `DetectHazard`. -/
theorem C3_write_then_read_reports_tag_5 (ctx : AccessContext) (bufferA : BUFFER_STATE)
    (W R : SyncStageAccessInfoType) (hctx : RangeMapOrdered 0 ctx.access_state_map_)
    (hw : W.is_write = true) (hr : R.is_write = false) :
    (ctx.UpdateAccessState bufferA W SyncOrdering.kOrderingNone ⟨0, 64⟩ 5).DetectHazard
      bufferA R ⟨32, 96⟩ = some ⟨SyncHazard.READ_AFTER_WRITE, 5⟩ := by
  have hupd : ∀ s : ResourceAccessState,
      s.Update W SyncOrdering.kOrderingNone 5 =
        ResourceAccessState.empty.Update W SyncOrdering.kOrderingNone 5 := by
    intro s
    rw [Update_write s W _ 5 hw, Update_write _ W _ 5 hw]
  obtain ⟨r, hfind⟩ := find_entry_after_write
    (fun s => s.Update W SyncOrdering.kOrderingNone 5)
    (ResourceAccessState.empty.Update W SyncOrdering.kOrderingNone 5) hupd hctx
    ((⟨0, 64⟩ : ResourceAccessRange).offset bufferA.base_address).begin_
    ((⟨0, 64⟩ : ResourceAccessRange).offset bufferA.base_address).end_
    ((⟨32, 96⟩ : ResourceAccessRange).offset bufferA.base_address).begin_
    (by unfold ResourceAccessRange.offset; simp only; omega)
    (by unfold ResourceAccessRange.offset; simp only; omega)
  have hm1 := infill_update_range_ordered
    (fun s => s.Update W SyncOrdering.kOrderingNone 5)
    (some (ResourceAccessState.empty.Update W SyncOrdering.kOrderingNone 5)) hctx
    ((⟨0, 64⟩ : ResourceAccessRange).offset bufferA.base_address).begin_
    ((⟨0, 64⟩ : ResourceAccessRange).offset bufferA.base_address).end_
  have hown := DetectHazardRange_first (fun s => s.DetectHazard R)
    ((⟨32, 96⟩ : ResourceAccessRange).offset bufferA.base_address)
    (by unfold ResourceAccessRange.non_empty ResourceAccessRange.offset; simp only; omega)
    hm1 hfind
    (show ResourceAccessState.DetectHazard
        (ResourceAccessState.empty.Update W SyncOrdering.kOrderingNone 5) R =
        some ⟨SyncHazard.READ_AFTER_WRITE, 5⟩ by
      rw [Update_write _ W _ 5 hw]
      exact DetectHazard_read_after_unguarded_write W R 5 hr)
  unfold AccessContext.DetectHazard AccessContext.UpdateAccessState
  simp only
  rw [hown]

/-- Witness of C3: the scenario in a fresh access context, for a transfer write and a shader
read. -/
theorem C3_write_then_read_reports_tag_5_witness :
    RangeMapOrdered 0 AccessContext.new.access_state_map_ ∧
    (AccessContext.new.UpdateAccessState ⟨4096⟩ ⟨4, 8, true⟩ SyncOrdering.kOrderingNone ⟨0, 64⟩
      5).DetectHazard ⟨4096⟩ ⟨2, 1, false⟩ ⟨32, 96⟩ = some ⟨SyncHazard.READ_AFTER_WRITE, 5⟩ :=
  ⟨by decide,
    C3_write_then_read_reports_tag_5 AccessContext.new ⟨4096⟩ ⟨4, 8, true⟩ ⟨2, 1, false⟩
      (by decide) rfl rfl⟩

/-- C4: for every successor context S and predecessor context P with well formed range maps
(entries disjoint and in address order, stored reads keyed by stage) and every barrier action
that keeps the reads keyed by stage, resolving P into S with `ResolveFromContext` twice yields
the same context, and so the same access-state map, as resolving it once. -/
theorem C4_ResolveFromContext_idempotent (S P : AccessContext)
    (resolve_op : ResourceAccessState → ResourceAccessState)
    (hS : RangeMapOrdered 0 S.access_state_map_) (hP : RangeMapOrdered 0 P.access_state_map_)
    (hPk : ∀ e ∈ P.access_state_map_, e.state.ReadsKeyed)
    (hop : ∀ s : ResourceAccessState, s.ReadsKeyed → (resolve_op s).ReadsKeyed) :
    (S.ResolveFromContext resolve_op P).ResolveFromContext resolve_op P =
      S.ResolveFromContext resolve_op P := by
  have hk : ∀ e ∈ P.access_state_map_, (resolve_op e.state).ReadsKeyed :=
    fun e he => hop _ (hPk e he)
  have hmap : (S.ResolveFromContext resolve_op P).access_state_map_ =
      P.access_state_map_.foldl (resolve_entry resolve_op) S.access_state_map_ := rfl
  have hfix := foldl_resolve_entry_eq_self resolve_op P.access_state_map_
    (foldl_resolve_entry_ordered resolve_op P.access_state_map_ hS)
    (foldl_resolve_entry_saturated resolve_op hP hk hS)
  show ({ S.ResolveFromContext resolve_op P with
    access_state_map_ := P.access_state_map_.foldl (resolve_entry resolve_op)
      (S.ResolveFromContext resolve_op P).access_state_map_ } : AccessContext) = _
  rw [hmap, hfix]
  rfl

/-- Witness of C4: S holds a write over `[0, 64)`; P holds that write, a later read over
`[32, 96)` and a barrier over `[0, 40)`; P is resolved into S through a barrier. -/
theorem C4_ResolveFromContext_idempotent_witness :
    RangeMapOrdered 0
      (AccessContext.new.UpdateAccessState ⟨4096⟩ ⟨4, 8, true⟩ SyncOrdering.kOrderingNone
        ⟨0, 64⟩ 5).access_state_map_ ∧
    RangeMapOrdered 0
      (BarrierSet.Record ⟨0, [], [⟨⟨4096⟩, ⟨4, 8, 4, 8⟩, ⟨0, 40⟩⟩], true⟩
        ((AccessContext.new.UpdateAccessState ⟨4096⟩ ⟨4, 8, true⟩ SyncOrdering.kOrderingNone
          ⟨0, 64⟩ 5).UpdateAccessState ⟨4096⟩ ⟨2, 1, false⟩ SyncOrdering.kOrderingNone
          ⟨32, 96⟩ 6)).access_state_map_ ∧
    (∀ e ∈ (BarrierSet.Record ⟨0, [], [⟨⟨4096⟩, ⟨4, 8, 4, 8⟩, ⟨0, 40⟩⟩], true⟩
        ((AccessContext.new.UpdateAccessState ⟨4096⟩ ⟨4, 8, true⟩ SyncOrdering.kOrderingNone
          ⟨0, 64⟩ 5).UpdateAccessState ⟨4096⟩ ⟨2, 1, false⟩ SyncOrdering.kOrderingNone
          ⟨32, 96⟩ 6)).access_state_map_, e.state.ReadsKeyed) ∧
    ((AccessContext.new.UpdateAccessState ⟨4096⟩ ⟨4, 8, true⟩ SyncOrdering.kOrderingNone
        ⟨0, 64⟩ 5).ResolveFromContext (fun s => s.ApplyBarrier ⟨2, 1, 4, 8⟩)
        (BarrierSet.Record ⟨0, [], [⟨⟨4096⟩, ⟨4, 8, 4, 8⟩, ⟨0, 40⟩⟩], true⟩
          ((AccessContext.new.UpdateAccessState ⟨4096⟩ ⟨4, 8, true⟩
            SyncOrdering.kOrderingNone ⟨0, 64⟩ 5).UpdateAccessState ⟨4096⟩ ⟨2, 1, false⟩
            SyncOrdering.kOrderingNone ⟨32, 96⟩ 6))).ResolveFromContext
        (fun s => s.ApplyBarrier ⟨2, 1, 4, 8⟩)
        (BarrierSet.Record ⟨0, [], [⟨⟨4096⟩, ⟨4, 8, 4, 8⟩, ⟨0, 40⟩⟩], true⟩
          ((AccessContext.new.UpdateAccessState ⟨4096⟩ ⟨4, 8, true⟩
            SyncOrdering.kOrderingNone ⟨0, 64⟩ 5).UpdateAccessState ⟨4096⟩ ⟨2, 1, false⟩
            SyncOrdering.kOrderingNone ⟨32, 96⟩ 6)) =
      (AccessContext.new.UpdateAccessState ⟨4096⟩ ⟨4, 8, true⟩ SyncOrdering.kOrderingNone
        ⟨0, 64⟩ 5).ResolveFromContext (fun s => s.ApplyBarrier ⟨2, 1, 4, 8⟩)
        (BarrierSet.Record ⟨0, [], [⟨⟨4096⟩, ⟨4, 8, 4, 8⟩, ⟨0, 40⟩⟩], true⟩
          ((AccessContext.new.UpdateAccessState ⟨4096⟩ ⟨4, 8, true⟩
            SyncOrdering.kOrderingNone ⟨0, 64⟩ 5).UpdateAccessState ⟨4096⟩ ⟨2, 1, false⟩
            SyncOrdering.kOrderingNone ⟨32, 96⟩ 6)) :=
  ⟨by decide, by decide, by decide,
    C4_ResolveFromContext_idempotent _ _ _ (by decide) (by decide) (by decide)
      (fun s h => ApplyBarrier_ReadsKeyed s _ h)⟩

/-- C5: for every sequence of tag requests (`NextCommandTag`, `NextSubcommandTag`, with or without
a handle, `NextIndexedCommandTag`) served in call order by one command buffer access context,
with no `Reset` in between, the returned tags are strictly increasing in call order, and every
returned tag is smaller than `GetTagLimit()` right after its call. -/
theorem C5_tags_strictly_increasing (cb : CommandBufferAccessContext)
    (reqs : List TagRequest) :
    ((cb.requests reqs).1.map Prod.fst).Pairwise (fun a b => a < b) ∧
      ∀ p ∈ (cb.requests reqs).1, p.1 < p.2 := by
  refine ⟨?_, fun p hp => (requests_bounds cb reqs p hp).2⟩
  induction reqs generalizing cb with
  | nil => exact List.Pairwise.nil
  | cons r rs ih =>
    unfold CommandBufferAccessContext.requests
    simp only [List.map_cons]
    refine List.Pairwise.cons ?_ (ih (cb.request r).2)
    intro b hb
    rw [List.mem_map] at hb
    obtain ⟨p, hp, rfl⟩ := hb
    obtain ⟨h1, h2⟩ := request_tag cb r
    have := (requests_bounds (cb.request r).2 rs p hp).1
    rw [h2] at this
    rw [h1]
    exact this

/-- C6: starting from a fresh `SyncValidator` (`tag_limit_` = 1), a sequence of tag-range
reservations with counts c_1..c_n that does not overflow the 64 bit counter returns one range per
reservation, the i-th being `[s_i, s_i + c_i)` with `s_i = 1 + c_1 + ... + c_(i-1)` (so `s_1 = 1`
and `s_(i+1) = s_i + c_i`, the ranges are contiguous); every range ends where the later ones
begin or before, so the ranges are pairwise disjoint and increasing in reservation order; and no
range contains the invalid tag 0. -/
theorem C6_reserved_tag_ranges_contiguous (counts : List Nat)
    (h : 1 + counts.sum < 2 ^ 64) :
    (SyncValidator.new.reserve_all counts).1.length = counts.length ∧
    (∀ i, i < counts.length →
      (SyncValidator.new.reserve_all counts).1.get? i =
        some ⟨1 + (counts.take i).sum, 1 + (counts.take i).sum + counts.getD i 0⟩) ∧
    (SyncValidator.new.reserve_all counts).1.Pairwise (fun a b => a.end_ ≤ b.begin_) ∧
    (∀ r ∈ (SyncValidator.new.reserve_all counts).1, 0 < r.begin_ ∧ r.begin_ ≤ r.end_) := by
  have h' : SyncValidator.new.tag_limit_ + counts.sum < 2 ^ 64 := h
  refine ⟨reserve_all_length _ _, fun i hi => reserve_all_get _ counts h' i hi,
    reserve_all_pairwise _ counts h', ?_⟩
  intro r hr
  have := reserve_all_bounds _ counts h' r hr
  exact ⟨this.1, this.2⟩

/-- Witness of C6: reservations of 3, 0 and 5 tags return `[1, 4)`, `[4, 4)` and `[4, 9)`. -/
theorem C6_reserved_tag_ranges_contiguous_witness :
    1 + [3, 0, 5].sum < 2 ^ 64 ∧
    (SyncValidator.new.reserve_all [3, 0, 5]).1 = [⟨1, 4⟩, ⟨4, 4⟩, ⟨4, 9⟩] ∧
    (SyncValidator.new.reserve_all [3, 0, 5]).1.Pairwise (fun a b => a.end_ ≤ b.begin_) :=
  ⟨by decide, by decide,
    (C6_reserved_tag_ranges_contiguous [3, 0, 5] (by decide)).2.2.1⟩

/-- C7: for every state of a `CommandBufferAccessContext`, `Reset()` leaves the access log empty
(`GetTagLimit()` is 0), the recorded SyncOp list empty, the events context empty, the render pass
context list empty with no current render pass context, the command and sub-command counters at
0, and the current access context is the access context of the command buffer itself, which is
reset as well: empty access-state map, no predecessor track-backs, no async references, no
external predecessor, a default destination track-back and start tag 0. -/
theorem C7_Reset_clears_command_buffer_context (cb : CommandBufferAccessContext) :
    cb.Reset.access_log_ = [] ∧ cb.Reset.GetTagLimit = 0 ∧
    cb.Reset.GetSyncOps = [] ∧
    cb.Reset.events_context_.map_ = [] ∧
    cb.Reset.render_pass_contexts_ = [] ∧ cb.Reset.GetCurrentRenderPassContext = none ∧
    cb.Reset.command_number_ = 0 ∧ cb.Reset.subcommand_number_ = 0 ∧
    cb.Reset.current_context_ = AccessContextPtr.cb_access_context ∧
    cb.Reset.GetCurrentAccessContext = some cb.Reset.cb_access_context_ ∧
    cb.Reset.cb_access_context_.GetAccessStateMap = [] ∧
    cb.Reset.cb_access_context_.prev_ = [] ∧
    cb.Reset.cb_access_context_.prev_by_subpass_ = [] ∧
    cb.Reset.cb_access_context_.async_ = [] ∧
    cb.Reset.cb_access_context_.src_external_ = none ∧
    cb.Reset.cb_access_context_.dst_external_ = ⟨[], none⟩ ∧
    cb.Reset.cb_access_context_.StartTag = 0 :=
  ⟨rfl, rfl, rfl, rfl, rfl, rfl, rfl, rfl, rfl, rfl, rfl, rfl, rfl, rfl, rfl, rfl, rfl⟩

/-- Counterexample to C8 as stated: a record is created in a fresh command buffer access context,
then the context is reset 2^32 times; the record created after the last reset carries the reset
count 0 of the record created before it, and is equal to it in every member. -/
theorem C8_counterexample_reset_count_wraps :
    CommandBufferAccessContext.new.created_record
        (TagRequest.NextCommandTag 7 SubcommandType.kNone) =
      some (ResourceUsageRecord.mk6 7 1 SubcommandType.kNone 0 none 0) ∧
    (((CommandBufferAccessContext.new.request
        (TagRequest.NextCommandTag 7 SubcommandType.kNone)).2.run
        (List.replicate (2 ^ 32) CommandBufferOp.Reset)).created_record
        (TagRequest.NextCommandTag 7 SubcommandType.kNone)) =
      some (ResourceUsageRecord.mk6 7 1 SubcommandType.kNone 0 none 0) := by
  refine ⟨rfl, ?_⟩
  have h : (2 : Nat) ^ 32 = (2 ^ 32 - 1) + 1 := by decide
  rw [h, run_replicate_Reset]
  rfl

/-- Witness of C8 (amended): a record is created, the context is reset, a record is created
again: the two records carry the reset counts 0 and 1. -/
theorem C8_reset_invalidates_earlier_tags_witness :
    CommandBufferAccessContext.new.reset_count_ < 2 ^ 32 ∧
    0 < CommandBufferOp.resets [CommandBufferOp.Reset] ∧
    CommandBufferOp.resets [CommandBufferOp.Reset] < 2 ^ 32 ∧
    CommandBufferAccessContext.new.created_record
        (TagRequest.NextCommandTag 7 SubcommandType.kNone) =
      some (ResourceUsageRecord.mk6 7 1 SubcommandType.kNone 0 none 0) ∧
    ((CommandBufferAccessContext.new.request
        (TagRequest.NextCommandTag 7 SubcommandType.kNone)).2.run
        [CommandBufferOp.Reset]).created_record
        (TagRequest.NextCommandTag 7 SubcommandType.kNone) =
      some (ResourceUsageRecord.mk6 7 1 SubcommandType.kNone 0 none 1) ∧
    (ResourceUsageRecord.mk6 7 1 SubcommandType.kNone 0 none 1).reset_count ≠
      (ResourceUsageRecord.mk6 7 1 SubcommandType.kNone 0 none 0).reset_count :=
  ⟨by decide, by decide, by decide, rfl, rfl,
    (C8_reset_invalidates_earlier_tags CommandBufferAccessContext.new (by decide)).2
      (TagRequest.NextCommandTag 7 SubcommandType.kNone)
      (TagRequest.NextCommandTag 7 SubcommandType.kNone) [CommandBufferOp.Reset] _ _
      (by decide) (by decide) rfl rfl⟩

/-- C9: a newly constructed `CommandBufferAccessContext` has reset count 0; `Reset()` increases
the reset count by exactly 1 modulo 2^32 and `Destroy()` leaves it unchanged; hence after any
sequence of operations with n resets the reset count of a new context is n mod 2^32, and for
every context two generations separated by at least one and fewer than 2^32 resets are never
equal. -/
theorem C9_reset_count_is_generation :
    CommandBufferAccessContext.new.reset_count_ = 0 ∧
    (∀ cb_state, (CommandBufferAccessContext.new_for cb_state).reset_count_ = 0) ∧
    (∀ cb : CommandBufferAccessContext,
      cb.Reset.reset_count_ = (cb.reset_count_ + 1) % 2 ^ 32) ∧
    (∀ cb : CommandBufferAccessContext, cb.Destroy.reset_count_ = cb.reset_count_) ∧
    (∀ ops : List CommandBufferOp,
      (CommandBufferAccessContext.new.run ops).reset_count_ =
        CommandBufferOp.resets ops % 2 ^ 32) ∧
    (∀ (cb : CommandBufferAccessContext) (ops : List CommandBufferOp),
      cb.reset_count_ < 2 ^ 32 → 0 < CommandBufferOp.resets ops →
      CommandBufferOp.resets ops < 2 ^ 32 →
      (cb.run ops).reset_count_ ≠ cb.reset_count_) := by
  refine ⟨rfl, fun _ => rfl, fun _ => rfl, fun _ => rfl, ?_, ?_⟩
  · intro ops
    rw [run_reset_count _ ops (by decide)]
    show (0 + CommandBufferOp.resets ops) % 2 ^ 32 = _
    rw [Nat.zero_add]
  · intro cb ops hc h0 h1
    exact run_reset_count_ne cb ops hc h0 h1

/-- Witness of C9: a context that was reset once, then destroyed, reset and used again. -/
theorem C9_reset_count_is_generation_witness :
    CommandBufferAccessContext.new.Reset.reset_count_ < 2 ^ 32 ∧
    0 < CommandBufferOp.resets [CommandBufferOp.Destroy, CommandBufferOp.Reset,
      CommandBufferOp.Request (TagRequest.NextCommandTag 7 SubcommandType.kNone)] ∧
    CommandBufferOp.resets [CommandBufferOp.Destroy, CommandBufferOp.Reset,
      CommandBufferOp.Request (TagRequest.NextCommandTag 7 SubcommandType.kNone)] < 2 ^ 32 ∧
    (CommandBufferAccessContext.new.Reset.run [CommandBufferOp.Destroy, CommandBufferOp.Reset,
      CommandBufferOp.Request (TagRequest.NextCommandTag 7 SubcommandType.kNone)]).reset_count_ ≠
      CommandBufferAccessContext.new.Reset.reset_count_ :=
  ⟨by decide, by decide, by decide,
    C9_reset_count_is_generation.2.2.2.2.2 CommandBufferAccessContext.new.Reset _ (by decide)
      (by decide) (by decide)⟩

/-- C10: for every `CBDynamicState` value s, `ConvertToCBDynamicState(ConvertToDynamicState(s))`
is s when s is one of the 72 states `ConvertToDynamicState` handles (`CB_DYNAMIC_STATE_VIEWPORT`
through `CB_DYNAMIC_STATE_ATTACHMENT_FEEDBACK_LOOP_ENABLE_EXT`), and is
`CB_DYNAMIC_STATE_STATUS_NUM` for every other value, which `ConvertToDynamicState` maps to
`VK_DYNAMIC_STATE_MAX_ENUM`; in particular `ConvertToDynamicState` is injective on the 72 handled
states. -/
theorem C10_dynamic_state_round_trip :
    handled_dynamic_states.length = 72 ∧
    (∀ s : CBDynamicState, s ∈ handled_dynamic_states ↔
      CB_DYNAMIC_STATE_VIEWPORT ≤ s ∧
        s ≤ CB_DYNAMIC_STATE_ATTACHMENT_FEEDBACK_LOOP_ENABLE_EXT) ∧
    (∀ s : CBDynamicState, s ∈ handled_dynamic_states →
      ConvertToCBDynamicState (ConvertToDynamicState s) = s) ∧
    (∀ s : CBDynamicState, s ∉ handled_dynamic_states →
      ConvertToDynamicState s = VkDynamicState.VK_DYNAMIC_STATE_MAX_ENUM ∧
        ConvertToCBDynamicState (ConvertToDynamicState s) = CB_DYNAMIC_STATE_STATUS_NUM) ∧
    (∀ s t : CBDynamicState, s ∈ handled_dynamic_states → t ∈ handled_dynamic_states →
      ConvertToDynamicState s = ConvertToDynamicState t → s = t) := by
  refine ⟨by decide, mem_handled_dynamic_states, ConvertToDynamicState_round_trip_handled,
    ?_, ?_⟩
  · intro s hs
    rw [ConvertToDynamicState_unhandled s hs]
    exact ⟨rfl, rfl⟩
  · intro s t hs ht h
    have h1 := ConvertToDynamicState_round_trip_handled s hs
    have h2 := ConvertToDynamicState_round_trip_handled t ht
    rw [← h1, ← h2, h]

/-- Witness of C10: the handled state `CB_DYNAMIC_STATE_CULL_MODE`, the value 0 that has no
enumerator, and the closing enumerator `CB_DYNAMIC_STATE_STATUS_NUM`. -/
theorem C10_dynamic_state_round_trip_witness :
    CB_DYNAMIC_STATE_CULL_MODE ∈ handled_dynamic_states ∧
    ConvertToCBDynamicState (ConvertToDynamicState CB_DYNAMIC_STATE_CULL_MODE) =
      CB_DYNAMIC_STATE_CULL_MODE ∧
    (0 : CBDynamicState) ∉ handled_dynamic_states ∧
    ConvertToCBDynamicState (ConvertToDynamicState 0) = CB_DYNAMIC_STATE_STATUS_NUM ∧
    CB_DYNAMIC_STATE_STATUS_NUM ∉ handled_dynamic_states ∧
    ConvertToDynamicState CB_DYNAMIC_STATE_STATUS_NUM =
      VkDynamicState.VK_DYNAMIC_STATE_MAX_ENUM :=
  ⟨by decide,
    C10_dynamic_state_round_trip.2.2.1 CB_DYNAMIC_STATE_CULL_MODE (by decide),
    by decide,
    (C10_dynamic_state_round_trip.2.2.2.1 0 (by decide)).2,
    by decide,
    (C10_dynamic_state_round_trip.2.2.2.1 CB_DYNAMIC_STATE_STATUS_NUM (by decide)).1⟩

/-- C11: for every set of flags whose set states have non-empty names, `DynamicStatesToString`
gives the names of the states that are set, among the indices from 1 up to and not including
`CB_DYNAMIC_STATE_STATUS_NUM`, in increasing order of the index and joined by `|` (the
intercalation puts one separator between neighbours and none before or after), and the name of
`VK_DYNAMIC_STATE_MAX_ENUM` when none of these states is set; the bit 0 is not among the
indices. -/
theorem C11_DynamicStatesToString_joins_names
    (string_VkDynamicState : VkDynamicState → String) (dynamic_states : CBDynamicFlags)
    (hnames : ∀ i : Nat, 1 ≤ i → i < CB_DYNAMIC_STATE_STATUS_NUM → dynamic_states i = true →
      string_VkDynamicState (ConvertToDynamicState i) ≠ "") :
    DynamicStatesToString string_VkDynamicState dynamic_states =
      (if (List.range' 1 72).filter (fun i => dynamic_states i) = [] then
        string_VkDynamicState VkDynamicState.VK_DYNAMIC_STATE_MAX_ENUM
      else
        "|".intercalate
          (((List.range' 1 72).filter (fun i => dynamic_states i)).map
            (fun i => DynamicStateToString string_VkDynamicState i))) ∧
    (∀ i : Nat, i ∈ (List.range' 1 72).filter (fun i => dynamic_states i) ↔
      (1 ≤ i ∧ i < CB_DYNAMIC_STATE_STATUS_NUM ∧ dynamic_states i = true)) ∧
    ((List.range' 1 72).filter (fun i => dynamic_states i)).Pairwise (fun i j => i < j) := by
  have hmem : ∀ i : Nat, i ∈ List.range' 1 72 ↔ (1 ≤ i ∧ i < 73) := by
    intro i
    rw [List.mem_range'_1]
  have hnames2 : ∀ i ∈ List.range' 1 72, dynamic_states i = true →
      string_VkDynamicState (ConvertToDynamicState i) ≠ "" := by
    intro i hi hF
    exact hnames i ((hmem i).mp hi).1 ((hmem i).mp hi).2 hF
  refine ⟨?_, ?_, ?_⟩
  · have hfold := DynamicStatesToString_foldl_empty string_VkDynamicState dynamic_states
      (List.range' 1 72) hnames2
    have hdef : DynamicStatesToString string_VkDynamicState dynamic_states =
        (if ((List.range' 1 72).foldl
              (DynamicStatesToString.step string_VkDynamicState dynamic_states) "").isEmpty then
          (List.range' 1 72).foldl
              (DynamicStatesToString.step string_VkDynamicState dynamic_states) "" ++
            string_VkDynamicState VkDynamicState.VK_DYNAMIC_STATE_MAX_ENUM
        else (List.range' 1 72).foldl
              (DynamicStatesToString.step string_VkDynamicState dynamic_states) "") := rfl
    rw [hdef, hfold]
    by_cases hnil : (List.range' 1 72).filter (fun i => dynamic_states i) = []
    · rw [if_pos hnil, hnil]
      rfl
    · rw [if_neg hnil]
      have hne : "|".intercalate
          (((List.range' 1 72).filter (fun i => dynamic_states i)).map
            (fun i => string_VkDynamicState (ConvertToDynamicState i))) ≠ "" := by
        apply intercalate_ne_empty
        · intro e
          exact hnil (List.map_eq_nil_iff.mp e)
        · intro a ha
          obtain ⟨i, hi, rfl⟩ := List.mem_map.mp ha
          have hi2 := List.mem_filter.mp hi
          exact hnames2 i hi2.1 (by simpa using hi2.2)
      rw [String_isEmpty_eq_false _ hne]
      rfl
  · intro i
    rw [List.mem_filter, hmem]
    constructor
    · rintro ⟨⟨h1, h2⟩, h3⟩
      exact ⟨h1, h2, by simpa using h3⟩
    · rintro ⟨h1, h2, h3⟩
      exact ⟨⟨h1, h2⟩, by simpa using h3⟩
  · apply List.Pairwise.sublist (List.filter_sublist _)
    exact List.pairwise_lt_range' 1 72

/-- Witness of C11: with the sample table of names, the set of the bit 0, the viewport (1)
and the line width (3) gives the two names joined by one `|`, and the set of the bit 0 alone
gives the name of `VK_DYNAMIC_STATE_MAX_ENUM`. -/
theorem C11_DynamicStatesToString_joins_names_witness :
    DynamicStatesToString sample_string_VkDynamicState (fun i => i == 0 || i == 1 || i == 3) =
      "VK_DYNAMIC_STATE_VIEWPORT|VK_DYNAMIC_STATE_LINE_WIDTH" ∧
    DynamicStatesToString sample_string_VkDynamicState (fun i => i == 0) =
      "Unhandled VkDynamicState" :=
  ⟨(C11_DynamicStatesToString_joins_names sample_string_VkDynamicState
      (fun i => i == 0 || i == 1 || i == 3)
      (fun i _ _ _ => by
        cases ConvertToDynamicState i <;> decide)).1.trans (by decide),
   (C11_DynamicStatesToString_joins_names sample_string_VkDynamicState
      (fun i => i == 0)
      (fun i _ _ _ => by
        cases ConvertToDynamicState i <;> decide)).1.trans (by decide)⟩

/-- C12: `IsValid` holds exactly when the view is not null, the aspects to clear are not zero and
the layer count of the subresource range is not zero; the default info is not valid; and an info
constructed from a clear for which the aspects to clear come out as zero, or for which the
restricted subresource range has no layers, is not valid, whatever the two helpers are. -/
theorem C12_ClearAttachmentInfo_IsValid {ImageViewState : Type} :
    (∀ info : ClearAttachmentInfo ImageViewState,
        info.IsValid = true ↔
          (info.view ≠ none ∧ info.aspects_to_clear ≠ 0 ∧
            info.subresource_range.layerCount ≠ 0)) ∧
    (ClearAttachmentInfo.default ImageViewState).IsValid = false ∧
    (∀ (GetAspectsToClear : Nat → ImageViewState → Nat)
        (RestrictSubresourceRange : VkClearRect → ImageViewState → VkImageSubresourceRange)
        (clear_aspect_mask : Nat) (rect : VkClearRect) (view_ : ImageViewState)
        (attachment_index_ subpass_ : Nat),
        (GetAspectsToClear clear_aspect_mask view_ = 0 ∨
          (RestrictSubresourceRange rect view_).layerCount = 0) →
        (ClearAttachmentInfo.new GetAspectsToClear RestrictSubresourceRange clear_aspect_mask
          rect view_ attachment_index_ subpass_).IsValid = false) := by
  refine ⟨?_, rfl, ?_⟩
  · intro info
    unfold ClearAttachmentInfo.IsValid
    cases hv : info.view <;> simp
  · intro g r m rect v a s h
    unfold ClearAttachmentInfo.IsValid ClearAttachmentInfo.new
    rcases h with h | h <;> simp [h]

/-- Witness of C12: for a view of the depth aspect (mask 2), helpers that intersect the aspect
masks and pass the layers of the rectangle on, a clear of the colour aspect (mask 1) gives an
info that is not valid, and so does a clear of the depth aspect over no layers, while a clear of
the depth aspect over one layer gives a valid info. -/
theorem C12_ClearAttachmentInfo_IsValid_witness :
    (ClearAttachmentInfo.new (fun m (v : Nat) => m &&& v)
        (fun rect (v : Nat) => ⟨v, 0, 1, rect.baseArrayLayer, rect.layerCount⟩)
        1 ⟨0, 0, 4, 4, 0, 1⟩ 2 VK_ATTACHMENT_UNUSED 0).IsValid = false ∧
    (ClearAttachmentInfo.new (fun m (v : Nat) => m &&& v)
        (fun rect (v : Nat) => ⟨v, 0, 1, rect.baseArrayLayer, rect.layerCount⟩)
        2 ⟨0, 0, 4, 4, 0, 0⟩ 2 VK_ATTACHMENT_UNUSED 0).IsValid = false ∧
    (ClearAttachmentInfo.new (fun m (v : Nat) => m &&& v)
        (fun rect (v : Nat) => ⟨v, 0, 1, rect.baseArrayLayer, rect.layerCount⟩)
        2 ⟨0, 0, 4, 4, 0, 1⟩ 2 VK_ATTACHMENT_UNUSED 0).IsValid = true :=
  ⟨C12_ClearAttachmentInfo_IsValid.2.2 (fun m (v : Nat) => m &&& v)
      (fun rect (v : Nat) => ⟨v, 0, 1, rect.baseArrayLayer, rect.layerCount⟩)
      1 ⟨0, 0, 4, 4, 0, 1⟩ 2 VK_ATTACHMENT_UNUSED 0 (Or.inl (by decide)),
   C12_ClearAttachmentInfo_IsValid.2.2 (fun m (v : Nat) => m &&& v)
      (fun rect (v : Nat) => ⟨v, 0, 1, rect.baseArrayLayer, rect.layerCount⟩)
      2 ⟨0, 0, 4, 4, 0, 0⟩ 2 VK_ATTACHMENT_UNUSED 0 (Or.inr rfl),
   by decide⟩

/-- C13: evaluation at two address ranges with a limit of one address: the buffer that
`CreateDevice` sizes holds 7 words, `UpdateBDABuffer` stores to the word indices
0 to 6 (the `memset`), 0, 1, 5, 2, 6, 3 and 7 in this order, and the last index, 7, is not
smaller than `2 * 1 + 5`. -/
theorem C13_UpdateBDABuffer_writes_past_end :
    ((GpuAssisted.mk 0 0 0 true 0 1).CreateDevice true 1 13).app_bda_max_addresses = 1 ∧
    ((GpuAssisted.mk 0 0 0 true 0 1).CreateDevice true 1 13).app_bda_buffer_size =
      (2 * 1 + 5) * 8 ∧
    (((GpuAssisted.mk 0 0 0 true 0 1).CreateDevice true 1 13).UpdateBDABuffer
        [⟨4096, 4352⟩, ⟨8192, 8256⟩] ⟨fun _ => 99, []⟩).2.written =
      [0, 1, 2, 3, 4, 5, 6, 0, 1, 5, 2, 6, 3, 7] ∧
    ¬ (7 < 2 * 1 + 5) := by
  decide

/-- C14: for `N` address ranges with `1 ≤ N ≤ app_bda_max_addresses` (and `N` small enough for
the 32 bit address index), each with `begin ≤ end < 2^64`, after an `UpdateBDABuffer` that is
due (the versions differ) on a buffer of the size that `CreateDevice` sets, word 0 is `N + 3`,
word 1 is 0, word `2 + i` is the begin of range `i`, word `N + 2` is all ones, word `N + 3` is
0, word `N + 4 + i` is the length `end - begin` of range `i`, word `2N + 4` is 0 and every other
word of the buffer is 0. -/
theorem C14_UpdateBDABuffer_layout (self : GpuAssisted)
    (address_ranges : List BufferAddressRange) (bda_data : BdaData)
    (hversion : self.gpuav_bda_buffer_version ≠ self.buffer_device_address_ranges_version)
    (hN : 1 ≤ address_ranges.length)
    (hM : address_ranges.length ≤ self.app_bda_max_addresses)
    (h32 : address_ranges.length + 2 < 2 ^ 32)
    (hsize : self.app_bda_buffer_size =
      (1 + (self.app_bda_max_addresses + 2) + (self.app_bda_max_addresses + 2)) * 8)
    (hranges : ∀ r ∈ address_ranges, r.begin_ ≤ r.end_ ∧ r.end_ < 2 ^ 64) :
    (self.UpdateBDABuffer address_ranges bda_data).2.words 0 = address_ranges.length + 3 ∧
    (self.UpdateBDABuffer address_ranges bda_data).2.words 1 = 0 ∧
    (∀ (i : Nat) (r : BufferAddressRange), address_ranges[i]? = some r →
      (self.UpdateBDABuffer address_ranges bda_data).2.words (2 + i) = r.begin_) ∧
    (self.UpdateBDABuffer address_ranges bda_data).2.words (address_ranges.length + 2) =
      2 ^ 64 - 1 ∧
    (self.UpdateBDABuffer address_ranges bda_data).2.words (address_ranges.length + 3) = 0 ∧
    (∀ (i : Nat) (r : BufferAddressRange), address_ranges[i]? = some r →
      (self.UpdateBDABuffer address_ranges bda_data).2.words (address_ranges.length + 4 + i) =
        r.end_ - r.begin_) ∧
    (self.UpdateBDABuffer address_ranges bda_data).2.words (2 * address_ranges.length + 4) =
      0 ∧
    (∀ j : Nat, 2 * address_ranges.length + 4 < j →
      j < 2 * self.app_bda_max_addresses + 5 →
      (self.UpdateBDABuffer address_ranges bda_data).2.words j = 0) := by
  have hw := UpdateBDABuffer_words self address_ranges bda_data hversion hN hM h32
  have hcap : self.app_bda_buffer_size / 8 = 2 * self.app_bda_max_addresses + 5 := by
    rw [hsize]; omega
  refine ⟨?_, ?_, ?_, ?_, ?_, ?_, ?_, ?_⟩
  · rw [hw]
    repeat rw [if_neg (by omega)]
    exact if_pos rfl
  · rw [hw]
    repeat rw [if_neg (by omega)]
    exact if_pos rfl
  · intro i r hi
    have hlt : i < address_ranges.length := (List.getElem?_eq_some_iff.mp hi).1
    rw [hw, if_neg (by omega), if_neg (by omega), if_pos (by omega)]
    have e : 2 + i - 2 = i := by omega
    rw [e, List.getD_eq_getElem?_getD, hi]
    rfl
  · rw [hw, if_neg (by omega), if_pos rfl]
  · rw [hw]
    repeat rw [if_neg (by omega)]
    exact if_pos rfl
  · intro i r hi
    have hlt : i < address_ranges.length := (List.getElem?_eq_some_iff.mp hi).1
    have hmem : r ∈ address_ranges := List.getElem?_mem hi
    obtain ⟨hr1, hr2⟩ := hranges r hmem
    rw [hw]
    repeat rw [if_neg (by omega)]
    rw [if_pos (by omega)]
    have e : address_ranges.length + 4 + i - (address_ranges.length + 4) = i := by omega
    rw [e, List.getD_eq_getElem?_getD, hi]
    simp only [Option.getD_some]
    have e2 : r.end_ + 2 ^ 64 - r.begin_ = (r.end_ - r.begin_) + 2 ^ 64 := by omega
    rw [e2, Nat.add_mod_right]
    exact Nat.mod_eq_of_lt (by omega)
  · rw [hw, if_pos rfl]
  · intro j h1 h2
    rw [hw]
    repeat rw [if_neg (by omega)]
    exact if_pos (by omega)

/-- Witness of C14: the documented example of two buffers, with a limit of two addresses, on
a buffer that holds other values before: the sizes start at word 5, the terminators are the
words 4 and 8. -/
theorem C14_UpdateBDABuffer_layout_witness :
    (((GpuAssisted.mk 0 0 0 true 0 1).CreateDevice true 2 13).UpdateBDABuffer
        [⟨4096, 4352⟩, ⟨8192, 8256⟩] ⟨fun _ => 99, []⟩).2.words 0 = 5 ∧
    (((GpuAssisted.mk 0 0 0 true 0 1).CreateDevice true 2 13).UpdateBDABuffer
        [⟨4096, 4352⟩, ⟨8192, 8256⟩] ⟨fun _ => 99, []⟩).2.words 1 = 0 ∧
    (((GpuAssisted.mk 0 0 0 true 0 1).CreateDevice true 2 13).UpdateBDABuffer
        [⟨4096, 4352⟩, ⟨8192, 8256⟩] ⟨fun _ => 99, []⟩).2.words 2 = 4096 ∧
    (((GpuAssisted.mk 0 0 0 true 0 1).CreateDevice true 2 13).UpdateBDABuffer
        [⟨4096, 4352⟩, ⟨8192, 8256⟩] ⟨fun _ => 99, []⟩).2.words 3 = 8192 ∧
    (((GpuAssisted.mk 0 0 0 true 0 1).CreateDevice true 2 13).UpdateBDABuffer
        [⟨4096, 4352⟩, ⟨8192, 8256⟩] ⟨fun _ => 99, []⟩).2.words 4 = 2 ^ 64 - 1 ∧
    (((GpuAssisted.mk 0 0 0 true 0 1).CreateDevice true 2 13).UpdateBDABuffer
        [⟨4096, 4352⟩, ⟨8192, 8256⟩] ⟨fun _ => 99, []⟩).2.words 5 = 0 ∧
    (((GpuAssisted.mk 0 0 0 true 0 1).CreateDevice true 2 13).UpdateBDABuffer
        [⟨4096, 4352⟩, ⟨8192, 8256⟩] ⟨fun _ => 99, []⟩).2.words 6 = 256 ∧
    (((GpuAssisted.mk 0 0 0 true 0 1).CreateDevice true 2 13).UpdateBDABuffer
        [⟨4096, 4352⟩, ⟨8192, 8256⟩] ⟨fun _ => 99, []⟩).2.words 7 = 64 ∧
    (((GpuAssisted.mk 0 0 0 true 0 1).CreateDevice true 2 13).UpdateBDABuffer
        [⟨4096, 4352⟩, ⟨8192, 8256⟩] ⟨fun _ => 99, []⟩).2.words 8 = 0 :=
  have w := C14_UpdateBDABuffer_layout ((GpuAssisted.mk 0 0 0 true 0 1).CreateDevice true 2 13)
    [⟨4096, 4352⟩, ⟨8192, 8256⟩] ⟨fun _ => 99, []⟩
    (by decide) (by decide) (by decide) (by decide) (by decide) (by decide)
  ⟨w.1, w.2.1, w.2.2.1 0 ⟨4096, 4352⟩ rfl, w.2.2.1 1 ⟨8192, 8256⟩ rfl, w.2.2.2.1,
   w.2.2.2.2.1, w.2.2.2.2.2.1 0 ⟨4096, 4352⟩ rfl, w.2.2.2.2.2.1 1 ⟨8192, 8256⟩ rfl,
   w.2.2.2.2.2.2.1⟩

/-- C15: evaluation at a size word one above `kInstMaxOutCnt`, for the buffer size that
`CreateDevice` sets with `kInstMaxOutCnt` 13: the buffer holds 15 words, the number of words to
clear is 14, more than the 13 record words the buffer holds, and the clearing stores to the word
at index 15, the first one after the buffer. -/
theorem C15_words_to_clear_exceeds_record_words :
    ((GpuAssisted.mk 0 0 0 true 0 0).CreateDevice false 0 13).output_buffer_size = 4 * 15 ∧
    ((GpuAssisted.mk 0 0 0 true 0 0).CreateDevice false 0 13).words_to_clear 14 = 14 ∧
    ((GpuAssisted.mk 0 0 0 true 0 0).CreateDevice false 0 13).AnalyzeAndGenerateMessages false
        (fun _ => ⟨false, false, "error", "VUID"⟩) (fun _ => "")
        (fun j : Nat => if j = 1 then 14 else 9) = Except.error 15 :=
  ⟨by decide, by decide, rfl⟩

/-- C17: when the size word of the debug output buffer is 0, `AnalyzeAndGenerateMessages` logs
no message and leaves the buffer as it is. -/
theorem C17_zero_size_word_logs_nothing (self : GpuAssisted) (uses_robustness : Bool)
    (GenerateValidationMessage : (Nat → Nat) → GeneratedMessage)
    (UtilGenerateMessages : (Nat → Nat) → String)
    (debug_output_buffer : Nat → Nat)
    (h : debug_output_buffer kDebugOutputSizeOffset = 0) :
    self.AnalyzeAndGenerateMessages uses_robustness GenerateValidationMessage
        UtilGenerateMessages debug_output_buffer = Except.ok ([], debug_output_buffer) := by
  unfold GpuAssisted.AnalyzeAndGenerateMessages
  simp only
  rw [if_pos h.symm]

/-- Witness of C17: a buffer with the flags word set, the size word 0 and a stale word in the
record, examined by a validator that would log an error for any record. -/
theorem C17_zero_size_word_logs_nothing_witness :
    (fun j : Nat => if j = 0 then 1 else if j = 3 then 7 else 0) kDebugOutputSizeOffset = 0 ∧
    (GpuAssisted.mk 4 104 60 true 0 1).AnalyzeAndGenerateMessages false
        (fun _ => ⟨false, false, "error", "VUID"⟩) (fun _ => "")
        (fun j : Nat => if j = 0 then 1 else if j = 3 then 7 else 0) =
      Except.ok ([], fun j : Nat => if j = 0 then 1 else if j = 3 then 7 else 0) :=
  ⟨rfl, C17_zero_size_word_logs_nothing (GpuAssisted.mk 4 104 60 true 0 1) false
    (fun _ => ⟨false, false, "error", "VUID"⟩) (fun _ => "")
    (fun j : Nat => if j = 0 then 1 else if j = 3 then 7 else 0) rfl⟩

/-- Counterexample to C18 as stated: for `vkCmdDrawIndirectCount` with the offset
`2^64 - 16`, stride 16 and a buffer of 64 bytes, `S + o` exceeds `B` but the 64 bit sum wraps to
0 and the pushed `max_count` is 5, not 0, and `n = 1` is within `max_count` although
`t * (n - 1) + o + S` exceeds `B`; and with offset 0, stride 1 and a buffer of `2^32 + 15`
bytes the pushed `max_count` is 0, not `1 + (B - S - o) / t = 2^32`. -/
theorem C18_counterexample_max_count_wraps :
    struct_size Func.vkCmdDrawIndirectCount + (2 ^ 64 - 16) > 64 ∧
    max_count Func.vkCmdDrawIndirectCount 0 (2 ^ 64 - 16) 16 64 = some 5 ∧
    ¬ (16 * (1 - 1) + (2 ^ 64 - 16) + struct_size Func.vkCmdDrawIndirectCount ≤ 64 ↔ 1 ≤ 5) ∧
    struct_size Func.vkCmdDrawIndirectCount + 0 ≤ 2 ^ 32 + 15 ∧
    max_count Func.vkCmdDrawIndirectCount 0 0 1 (2 ^ 32 + 15) = some 0 ∧
    1 + (2 ^ 32 + 15 - struct_size Func.vkCmdDrawIndirectCount - 0) / 1 = 2 ^ 32 := by
  decide

/-- C18: the struct size is 16 for `vkCmdDrawIndirectCount[KHR]` and 20 for
`vkCmdDrawIndexedIndirectCount[KHR]`; for an indirect count draw whose count buffer offset fits
in 32 bits, with buffer size `B`, offset `o`, stride `t > 0` and struct size `S`, provided
`S + o` does not overflow 64 bits and `1 + (B - S - o) / t` fits in 32 bits, the `max_count`
pushed is 0 when `S + o > B` and `1 + (B - S - o) / t` otherwise, and for every `n ≥ 1`,
`t * (n - 1) + o + S ≤ B` if and only if `n ≤ max_count`. -/
theorem C18_max_count_of_indirect_count_draw (command : Func)
    (count_buffer_offset offset stride bufsize : Nat)
    (hcommand : command = Func.vkCmdDrawIndirectCount ∨
      command = Func.vkCmdDrawIndirectCountKHR ∨
      command = Func.vkCmdDrawIndexedIndirectCount ∨
      command = Func.vkCmdDrawIndexedIndirectCountKHR)
    (hcount : count_buffer_offset ≤ 2 ^ 32 - 1)
    (hstride : 0 < stride)
    (hsum : struct_size command + offset < 2 ^ 64)
    (hfit : struct_size command + offset ≤ bufsize →
      1 + (bufsize - struct_size command - offset) / stride < 2 ^ 32) :
    struct_size Func.vkCmdDrawIndirectCount = 16 ∧
    struct_size Func.vkCmdDrawIndirectCountKHR = 16 ∧
    struct_size Func.vkCmdDrawIndexedIndirectCount = 20 ∧
    struct_size Func.vkCmdDrawIndexedIndirectCountKHR = 20 ∧
    ∃ m : Nat,
      max_count command count_buffer_offset offset stride bufsize = some m ∧
      m = (if struct_size command + offset > bufsize then 0
        else 1 + (bufsize - struct_size command - offset) / stride) ∧
      ∀ n : Nat, 1 ≤ n →
        (stride * (n - 1) + offset + struct_size command ≤ bufsize ↔ n ≤ m) := by
  refine ⟨rfl, rfl, rfl, rfl, _,
    max_count_eq command count_buffer_offset offset stride bufsize hcommand hcount hstride hsum
      hfit,
    rfl, ?_⟩
  intro n hn
  exact count_fits_iff (struct_size command) offset stride bufsize n hstride hn

/-- Witness of C18: an indexed indirect count draw with a buffer of 100 bytes, offset 8 and
stride 20: `max_count` is `1 + (100 - 20 - 8) / 20 = 4`. -/
theorem C18_max_count_of_indirect_count_draw_witness :
    max_count Func.vkCmdDrawIndexedIndirectCount 4 8 20 100 = some 4 ∧
    (20 * (4 - 1) + 8 + struct_size Func.vkCmdDrawIndexedIndirectCount ≤ 100) ∧
    ¬ (20 * (5 - 1) + 8 + struct_size Func.vkCmdDrawIndexedIndirectCount ≤ 100) :=
  have w := C18_max_count_of_indirect_count_draw Func.vkCmdDrawIndexedIndirectCount 4 8 20 100
    (by decide) (by decide) (by decide) (by decide) (by decide)
  ⟨by
    obtain ⟨m, h1, h2, _⟩ := w.2.2.2.2
    rw [h1, h2]
    decide,
   by decide, by decide⟩

/-- C19: the trackback constructed from a source subpass, the queue flags and `k` (non-null)
dependencies is constructed, holds exactly `k` barriers, the `i`-th of them the barrier made of
the queue flags and the `i`-th dependency, and records the source subpass; the trackback
constructed from one barrier holds exactly that barrier and the source; the default trackback
has no barriers and a null source. -/
theorem C19_SubpassBarrierTrackback_constructors {SubpassNode Dependency : Type}
    (make_barrier : Nat → Dependency → SyncBarrier)
    (source_subpass_ : Option SubpassNode) (queue_flags_ : Nat)
    (dependencies : List Dependency) (barrier_ : SyncBarrier) :
    (∃ t : SubpassBarrierTrackback SubpassNode,
        SubpassBarrierTrackback.from_dependencies make_barrier source_subpass_ queue_flags_
          (dependencies.map some) = some t ∧
        t.barriers.length = dependencies.length ∧
        (∀ i : Nat, t.barriers[i]? = (dependencies[i]?).map (make_barrier queue_flags_)) ∧
        t.source_subpass = source_subpass_) ∧
    (SubpassBarrierTrackback.from_barrier source_subpass_ barrier_).barriers = [barrier_] ∧
    (SubpassBarrierTrackback.from_barrier source_subpass_ barrier_).source_subpass =
      source_subpass_ ∧
    (SubpassBarrierTrackback.default SubpassNode).barriers = [] ∧
    (SubpassBarrierTrackback.default SubpassNode).source_subpass = none := by
  refine ⟨⟨_, from_dependencies_eq make_barrier source_subpass_ queue_flags_ dependencies,
    ?_, ?_, rfl⟩, rfl, rfl, rfl, rfl⟩
  · simp
  · intro i
    simp

end SyncVal
